import Mathlib

/-!
# eduMiP balance controller: embedding of `balance_body.c` and `balance_mip.c`

C `float`/`double` values are read as exact rationals (`ℚ`), `int` as `Int`;
where an `int` product can leave the 32-bit range (`outer_loop`) it is wrapped
by `int_mul`, and where `float` overflow matters (the saturation check of
`control_step`) the function is given a second time over `float32`, which has
the infinities and NaN.
A C array `float a[3]` is a map from slot index to value; the functions below
only touch slots `0..n` (inputs, numerator) and `0..m` (outputs, denominator),
so with `n ≤ 2` and `m ≤ 2` every access lies inside the three declared slots.
For an order above `2` the C code indexes past the array into the neighbouring
struct field; the maps do not describe that, and statements about the contents
of a controller are to be read for orders within the three slots.
Globals and the state of the hardware collaborators are fields of an explicit
state record that each function takes and returns.
-/

namespace EduMiP

/-! ## Data model (`body_config.h`, `mip_config.h`) -/

/-- The `controller_d_t` struct, identical in `body_config.h` and `mip_config.h`. -/
structure controller_d_t where
  gain : ℚ
  n : Int
  m : Int
  numerator : Nat → ℚ
  denominator : Nat → ℚ
  inputs : Nat → ℚ
  outputs : Nat → ℚ
  saturation : ℚ

/-- The part of `rc_imu_data_t` the programs read: `accel[3]` and `gyro[3]`. -/
structure rc_imu_data_t where
  accel : Nat → ℚ
  gyro : Nat → ℚ

/-- The process-wide operational state kept by the robotics library. -/
inductive rc_state_t where
  | RUNNING
  | PAUSED
  | EXITING
  deriving DecidableEq, Repr

/-! ## C loop index sequences -/

/-- Indices visited by `for(i=0;i<(n+1);i++)`: `0, 1, ..., n` (none when `n < 0`). -/
def loop_up (n : Int) : List Nat := List.range (n + 1).toNat

/-- Indices visited by `for(j=1;j<(m+1);j++)`: `1, 2, ..., m` (none when `m < 1`). -/
def loop_up_from_one (m : Int) : List Nat := (List.range m.toNat).map (· + 1)

/-- Indices visited by `for(k=n;k>0;k--)`: `n, n-1, ..., 1` (none when `n < 1`). -/
def loop_down_to_one (n : Int) : List Nat := ((List.range n.toNat).map (· + 1)).reverse

/-- Indices visited by `for(i=n;i>=0;i--)`: `n, n-1, ..., 0` (none when `n < 0`). -/
def loop_down_to_zero (n : Int) : List Nat := (List.range (n + 1).toNat).reverse

/-! ## C `int` arithmetic -/

def INT_MIN : Int := -2147483648
def INT_MAX : Int := 2147483647

/-- An integer brought into the range of a 32-bit `int` by two's-complement
wrap-around, which is what the target does when an `int` operation overflows. -/
def wrap_int (x : Int) : Int := (x - INT_MIN) % 4294967296 + INT_MIN

/-- The product `a*b` of two `int` operands. -/
def int_mul (a b : Int) : Int := wrap_int (a * b)

/-! ## Discrete compensator (same text in both programs) -/

/-- Assignment `d->inputs[i] = v`. -/
def set_input (d : controller_d_t) (i : Nat) (v : ℚ) : controller_d_t :=
  { d with inputs := Function.update d.inputs i v }

/-- Assignment `d->outputs[j] = v`. -/
def set_output (d : controller_d_t) (j : Nat) (v : ℚ) : controller_d_t :=
  { d with outputs := Function.update d.outputs j v }

/-- Assignment `d.numerator[i] = v`. -/
def set_numerator (d : controller_d_t) (i : Nat) (v : ℚ) : controller_d_t :=
  { d with numerator := Function.update d.numerator i v }

/-- Assignment `d.denominator[j] = v`. -/
def set_denominator (d : controller_d_t) (j : Nat) (v : ℚ) : controller_d_t :=
  { d with denominator := Function.update d.denominator j v }

/-- Function `initialize_controller` (balance_body.c 202-226, balance_mip.c 241-265).
The local `controller_d_t d` is not initialised by the C code; `d` stands for
its indeterminate starting contents. `num` and `den` are the coefficient arrays
the pointers refer to. -/
def initialize_controller (d : controller_d_t) (gain : ℚ) (n m : Int)
    (num den : Nat → ℚ) (sat : ℚ) : controller_d_t :=
  -- for(i=0;i<(n+1);i++){ d.numerator[i]=num[i]; d.inputs[i]=0; }
  let d := (loop_up n).foldl (fun d i => set_input (set_numerator d i (num i)) i 0) d
  -- for(j=0;j<(m+1);j++){ d.denominator[j]=den[j]; d.outputs[j]=0; }
  let d := (loop_up m).foldl (fun d j => set_output (set_denominator d j (den j)) j 0) d
  { d with gain := gain, saturation := sat, n := n, m := m }

/-- Saturation check of `control_step` (lines 253-260): the `if / else if` on
`update_error`. -/
def saturate (update_error saturation : ℚ) : ℚ :=
  if update_error > saturation then saturation
  else if update_error < -saturation then -saturation
  else update_error

/-- Function `control_step` (balance_body.c 234-272, balance_mip.c 273-311):
returns the duty `update_error` together with the updated controller. -/
def control_step (d : controller_d_t) (loop_error : ℚ) : ℚ × controller_d_t :=
  let n := d.n
  let m := d.m
  -- d->inputs[0]=loop_error;
  let d := set_input d 0 loop_error
  -- for(i=0;i<(n+1);i++) d->outputs[0]+=d->gain*d->numerator[i]*d->inputs[i];
  let d := (loop_up n).foldl
    (fun d i => set_output d 0 (d.outputs 0 + d.gain * d.numerator i * d.inputs i)) d
  -- for(j=1;j<(m+1);j++) d->outputs[0]-=d->denominator[j]*d->outputs[j];
  let d := (loop_up_from_one m).foldl
    (fun d j => set_output d 0 (d.outputs 0 - d.denominator j * d.outputs j)) d
  -- d->outputs[0]/=d->denominator[0];
  let d := set_output d 0 (d.outputs 0 / d.denominator 0)
  -- update_error=d->outputs[0]; followed by the saturation check
  let update_error := saturate (d.outputs 0) d.saturation
  -- d->outputs[0]=0;
  let d := set_output d 0 0
  -- for(k=n;k>0;k--) d->inputs[k]=d->inputs[k-1];
  let d := (loop_down_to_one n).foldl (fun d k => set_input d k (d.inputs (k - 1))) d
  -- for(l=m;l>0;l--) d->outputs[l]=d->outputs[l-1];
  let d := (loop_down_to_one m).foldl (fun d l => set_output d l (d.outputs (l - 1))) d
  (update_error, d)

/-- Function `clear_controls` (balance_body.c 279-291, balance_mip.c 318-330). -/
def clear_controls (d : controller_d_t) : controller_d_t :=
  -- for(i=n;i>=0;i--) d->inputs[i]=0;
  let d' := (loop_down_to_zero d.n).foldl (fun d i => set_input d i 0) d
  -- for(j=m;j>=0;j--) d->outputs[j]=0;
  (loop_down_to_zero d.m).foldl (fun d j => set_output d j 0) d'

/-! ## Configuration constants shared by `body_config.h` and `mip_config.h` -/

def TIP_ANGLE : ℚ := 0.8
def OMEGA_C : ℚ := 2
def DT : ℚ := 0.01
def D1_GAIN : ℚ := -4.24
def D1_N : Int := 2
def D1_M : Int := 2
/-- Initialiser `D1_NUM` = `{1, -1.678, 0.6931}`. -/
def D1_NUM : Nat → ℚ := fun i => [1, -1.678, 0.6931].getD i 0
/-- Initialiser `D1_DEN` = `{1, -1.566, 0.566}`. -/
def D1_DEN : Nat → ℚ := fun i => [1, -1.566, 0.566].getD i 0
def D1_SATURATION : ℚ := 1
def MOTOR_CHANNEL_L : Nat := 3
def MOTOR_CHANNEL_R : Nat := 2
def MOTOR_POLARITY_L : ℚ := 1
def MOTOR_POLARITY_R : ℚ := -1
def ENCODER_CHANNEL_L : Nat := 3
def ENCODER_CHANNEL_R : Nat := 2
def ENCODER_POLARITY_L : Int := 1
def ENCODER_POLARITY_R : Int := -1
def GEARBOX : ℚ := 35.577
def ENCODER_RES : ℚ := 60

/-! ## Hardware collaborators (robotics library), seen through the calls made -/

/-- What the programs can observe or change in the robotics library: whether
the motors are enabled, the `rc_set_motor` calls issued so far (oldest first),
the encoder counters, the text printed and the operational state. -/
structure rc_hardware where
  motors_enabled : Bool
  motor_calls : List (Nat × ℚ)
  encoder_pos : Nat → Int
  stdout : List String
  rc_state : rc_state_t

def rc_enable_motors (h : rc_hardware) : rc_hardware := { h with motors_enabled := true }

def rc_disable_motors (h : rc_hardware) : rc_hardware := { h with motors_enabled := false }

/-- Call `rc_set_motor(ch, duty)`: appended to the record of motor commands. -/
def rc_set_motor (h : rc_hardware) (ch : Nat) (duty : ℚ) : rc_hardware :=
  { h with motor_calls := h.motor_calls ++ [(ch, duty)] }

def rc_get_encoder_pos (h : rc_hardware) (ch : Nat) : Int := h.encoder_pos ch

def rc_set_encoder_pos (h : rc_hardware) (ch : Nat) (value : Int) : rc_hardware :=
  { h with encoder_pos := Function.update h.encoder_pos ch value }

def printf (h : rc_hardware) (text : String) : rc_hardware :=
  { h with stdout := h.stdout ++ [text] }

/-! ## Complementary filter -/

/-- The function-local `static` arrays of `complementary_filter`; field
`theta_a0` is `theta_a[0]`, `theta_a1` is `theta_a[1]`, and so on. -/
structure filter_statics where
  theta_a0 : ℚ
  theta_a1 : ℚ
  theta_a_raw0 : ℚ
  theta_a_raw1 : ℚ
  theta_g0 : ℚ
  theta_g1 : ℚ
  theta_g_raw0 : ℚ
  theta_g_raw1 : ℚ

/-- Static storage starts zeroed. -/
def filter_statics_zero : filter_statics :=
  { theta_a0 := 0, theta_a1 := 0, theta_a_raw0 := 0, theta_a_raw1 := 0,
    theta_g0 := 0, theta_g1 := 0, theta_g_raw0 := 0, theta_g_raw1 := 0 }

/-- Body of `complementary_filter` (balance_body.c 169-194, balance_mip.c
209-233); the two programs differ only in the value of `THETA_OFFSET`. The
library function `atan2` and the library constant `DEG_TO_RAD` are parameters.
Returns `theta_f` and the updated statics. -/
def complementary_filter_body (atan2 : ℚ → ℚ → ℚ) (DEG_TO_RAD THETA_OFFSET : ℚ)
    (f : filter_statics) (imu_reader : rc_imu_data_t) : ℚ × filter_statics :=
  -- theta_a_raw[0]=atan2(-imu_reader.accel[2],imu_reader.accel[1]);
  let f := { f with theta_a_raw0 := atan2 (-imu_reader.accel 2) (imu_reader.accel 1) }
  -- theta_g_raw[0]=theta_g_raw[1]+(imu_reader.gyro[0]*DEG_TO_RAD*DT);
  let f := { f with theta_g_raw0 := f.theta_g_raw1 + (imu_reader.gyro 0 * DEG_TO_RAD * DT) }
  -- theta_a[0]=(1-OMEGA_C*DT)*theta_a[1]+(OMEGA_C*DT)*theta_a_raw[1];
  let f := { f with theta_a0 := (1 - OMEGA_C * DT) * f.theta_a1 + (OMEGA_C * DT) * f.theta_a_raw1 }
  -- theta_g[0]=(1-OMEGA_C*DT)*theta_g[1]+theta_g_raw[0]-theta_g_raw[1];
  let f := { f with theta_g0 := (1 - OMEGA_C * DT) * f.theta_g1 + f.theta_g_raw0 - f.theta_g_raw1 }
  -- theta_f=theta_a[0]+theta_g[0]+THETA_OFFSET;
  let theta_f := f.theta_a0 + f.theta_g0 + THETA_OFFSET
  -- update theta values for next iteration
  let f := { f with theta_a_raw1 := f.theta_a_raw0 }
  let f := { f with theta_g_raw1 := f.theta_g_raw0 }
  let f := { f with theta_a1 := f.theta_a0 }
  let f := { f with theta_g1 := f.theta_g0 }
  (theta_f, f)

/-! ## Single-loop program `balance_body.c` -/

namespace Balance_body

def THETA_REFERENCE : ℚ := 0
def THETA_OFFSET : ℚ := 0.15

/-- Globals of `balance_body.c`, the statics of its filter, and the hardware. -/
structure state where
  imu_reader : rc_imu_data_t
  D1 : controller_d_t
  current_theta : ℚ
  theta_error : ℚ
  control_duty : ℚ
  filter : filter_statics
  hw : rc_hardware

/-- Function `complementary_filter` of `balance_body.c`: result and new state. -/
def complementary_filter (atan2 : ℚ → ℚ → ℚ) (DEG_TO_RAD : ℚ) (s : state) : ℚ × state :=
  let r := complementary_filter_body atan2 DEG_TO_RAD THETA_OFFSET s.filter s.imu_reader
  (r.1, { s with filter := r.2 })

/-- Lines 141-148 of `inner_loop`: the tipping check. -/
def tip_check (s : state) : state :=
  if |s.current_theta| > TIP_ANGLE then
    { s with hw := printf (rc_disable_motors s.hw) "Oops,unexpected trustfall!\n" }
  else
    { s with hw := rc_enable_motors s.hw, D1 := clear_controls s.D1 }

/-- Lines 150-154 of `inner_loop`: error, control step and motor commands. -/
def control_and_drive (s : state) : state :=
  let s := { s with theta_error := THETA_REFERENCE - s.current_theta }
  let r := control_step s.D1 s.theta_error
  let s := { s with control_duty := r.1, D1 := r.2 }
  let s := { s with hw := rc_set_motor s.hw MOTOR_CHANNEL_L (MOTOR_POLARITY_L * s.control_duty) }
  { s with hw := rc_set_motor s.hw MOTOR_CHANNEL_R (MOTOR_POLARITY_R * s.control_duty) }

/-- First statement of `inner_loop`: `current_theta=complementary_filter();`. -/
def read_tilt (atan2 : ℚ → ℚ → ℚ) (DEG_TO_RAD : ℚ) (s : state) : state :=
  let r := complementary_filter atan2 DEG_TO_RAD s
  { r.2 with current_theta := r.1 }

/-- Function `inner_loop` of `balance_body.c` (lines 137-158): the tilt is read, the
tipping check runs, then the control step and the motor commands; the closing
`rc_usleep` only passes time. -/
def inner_loop (atan2 : ℚ → ℚ → ℚ) (DEG_TO_RAD : ℚ) (s : state) : state :=
  control_and_drive (tip_check (read_tilt atan2 DEG_TO_RAD s))

/-- One IMU interrupt: the driver stores the new sample in `imu_reader` and
calls `inner_loop`. -/
def imu_interrupt (atan2 : ℚ → ℚ → ℚ) (DEG_TO_RAD : ℚ) (s : state)
    (sample : rc_imu_data_t) : state :=
  inner_loop atan2 DEG_TO_RAD { s with imu_reader := sample }

end Balance_body

/-! ## Dual-loop program `balance_mip.c` -/

namespace Balance_mip

def PHI_REFERENCE : ℚ := 0
def THETA_OFFSET : ℚ := 0.23
def D2_GAIN : ℚ := 0.283
def D2_N : Int := 1
def D2_M : Int := 1
/-- Initialiser `D2_NUM` = `{1, -0.9756}`. -/
def D2_NUM : Nat → ℚ := fun i => [1, -0.9756].getD i 0
/-- Initialiser `D2_DEN` = `{1, -0.5113}`. -/
def D2_DEN : Nat → ℚ := fun i => [1, -0.5113].getD i 0
def D2_SATURATION : ℚ := 0.3

/-- Globals of `balance_mip.c`, the statics of its filter, and the hardware. -/
structure state where
  imu_reader : rc_imu_data_t
  D1 : controller_d_t
  D2 : controller_d_t
  theta_f : ℚ
  theta_r : ℚ
  current_theta : ℚ
  filter : filter_statics
  hw : rc_hardware

/-- Function `complementary_filter` of `balance_mip.c`; here `theta_f` is a global. -/
def complementary_filter (atan2 : ℚ → ℚ → ℚ) (DEG_TO_RAD : ℚ) (s : state) : ℚ × state :=
  let r := complementary_filter_body atan2 DEG_TO_RAD THETA_OFFSET s.filter s.imu_reader
  (r.1, { s with filter := r.2, theta_f := r.1 })

/-- Function `clear_encoders` (lines 337-341). -/
def clear_encoders (s : state) : state :=
  let s := { s with hw := rc_set_encoder_pos s.hw ENCODER_CHANNEL_L 0 }
  { s with hw := rc_set_encoder_pos s.hw ENCODER_CHANNEL_R 0 }

/-- Function `initialize_ops` (lines 348-354). -/
def initialize_ops (s : state) : state :=
  let s := { s with D1 := clear_controls s.D1 }
  let s := { s with D2 := clear_controls s.D2 }
  let s := clear_encoders s
  { s with hw := rc_enable_motors s.hw }

/-- Function `suspend_ops` (lines 361-366). -/
def suspend_ops (s : state) : state :=
  let s := { s with hw := rc_disable_motors s.hw }
  let s := { s with hw := printf s.hw "\r" }
  { s with hw := printf s.hw "Oops,unexpected trustfall!" }

/-- Lines 156-161 of `inner_loop`: the tipping check. -/
def tip_check (s : state) : state :=
  if |s.current_theta| > TIP_ANGLE then suspend_ops s else initialize_ops s

/-- Lines 163-167 of `inner_loop`: error, control step and motor commands;
`theta_error` and `control_duty` are locals here. -/
def control_and_drive (s : state) : state :=
  let theta_error := s.theta_r - s.current_theta
  let r := control_step s.D1 theta_error
  let control_duty := r.1
  let s := { s with D1 := r.2 }
  let s := { s with hw := rc_set_motor s.hw MOTOR_CHANNEL_L (MOTOR_POLARITY_L * control_duty) }
  { s with hw := rc_set_motor s.hw MOTOR_CHANNEL_R (MOTOR_POLARITY_R * control_duty) }

/-- First statement of `inner_loop`: `current_theta=complementary_filter();`. -/
def read_tilt (atan2 : ℚ → ℚ → ℚ) (DEG_TO_RAD : ℚ) (s : state) : state :=
  let r := complementary_filter atan2 DEG_TO_RAD s
  { r.2 with current_theta := r.1 }

/-- Function `inner_loop` of `balance_mip.c` (lines 150-171): the tilt is read, the
tipping check runs, then the control step and the motor commands; the closing
`rc_usleep` only passes time. -/
def inner_loop (atan2 : ℚ → ℚ → ℚ) (DEG_TO_RAD : ℚ) (s : state) : state :=
  control_and_drive (tip_check (read_tilt atan2 DEG_TO_RAD s))

/-- One IMU interrupt: the driver stores the new sample in `imu_reader` and
calls `inner_loop`. -/
def imu_interrupt (atan2 : ℚ → ℚ → ℚ) (DEG_TO_RAD : ℚ) (s : state)
    (sample : rc_imu_data_t) : state :=
  inner_loop atan2 DEG_TO_RAD { s with imu_reader := sample }

/-- Function `outer_loop` (lines 180-198); `TWO_PI` is a library constant and
is a parameter. The encoder count and the polarity are both `int`, so their
product is an `int` product, converted only when it meets `TWO_PI`. The body
runs once and returns. -/
def outer_loop (TWO_PI : ℚ) (s : state) : state :=
  let l_wheel := ((int_mul (rc_get_encoder_pos s.hw ENCODER_CHANNEL_L) ENCODER_POLARITY_L : Int) : ℚ)
    * TWO_PI / (GEARBOX * ENCODER_RES)
  let r_wheel := ((int_mul (rc_get_encoder_pos s.hw ENCODER_CHANNEL_R) ENCODER_POLARITY_R : Int) : ℚ)
    * TWO_PI / (GEARBOX * ENCODER_RES)
  let current_phi := (0.5 * (l_wheel + r_wheel)) - s.current_theta
  let phi_error := PHI_REFERENCE - current_phi
  let r := control_step s.D2 phi_error
  { s with theta_r := r.1, D2 := r.2 }

end Balance_mip

/-! ## Controllers built by `main` and the outer thread -/

/-- Controller `D1` as `main` builds it in both programs (balance_body.c 62-65,
balance_mip.c 66-69), over the starting contents `junk` of the local struct. -/
def initial_D1 (junk : controller_d_t) : controller_d_t :=
  initialize_controller junk D1_GAIN D1_N D1_M D1_NUM D1_DEN D1_SATURATION

/-- Controller `D2` as `main` of `balance_mip.c` builds it (lines 71-74). -/
def Balance_mip.initial_D2 (junk : controller_d_t) : controller_d_t :=
  initialize_controller junk Balance_mip.D2_GAIN Balance_mip.D2_N Balance_mip.D2_M
    Balance_mip.D2_NUM Balance_mip.D2_DEN Balance_mip.D2_SATURATION

/-- The thread `main` creates with `pthread_create(&outer_loop_thread,NULL,outer_loop,NULL)`
(balance_mip.c 80-81): its start routine `outer_loop` is called once and has no
loop, so over a run of any number of outer periods the thread has done one
evaluation of the body. -/
def Balance_mip.outer_thread (TWO_PI : ℚ) (s : Balance_mip.state) (_periods : Nat) :
    Balance_mip.state :=
  Balance_mip.outer_loop TWO_PI s

/-- Estimates returned by `complementary_filter` of `balance_body.c` called once
per sample (the driver stores the sample in `imu_reader` first), with the
state left at the end. -/
def Balance_body.filter_trace (atan2 : ℚ → ℚ → ℚ) (DEG_TO_RAD : ℚ) (s : Balance_body.state) :
    List rc_imu_data_t → List ℚ × Balance_body.state
  | [] => ([], s)
  | x :: xs =>
    let r := Balance_body.complementary_filter atan2 DEG_TO_RAD { s with imu_reader := x }
    let rest := Balance_body.filter_trace atan2 DEG_TO_RAD r.2 xs
    (r.1 :: rest.1, rest.2)

/-- Estimates returned by `complementary_filter` of `balance_mip.c` called once
per sample, with the state left at the end. -/
def Balance_mip.filter_trace (atan2 : ℚ → ℚ → ℚ) (DEG_TO_RAD : ℚ) (s : Balance_mip.state) :
    List rc_imu_data_t → List ℚ × Balance_mip.state
  | [] => ([], s)
  | x :: xs =>
    let r := Balance_mip.complementary_filter atan2 DEG_TO_RAD { s with imu_reader := x }
    let rest := Balance_mip.filter_trace atan2 DEG_TO_RAD r.2 xs
    (r.1 :: rest.1, rest.2)

/-- The controller after `k` calls of `control_step` with the errors
`e 0, e 1, ..., e (k-1)`, starting from `d`. -/
def state_after (d : controller_d_t) (e : Nat → ℚ) : Nat → controller_d_t
  | 0 => d
  | k + 1 => (control_step (state_after d e k) (e k)).2

/-- The duty returned by call number `k` (counted from 0) of that run. -/
def duty_at (d : controller_d_t) (e : Nat → ℚ) (k : Nat) : ℚ :=
  (control_step (state_after d e k) (e k)).1

/-! ## `control_step` with the binary32 special values -/

/-- A `float` as far as overflow matters: a finite value, an infinity or NaN.
Finite results are kept exact (rounding to nearest and the sign of zero are not
modelled); a result whose magnitude reaches `FLT_OVERFLOW`, where rounding to
nearest leaves the finite range, becomes an infinity, and the IEEE 754 rules for
infinities and NaN apply. -/
inductive float32 where
  | finite (q : ℚ)
  | inf (negative : Bool)
  | nan

/-- Largest finite binary32 value, `(2 - 2^-23)·2^127`. -/
def FLT_MAX : ℚ := 340282346638528859811704183484516925440

/-- Overflow threshold of binary32 under round-to-nearest-even, `2^128 - 2^103`
(half a unit in the last place above `FLT_MAX`): an exact result of at least
this magnitude rounds to an infinity. -/
def FLT_OVERFLOW : ℚ := 340282356779733661637539395458142568448

/-- An exact result brought into binary32: from `FLT_OVERFLOW` on it is an
infinity of its sign. -/
def float32.of_exact (q : ℚ) : float32 :=
  if q ≥ FLT_OVERFLOW then float32.inf false
  else if q ≤ -FLT_OVERFLOW then float32.inf true
  else float32.finite q

/-- Unary minus. -/
def float32.neg : float32 → float32
  | float32.finite q => float32.finite (-q)
  | float32.inf s => float32.inf (!s)
  | float32.nan => float32.nan

/-- Addition: infinities of opposite sign give NaN. -/
def float32.add : float32 → float32 → float32
  | float32.finite a, float32.finite b => float32.of_exact (a + b)
  | float32.finite _, float32.inf s => float32.inf s
  | float32.inf s, float32.finite _ => float32.inf s
  | float32.inf s, float32.inf t => if s = t then float32.inf s else float32.nan
  | _, _ => float32.nan

/-- Subtraction. -/
def float32.sub (a b : float32) : float32 := float32.add a (float32.neg b)

/-- Multiplication: zero times an infinity gives NaN. -/
def float32.mul : float32 → float32 → float32
  | float32.finite a, float32.finite b => float32.of_exact (a * b)
  | float32.finite a, float32.inf s =>
    if a = 0 then float32.nan else float32.inf (if a < 0 then !s else s)
  | float32.inf s, float32.finite b =>
    if b = 0 then float32.nan else float32.inf (if b < 0 then !s else s)
  | float32.inf s, float32.inf t => float32.inf (s != t)
  | _, _ => float32.nan

/-- Division: a nonzero value over zero is an infinity, `0/0` and `inf/inf` are NaN. -/
def float32.div : float32 → float32 → float32
  | float32.finite a, float32.finite b =>
    if b = 0 then (if a = 0 then float32.nan else float32.inf (decide (a < 0)))
    else float32.of_exact (a / b)
  | float32.finite _, float32.inf _ => float32.finite 0
  | float32.inf s, float32.finite b => float32.inf (if b < 0 then !s else s)
  | _, _ => float32.nan

/-- Comparison `a > b`; false whenever an operand is NaN. -/
def float32.gt : float32 → float32 → Bool
  | float32.finite a, float32.finite b => decide (a > b)
  | float32.finite _, float32.inf s => s
  | float32.inf s, float32.finite _ => !s
  | float32.inf s, float32.inf t => !s && t
  | _, _ => false

/-- Comparison `a < b`; false whenever an operand is NaN. -/
def float32.lt (a b : float32) : Bool := float32.gt b a

/-- Comparison `a ≤ b`; false whenever an operand is NaN. -/
def float32.le : float32 → float32 → Bool
  | float32.finite a, float32.finite b => decide (a ≤ b)
  | float32.finite _, float32.inf s => !s
  | float32.inf s, float32.finite _ => s
  | float32.inf s, float32.inf t => s || !t
  | _, _ => false

/-- The value has absolute value at most `s`: `-s ≤ x` and `x ≤ s`. -/
def float32.abs_le (x s : float32) : Prop :=
  float32.le (float32.neg s) x = true ∧ float32.le x s = true

/-- The `controller_d_t` struct with its `float` fields read as `float32`. -/
structure controller_f32 where
  gain : float32
  n : Int
  m : Int
  numerator : Nat → float32
  denominator : Nat → float32
  inputs : Nat → float32
  outputs : Nat → float32
  saturation : float32

/-- Function `control_step` (balance_body.c 234-272, balance_mip.c 273-311) with
the arithmetic of `float32`: the same statements as `control_step`. -/
def control_step_f32 (d : controller_f32) (loop_error : float32) : float32 × controller_f32 :=
  let n := d.n
  let m := d.m
  -- d->inputs[0]=loop_error;
  let d := { d with inputs := Function.update d.inputs 0 loop_error }
  -- for(i=0;i<(n+1);i++) d->outputs[0]+=d->gain*d->numerator[i]*d->inputs[i];
  let d := (loop_up n).foldl
    (fun d i =>
      let v := float32.add (d.outputs 0)
        (float32.mul (float32.mul d.gain (d.numerator i)) (d.inputs i))
      { d with outputs := Function.update d.outputs 0 v }) d
  -- for(j=1;j<(m+1);j++) d->outputs[0]-=d->denominator[j]*d->outputs[j];
  let d := (loop_up_from_one m).foldl
    (fun d j =>
      let v := float32.sub (d.outputs 0) (float32.mul (d.denominator j) (d.outputs j))
      { d with outputs := Function.update d.outputs 0 v }) d
  -- d->outputs[0]/=d->denominator[0];
  let v := float32.div (d.outputs 0) (d.denominator 0)
  let d := { d with outputs := Function.update d.outputs 0 v }
  -- update_error=d->outputs[0]; followed by the saturation check
  let update_error := d.outputs 0
  let update_error :=
    if float32.gt update_error d.saturation then d.saturation
    else if float32.lt update_error (float32.neg d.saturation) then float32.neg d.saturation
    else update_error
  -- d->outputs[0]=0;
  let d := { d with outputs := Function.update d.outputs 0 (float32.finite 0) }
  -- for(k=n;k>0;k--) d->inputs[k]=d->inputs[k-1];
  let d := (loop_down_to_one n).foldl
    (fun d k => { d with inputs := Function.update d.inputs k (d.inputs (k - 1)) }) d
  -- for(l=m;l>0;l--) d->outputs[l]=d->outputs[l-1];
  let d := (loop_down_to_one m).foldl
    (fun d l => { d with outputs := Function.update d.outputs l (d.outputs (l - 1)) }) d
  (update_error, d)

/-- Controller `D1` as `main` builds it, with finite `float32` values and a
zero history. -/
def D1_f32 : controller_f32 :=
  { gain := float32.finite D1_GAIN, n := D1_N, m := D1_M,
    numerator := fun i => float32.finite (D1_NUM i),
    denominator := fun j => float32.finite (D1_DEN j),
    inputs := fun _ => float32.finite 0,
    outputs := fun _ => float32.finite 0,
    saturation := float32.finite D1_SATURATION }

/-! ## Specification-side definitions -/

/-- Clamp of `x` to the interval `[lo, hi]`. -/
def clamp (x lo hi : ℚ) : ℚ := max lo (min x hi)

/-- The difference equation as the specification words it: with `in[0] = e`
and `in[i]` the stored `inputs[i]` for `i ≥ 1`,
`(gain · Σ_{i=0..n} numerator[i]·in[i] − Σ_{j=1..m} denominator[j]·outputs[j]) / denominator[0]`. -/
def difference_equation (d : controller_d_t) (e : ℚ) : ℚ :=
  (d.gain * ∑ i ∈ Finset.range (d.n + 1).toNat,
      d.numerator i * (if i = 0 then e else d.inputs i)
    - ∑ j ∈ Finset.Icc 1 d.m.toNat, d.denominator j * d.outputs j) / d.denominator 0

/-- Duties returned by `control_step` called once per error of the list, in
order, together with the controller left at the end. -/
def control_steps (d : controller_d_t) : List ℚ → List ℚ × controller_d_t
  | [] => ([], d)
  | e :: es =>
    let r := control_step d e
    let rest := control_steps r.2 es
    (r.1 :: rest.1, rest.2)

/-- Every history slot of the compensator, `inputs[0..n]` and `outputs[0..m]`, holds 0. -/
def history_zero (d : controller_d_t) : Prop :=
  (∀ i : Nat, (i : Int) ≤ d.n → d.inputs i = 0) ∧ (∀ j : Nat, (j : Int) ≤ d.m → d.outputs j = 0)

/-- The two compensators have the same gain, orders, coefficients and saturation. -/
def same_coefficients (d d' : controller_d_t) : Prop :=
  d'.gain = d.gain ∧ d'.n = d.n ∧ d'.m = d.m ∧ d'.numerator = d.numerator
    ∧ d'.denominator = d.denominator ∧ d'.saturation = d.saturation

/-- A valid compensator configuration: nonzero leading denominator coefficient,
nonnegative saturation limit, and orders that fit the three history slots. -/
structure valid_config (d : controller_d_t) : Prop where
  den_ne_zero : d.denominator 0 ≠ 0
  sat_nonneg : 0 ≤ d.saturation
  n_fits : 0 ≤ d.n ∧ d.n ≤ 2
  m_fits : 0 ≤ d.m ∧ d.m ≤ 2

/-- Compensator states reachable from `d0` by calls of `control_step` (any
error) and `clear_controls`, in any order. -/
inductive reachable (d0 : controller_d_t) : controller_d_t → Prop where
  | start : reachable d0 d0
  | step (d : controller_d_t) (e : ℚ) : reachable d0 d → reachable d0 (control_step d e).2
  | clear (d : controller_d_t) : reachable d0 d → reachable d0 (clear_controls d)

namespace Balance_body

/-- The rest of `inner_loop` once the filter has returned `tilt` (lines 139-154). -/
def tick_with_tilt (s : state) (tilt : ℚ) : state :=
  control_and_drive (tip_check { s with current_theta := tilt })

/-- Motor-enable flag after each of a run of ticks fed the given tilt estimates. -/
def enabled_trace (s : state) : List ℚ → List Bool
  | [] => []
  | tilt :: rest =>
    (tick_with_tilt s tilt).hw.motors_enabled :: enabled_trace (tick_with_tilt s tilt) rest

end Balance_body

namespace Balance_mip

/-- The rest of `inner_loop` once the filter has returned `tilt` (lines 154-167). -/
def tick_with_tilt (s : state) (tilt : ℚ) : state :=
  control_and_drive (tip_check { s with current_theta := tilt })

/-- Motor-enable flag after each of a run of ticks fed the given tilt estimates. -/
def enabled_trace (s : state) : List ℚ → List Bool
  | [] => []
  | tilt :: rest =>
    (tick_with_tilt s tilt).hw.motors_enabled :: enabled_trace (tick_with_tilt s tilt) rest

end Balance_mip

/-- The four-value rolling state of the filter as the specification names it. -/
structure rolling_state where
  theta_a_prev : ℚ
  theta_g_prev : ℚ
  theta_a_raw_prev : ℚ
  theta_g_raw_prev : ℚ

/-- The rolling state held in the statics between calls: the `[1]` slots. -/
def rolling (f : filter_statics) : rolling_state :=
  { theta_a_prev := f.theta_a1, theta_g_prev := f.theta_g1,
    theta_a_raw_prev := f.theta_a_raw1, theta_g_raw_prev := f.theta_g_raw1 }

/-- One filter step as the specification words it, for accelerometer angle `A`
and gyro rate `w`: the fused estimate and the next rolling state. -/
def filter_step_spec (omega_c dt deg_to_rad theta_offset : ℚ) (prev : rolling_state)
    (A w : ℚ) : ℚ × rolling_state :=
  let theta_g_raw := prev.theta_g_raw_prev + w * deg_to_rad * dt
  let theta_a := (1 - omega_c * dt) * prev.theta_a_prev + (omega_c * dt) * prev.theta_a_raw_prev
  let theta_g := (1 - omega_c * dt) * prev.theta_g_prev + (theta_g_raw - prev.theta_g_raw_prev)
  (theta_a + theta_g + theta_offset,
    { theta_a_prev := theta_a, theta_g_prev := theta_g, theta_a_raw_prev := A,
      theta_g_raw_prev := theta_g_raw })

/-- The pass-through compensator of scenario 2: `gain = 1`, `num = [1]`,
`den = [1]` (`n = 0`, `m = 0`), `saturation = 0.5`, built by
`initialize_controller` over the starting contents `junk`. -/
def pass_through (junk : controller_d_t) : controller_d_t :=
  initialize_controller junk 1 0 0 (fun i => [1].getD i 0) (fun i => [1].getD i 0) 0.5

/-- Invariant of the pass-through compensator along any run. -/
def pass_through_inv (d : controller_d_t) : Prop :=
  d.gain = 1 ∧ d.n = 0 ∧ d.m = 0 ∧ d.numerator 0 = 1 ∧ d.denominator 0 = 1
    ∧ d.saturation = 0.5 ∧ d.outputs 0 = 0

/-- The outer-loop position error as the specification words it, for encoder
counts `L`, `R` and tilt `theta`: wheel angles, their mean minus the tilt, and
the difference from the reference. -/
def outer_error_spec (TWO_PI : ℚ) (L R : Int) (theta : ℚ) : ℚ :=
  let l_wheel := (L : ℚ) * 1 * TWO_PI / (GEARBOX * ENCODER_RES)
  let r_wheel := (R : ℚ) * (-1) * TWO_PI / (GEARBOX * ENCODER_RES)
  let current_phi := 0.5 * (l_wheel + r_wheel) - theta
  Balance_mip.PHI_REFERENCE - current_phi

/-- The outer task as the specification has it: `outer_loop` evaluated once per
period, for `k` periods. -/
def outer_task_periodic (TWO_PI : ℚ) (s : Balance_mip.state) : Nat → Balance_mip.state
  | 0 => s
  | k + 1 => Balance_mip.outer_loop TWO_PI (outer_task_periodic TWO_PI s k)

/-- Saturated FIR value for call number `k` (counted from 0) on the errors `e`:
`clamp((gain/denominator[0]) · Σ_{i=0..min(n,k)} numerator[i]·e(k-i), ±saturation)`. -/
def fir_output (d : controller_d_t) (e : Nat → ℚ) (k : Nat) : ℚ :=
  clamp ((d.gain / d.denominator 0)
      * ∑ i ∈ Finset.range (min (d.n + 1).toNat (k + 1)), d.numerator i * e (k - i))
    (-d.saturation) d.saturation

/-- The compensator is fresh: it comes straight from `initialize_controller` or
from `clear_controls`. -/
def fresh (d : controller_d_t) : Prop :=
  (∃ (junk : controller_d_t) (gain : ℚ) (n m : Int) (num den : Nat → ℚ) (sat : ℚ),
      d = initialize_controller junk gain n m num den sat)
    ∨ (∃ d0 : controller_d_t, d = clear_controls d0)

/-- The level-rest sample of scenario 1: `accel = (0, 1, 0)`, `gyro = (0, 0, 0)`. -/
def level_rest_sample : rc_imu_data_t :=
  { accel := fun i => [0, 1, 0].getD i 0, gyro := fun _ => 0 }

/-- The state with the operational state of the library set to `st`. -/
def Balance_body.with_rc_state (s : Balance_body.state) (st : rc_state_t) : Balance_body.state :=
  { s with hw := { s.hw with rc_state := st } }

/-- The state with the operational state of the library set to `st`. -/
def Balance_mip.with_rc_state (s : Balance_mip.state) (st : rc_state_t) : Balance_mip.state :=
  { s with hw := { s.hw with rc_state := st } }

/-- The controller carries the `D1` configuration of the headers: gain, orders,
the coefficient slots `0..2` and the saturation limit; its history is free. -/
def configured_as_D1 (d : controller_d_t) : Prop :=
  d.gain = D1_GAIN ∧ d.n = D1_N ∧ d.m = D1_M
    ∧ (∀ i : Nat, i ≤ 2 → d.numerator i = D1_NUM i)
    ∧ (∀ j : Nat, j ≤ 2 → d.denominator j = D1_DEN j)
    ∧ d.saturation = D1_SATURATION

/-- Accelerometer angle and gyro rate that `complementary_filter` reads from a
sample: `atan2(-accel[2], accel[1])` and `gyro[0]`. -/
def sample_angle_rate (atan2 : ℚ → ℚ → ℚ) (x : rc_imu_data_t) : ℚ × ℚ :=
  (atan2 (-x.accel 2) (x.accel 1), x.gyro 0)

/-- A run of filter steps as the specification words them, over the
(accelerometer angle, gyro rate) pairs of the ticks: the fused estimates and
the last rolling state. -/
def filter_spec_run (omega_c dt deg_to_rad theta_offset : ℚ) (prev : rolling_state) :
    List (ℚ × ℚ) → List ℚ × rolling_state
  | [] => ([], prev)
  | p :: rest =>
    let r := filter_step_spec omega_c dt deg_to_rad theta_offset prev p.1 p.2
    let t := filter_spec_run omega_c dt deg_to_rad theta_offset r.2 rest
    (r.1 :: t.1, t.2)

/-- The integrated gyro angle after each tick, from the angle `g` before the
first: `theta_g_raw[t] = theta_g_raw[t-1] + rate · deg_to_rad · dt`. -/
def integrated_gyro (dt deg_to_rad g : ℚ) : List (ℚ × ℚ) → List ℚ
  | [] => []
  | p :: rest =>
    (g + p.2 * deg_to_rad * dt)
      :: integrated_gyro dt deg_to_rad (g + p.2 * deg_to_rad * dt) rest

/-! ## Example inputs -/

/-- A controller with the `D1` coefficients and a non-trivial history. -/
def example_D1 : controller_d_t :=
  { gain := D1_GAIN, n := D1_N, m := D1_M, numerator := D1_NUM, denominator := D1_DEN,
    inputs := fun i => [0, 0.1, 0.2].getD i 0,
    outputs := fun j => [0, 0.3, 0.1].getD j 0,
    saturation := D1_SATURATION }

/-- A reachable-looking `D1`: two past errors in the input history, outputs zero. -/
def example_D1_running : controller_d_t :=
  { gain := D1_GAIN, n := D1_N, m := D1_M, numerator := D1_NUM, denominator := D1_DEN,
    inputs := fun i => [0.1, 0.1, 0.05].getD i 0,
    outputs := fun _ => 0,
    saturation := D1_SATURATION }

/-- A `D2` as left by one outer-loop step with position error `0.2`. -/
def example_D2_running : controller_d_t :=
  { gain := Balance_mip.D2_GAIN, n := Balance_mip.D2_N, m := Balance_mip.D2_M,
    numerator := Balance_mip.D2_NUM, denominator := Balance_mip.D2_DEN,
    inputs := fun i => [0.2, 0.2].getD i 0,
    outputs := fun _ => 0,
    saturation := Balance_mip.D2_SATURATION }

/-- Hardware with the motors enabled and both wheels away from zero. -/
def example_hardware : rc_hardware :=
  { motors_enabled := true, motor_calls := [],
    encoder_pos := fun ch => if ch = 3 then 120 else if ch = 2 then -75 else 0,
    stdout := [], rc_state := rc_state_t.RUNNING }

/-- The level-rest sample `accel = (0, 1, 0)`, `gyro = (0, 0, 0)`. -/
def example_sample : rc_imu_data_t :=
  { accel := fun i => [0, 1, 0].getD i 0, gyro := fun _ => 0 }

/-- Stand-in for `atan2` in the examples: `atan2(-0, 1) = 0`, the only value used. -/
def example_atan2 : ℚ → ℚ → ℚ := fun _ _ => 0

/-- Stand-in for the library constant `DEG_TO_RAD` in the examples. -/
def example_DEG_TO_RAD : ℚ := 0.0174533

/-- Filter statics of a robot that has been lying at 1 rad. -/
def example_filter_tipped : filter_statics :=
  { filter_statics_zero with theta_a1 := 1, theta_a_raw1 := 1 }

/-- A state of `balance_body` whose next tilt estimate is `1.15 > TIP_ANGLE`. -/
def example_body_state : Balance_body.state :=
  { imu_reader := example_sample, D1 := example_D1_running, current_theta := 0,
    theta_error := 0, control_duty := 0, filter := example_filter_tipped,
    hw := example_hardware }

/-- A state of `balance_mip` whose next tilt estimate is `1.23 > TIP_ANGLE`. -/
def example_mip_state : Balance_mip.state :=
  { imu_reader := example_sample, D1 := example_D1_running, D2 := example_D2_running,
    theta_f := 0, theta_r := 0.05, current_theta := 0, filter := example_filter_tipped,
    hw := example_hardware }

/-- A state of `balance_body` at level rest: next tilt estimate `0.15`. -/
def example_body_state_level : Balance_body.state :=
  { example_body_state with filter := filter_statics_zero }

/-- A state of `balance_mip` at level rest: next tilt estimate `0.23`. -/
def example_mip_state_level : Balance_mip.state :=
  { example_mip_state with filter := filter_statics_zero }

/-- Junk contents for the uninitialised local of `initialize_controller`. -/
def example_junk : controller_d_t :=
  { gain := 7, n := 5, m := -3, numerator := fun _ => 9, denominator := fun _ => 0,
    inputs := fun _ => 11, outputs := fun _ => -4, saturation := -1 }

/-- Stand-in for the library constant `TWO_PI` in the examples. -/
def example_TWO_PI : ℚ := 6.2832

/-- A second `balance_body` state with the same rolling filter state as
`example_body_state` and everything else different. -/
def example_body_state_other : Balance_body.state :=
  { imu_reader := { accel := fun _ => 5, gyro := fun _ => 7 }, D1 := example_D1,
    current_theta := 3, theta_error := -2, control_duty := 1,
    filter := { example_filter_tipped with theta_a0 := 5, theta_g_raw0 := -4 },
    hw := { example_hardware with motors_enabled := false } }

/-- A second `balance_mip` state with the same rolling filter state as
`example_mip_state` and everything else different. -/
def example_mip_state_other : Balance_mip.state :=
  { imu_reader := { accel := fun _ => 5, gyro := fun _ => 7 }, D1 := example_D1,
    D2 := example_D1_running, theta_f := 9, theta_r := -0.3, current_theta := 3,
    filter := { example_filter_tipped with theta_a0 := 5, theta_g_raw0 := -4 },
    hw := { example_hardware with motors_enabled := false } }

/-- A tilting sample: `accel = (0, 1, 1)`, `gyro = (30, 0, 0)`. -/
def example_sample_moving : rc_imu_data_t :=
  { accel := fun i => [0, 1, 1].getD i 0, gyro := fun i => [30, 0, 0].getD i 0 }

/-- An error sequence: `0.1, 0.05, -0.2, 0, 0, ...`. -/
def example_errors : Nat → ℚ := fun k => [0.1, 0.05, -0.2].getD k 0

/-- Stand-in for `atan2` in the examples that tells angles apart: the
small-angle value `y / x` (0 when `x = 0`). -/
def example_atan2_small_angle : ℚ → ℚ → ℚ := fun y x => if x = 0 then 0 else y / x

/-- A sample whose accelerometer angle under the small-angle stand-in is `0.5`. -/
def example_sample_leaning : rc_imu_data_t :=
  { accel := fun i => [0, 1, -0.5].getD i 0, gyro := fun _ => 0 }

/-- Two ticks on which the accelerometer angle follows the integrated gyro
angle: rates `1000` and `-400` with `DEG_TO_RAD = 0.01` and `DT = 0.01` give the
angles `0.1` and `0.06`. -/
def example_samples_agreeing : List rc_imu_data_t :=
  [{ accel := fun i => [0, 1, -0.1].getD i 0, gyro := fun i => [1000, 0, 0].getD i 0 },
   { accel := fun i => [0, 1, -0.06].getD i 0, gyro := fun i => [-400, 0, 0].getD i 0 }]

/-- A state of `balance_mip` with the right encoder at `INT_MIN`, the left at 0
and the tilt at 0. -/
def example_mip_state_far : Balance_mip.state :=
  { example_mip_state with
    hw := { example_hardware with encoder_pos := fun ch => if ch = 2 then INT_MIN else 0 } }

/-! ## Loop lemmas -/

theorem foldl_keeps {α β : Type} (P : α → Prop) (f : α → β → α)
    (hf : ∀ a b, P a → P (f a b)) (l : List β) (a : α) (ha : P a) :
    P (l.foldl f a) := by
  induction l generalizing a with
  | nil => exact ha
  | cons b l ih => exact ih (f a b) (hf a b ha)

theorem set_output_self (d : controller_d_t) (j : Nat) : set_output d j (d.outputs j) = d := by
  simp [set_output]

theorem numerator_loop (l : List Nat) (d : controller_d_t) :
    l.foldl (fun d i => set_output d 0 (d.outputs 0 + d.gain * d.numerator i * d.inputs i)) d
      = set_output d 0
          (d.outputs 0 + (l.map (fun i => d.gain * d.numerator i * d.inputs i)).sum) := by
  induction l generalizing d with
  | nil => simp [set_output]
  | cons a l ih =>
    rw [List.foldl_cons, ih]
    simp [set_output, add_assoc]

theorem denominator_loop (l : List Nat) (hl : ∀ j ∈ l, j ≠ 0) (d : controller_d_t) :
    l.foldl (fun d j => set_output d 0 (d.outputs 0 - d.denominator j * d.outputs j)) d
      = set_output d 0
          (d.outputs 0 - (l.map (fun j => d.denominator j * d.outputs j)).sum) := by
  induction l generalizing d with
  | nil => simp [set_output]
  | cons a l ih =>
    have ha : a ≠ 0 := hl a (List.mem_cons_self a l)
    have hl' : ∀ j ∈ l, j ≠ 0 := fun j hj => hl j (List.mem_cons_of_mem a hj)
    rw [List.foldl_cons, ih hl']
    have hmap : l.map (fun j => (set_output d 0 (d.outputs 0 - d.denominator a * d.outputs a)).denominator j
          * (set_output d 0 (d.outputs 0 - d.denominator a * d.outputs a)).outputs j)
        = l.map (fun j => d.denominator j * d.outputs j) := by
      apply List.map_congr_left
      intro j hj
      simp [set_output, Function.update_noteq (hl' j hj)]
    rw [hmap]
    simp [set_output, Function.update_noteq ha, sub_sub]

theorem loop_up_from_one_ne_zero (m : Int) : ∀ j ∈ loop_up_from_one m, j ≠ 0 := by
  intro j hj
  simp [loop_up_from_one] at hj
  obtain ⟨a, _, rfl⟩ := hj
  exact Nat.succ_ne_zero a

/-- The duty returned by `control_step`, with both accumulation loops summed. -/
theorem control_step_fst (d : controller_d_t) (e : ℚ) :
    (control_step d e).1 = saturate
      ((d.outputs 0
          + ((loop_up d.n).map (fun i => d.gain * d.numerator i * (set_input d 0 e).inputs i)).sum
          - ((loop_up_from_one d.m).map (fun j => d.denominator j * d.outputs j)).sum)
        / d.denominator 0) d.saturation := by
  unfold control_step
  simp only [numerator_loop, denominator_loop _ (loop_up_from_one_ne_zero d.m)]
  have hmap : (loop_up_from_one d.m).map (fun j => d.denominator j *
        (set_output (set_input d 0 e) 0 ((set_input d 0 e).outputs 0 +
          ((loop_up d.n).map (fun i => (set_input d 0 e).gain * (set_input d 0 e).numerator i
            * (set_input d 0 e).inputs i)).sum)).outputs j)
      = (loop_up_from_one d.m).map (fun j => d.denominator j * d.outputs j) := by
    apply List.map_congr_left
    intro j hj
    simp [set_output, set_input, Function.update_noteq (loop_up_from_one_ne_zero d.m j hj)]
  simp only [set_output, set_input, Function.update_same] at hmap ⊢
  rw [hmap]

theorem saturate_eq_clamp (x s : ℚ) (hs : 0 ≤ s) : saturate x s = clamp x (-s) s := by
  unfold saturate clamp
  split_ifs with h1 h2
  · rw [min_eq_right (le_of_lt h1), max_eq_right (by linarith)]
  · rw [min_eq_left (by linarith), max_eq_left (le_of_lt h2)]
  · rw [min_eq_left (by linarith), max_eq_right (by linarith)]

theorem sum_loop_up (n : Int) (f : Nat → ℚ) :
    ((loop_up n).map f).sum = ∑ i ∈ Finset.range (n + 1).toNat, f i := by
  unfold loop_up
  rfl

theorem sum_loop_up_from_one (m : Int) (f : Nat → ℚ) :
    ((loop_up_from_one m).map f).sum = ∑ j ∈ Finset.Icc 1 m.toNat, f j := by
  unfold loop_up_from_one
  rw [← Nat.Ico_succ_right, ← Finset.sum_Ico_add' f 0 m.toNat 1, Nat.Ico_zero_eq_range,
    List.map_map]
  rfl

/-- The duty returned by `control_step` as the clamped difference equation. -/
theorem control_step_fst_eq_clamp (d : controller_d_t) (e : ℚ)
    (_hden : d.denominator 0 ≠ 0) (hsat : 0 ≤ d.saturation) (hout : d.outputs 0 = 0) :
    (control_step d e).1
      = clamp (difference_equation d e) (-d.saturation) d.saturation := by
  rw [control_step_fst, saturate_eq_clamp _ _ hsat, sum_loop_up, sum_loop_up_from_one, hout]
  unfold difference_equation
  congr 2
  rw [zero_add, Finset.mul_sum]
  congr 1
  apply Finset.sum_congr rfl
  intro i _
  simp only [set_input, Function.update_apply, mul_assoc]

/-- Claim C1. `control_step` returns the clamped value of the difference equation:
for a compensator with `denominator[0] ≠ 0`, `saturation ≥ 0` and `outputs[0] = 0`
on entry, and any error `e`, the returned duty is
`clamp(raw, -saturation, +saturation)` with
`raw = (gain·Σ_{i=0..n} numerator[i]·in[i] − Σ_{j=1..m} denominator[j]·outputs[j]) / denominator[0]`,
`in[0] = e` and `in[i]` the entry value of `inputs[i]` for `i ≥ 1`. -/
theorem control_step_difference_equation (d : controller_d_t) (e : ℚ)
    (hden : d.denominator 0 ≠ 0) (hsat : 0 ≤ d.saturation) (hout : d.outputs 0 = 0) :
    (control_step d e).1
      = clamp (difference_equation d e) (-d.saturation) d.saturation :=
  control_step_fst_eq_clamp d e hden hsat hout

theorem abs_saturate_le (x s : ℚ) (hs : 0 ≤ s) : |saturate x s| ≤ s := by
  unfold saturate
  split_ifs with h1 h2
  · rw [abs_of_nonneg hs]
  · rw [abs_neg, abs_of_nonneg hs]
  · rw [abs_le]
    constructor <;> linarith

theorem same_coefficients_refl (d : controller_d_t) : same_coefficients d d :=
  ⟨rfl, rfl, rfl, rfl, rfl, rfl⟩

theorem same_coefficients_set_input (d d' : controller_d_t) (i : Nat) (v : ℚ)
    (h : same_coefficients d d') : same_coefficients d (set_input d' i v) := h

theorem same_coefficients_set_output (d d' : controller_d_t) (j : Nat) (v : ℚ)
    (h : same_coefficients d d') : same_coefficients d (set_output d' j v) := h

/-- `control_step` changes only the two history arrays. -/
theorem control_step_same_coefficients (d : controller_d_t) (e : ℚ) :
    same_coefficients d (control_step d e).2 := by
  unfold control_step
  apply foldl_keeps (same_coefficients d)
  · intro a l ha
    exact same_coefficients_set_output d a _ _ ha
  apply foldl_keeps (same_coefficients d)
  · intro a k ha
    exact same_coefficients_set_input d a _ _ ha
  apply same_coefficients_set_output
  apply same_coefficients_set_output
  apply foldl_keeps (same_coefficients d)
  · intro a j ha
    exact same_coefficients_set_output d a _ _ ha
  apply foldl_keeps (same_coefficients d)
  · intro a i ha
    exact same_coefficients_set_output d a _ _ ha
  exact same_coefficients_set_input d d _ _ (same_coefficients_refl d)

theorem control_step_saturation (d : controller_d_t) (e : ℚ) :
    (control_step d e).2.saturation = d.saturation :=
  (control_step_same_coefficients d e).2.2.2.2.2

theorem control_step_abs_le (d : controller_d_t) (e : ℚ) (hsat : 0 ≤ d.saturation) :
    |(control_step d e).1| ≤ d.saturation := by
  rw [control_step_fst]
  exact abs_saturate_le _ _ hsat

/-- Witness for claim C1: the `D1` coefficients with a non-trivial history and error `0.05`. -/
theorem control_step_difference_equation_witness :
    example_D1.denominator 0 ≠ 0 ∧ 0 ≤ example_D1.saturation ∧ example_D1.outputs 0 = 0
      ∧ (control_step example_D1 0.05).1
        = clamp (difference_equation example_D1 0.05) (-example_D1.saturation)
            example_D1.saturation :=
  ⟨by norm_num [example_D1, D1_DEN], by norm_num [example_D1, D1_SATURATION],
    by norm_num [example_D1],
    control_step_difference_equation example_D1 0.05 (by norm_num [example_D1, D1_DEN])
      (by norm_num [example_D1, D1_SATURATION]) (by norm_num [example_D1])⟩

/-- Saturation bound under exact arithmetic (no overflow, every value a number):
for a compensator with `saturation ≥ 0` and `denominator[0] ≠ 0`, any starting
history and any finite sequence of input errors, every duty returned by
`control_step` along the sequence has absolute value at most `saturation`. The
section on saturation under binary32 overflow shows where `float` departs from
this. -/
theorem saturation_bound (d : controller_d_t) (hsat : 0 ≤ d.saturation)
    (hden : d.denominator 0 ≠ 0) (errors : List ℚ) :
    ∀ u ∈ (control_steps d errors).1, |u| ≤ d.saturation := by
  induction errors generalizing d with
  | nil => intro u hu; simp [control_steps] at hu
  | cons e es ih =>
    intro u hu
    simp only [control_steps, List.mem_cons] at hu
    rcases hu with rfl | hu
    · exact control_step_abs_le d e hsat
    · have hs : (control_step d e).2.saturation = d.saturation := control_step_saturation d e
      have hd : (control_step d e).2.denominator 0 ≠ 0 := by
        rw [(control_step_same_coefficients d e).2.2.2.2.1]; exact hden
      rw [← hs]
      exact ih (control_step d e).2 (by rw [hs]; exact hsat) hd u hu

/-- The exact-arithmetic bound on the `D1` controller driven by errors of both signs. -/
theorem saturation_bound_witness :
    0 ≤ example_D1.saturation ∧ example_D1.denominator 0 ≠ 0
      ∧ ∀ u ∈ (control_steps example_D1 [1000000, -1000000, 0.01]).1,
          |u| ≤ example_D1.saturation :=
  ⟨by norm_num [example_D1, D1_SATURATION], by norm_num [example_D1, D1_DEN],
    saturation_bound example_D1 (by norm_num [example_D1, D1_SATURATION])
      (by norm_num [example_D1, D1_DEN]) [1000000, -1000000, 0.01]⟩

/-! ## `clear_controls` -/

theorem clear_inputs_loop (l : List Nat) (d : controller_d_t) :
    l.foldl (fun d i => set_input d i 0) d
      = { d with inputs := fun i => if i ∈ l then 0 else d.inputs i } := by
  induction l generalizing d with
  | nil => simp
  | cons a l ih =>
    rw [List.foldl_cons, ih]
    simp only [set_input, List.mem_cons]
    congr 1
    funext i
    by_cases hl : i ∈ l
    · simp [hl]
    · by_cases ha : i = a
      · subst ha
        simp [hl]
      · simp [hl, ha, Function.update_noteq ha]

theorem clear_outputs_loop (l : List Nat) (d : controller_d_t) :
    l.foldl (fun d j => set_output d j 0) d
      = { d with outputs := fun j => if j ∈ l then 0 else d.outputs j } := by
  induction l generalizing d with
  | nil => simp
  | cons a l ih =>
    rw [List.foldl_cons, ih]
    simp only [set_output, List.mem_cons]
    congr 1
    funext j
    by_cases hl : j ∈ l
    · simp [hl]
    · by_cases ha : j = a
      · subst ha
        simp [hl]
      · simp [hl, ha, Function.update_noteq ha]

theorem mem_loop_down_to_zero (n : Int) (i : Nat) : i ∈ loop_down_to_zero n ↔ (i : Int) ≤ n := by
  simp only [loop_down_to_zero, List.mem_reverse, List.mem_range]
  omega

theorem mem_loop_up (n : Int) (i : Nat) : i ∈ loop_up n ↔ (i : Int) ≤ n := by
  simp only [loop_up, List.mem_range]
  omega

theorem mem_loop_up_from_one (m : Int) (j : Nat) :
    j ∈ loop_up_from_one m ↔ 1 ≤ j ∧ (j : Int) ≤ m := by
  simp only [loop_up_from_one, List.mem_map, List.mem_range]
  constructor
  · rintro ⟨a, ha, rfl⟩
    omega
  · rintro ⟨h1, h2⟩
    exact ⟨j - 1, by omega, by omega⟩

/-- Closed form of `clear_controls`: slots `0..n` of `inputs` and `0..m` of
`outputs` become 0, every other slot and every other field is kept. -/
theorem clear_controls_eq (d : controller_d_t) :
    clear_controls d
      = { d with
          inputs := fun i => if (i : Int) ≤ d.n then 0 else d.inputs i
          outputs := fun j => if (j : Int) ≤ d.m then 0 else d.outputs j } := by
  unfold clear_controls
  simp only [clear_inputs_loop, clear_outputs_loop, mem_loop_down_to_zero]

theorem clear_controls_history_zero (d : controller_d_t) : history_zero (clear_controls d) := by
  rw [clear_controls_eq]
  constructor
  · intro i hi
    simp only at hi ⊢
    rw [if_pos hi]
  · intro j hj
    simp only at hj ⊢
    rw [if_pos hj]

theorem clear_controls_same_coefficients (d : controller_d_t) :
    same_coefficients d (clear_controls d) := by
  rw [clear_controls_eq]
  exact ⟨rfl, rfl, rfl, rfl, rfl, rfl⟩

/-- Claim C7. `clear_controls` zeroes the history and nothing else: afterwards every
slot `inputs[0..n]` and `outputs[0..m]` is 0; gain, `n`, `m`, numerator,
denominator and saturation are what they were; the array slots above `n` and
`m` are not written; and clearing twice is the same as clearing once. -/
theorem clear_controls_zeroes_history_only (d : controller_d_t) :
    history_zero (clear_controls d)
      ∧ same_coefficients d (clear_controls d)
      ∧ (∀ i : Nat, d.n < (i : Int) → (clear_controls d).inputs i = d.inputs i)
      ∧ (∀ j : Nat, d.m < (j : Int) → (clear_controls d).outputs j = d.outputs j)
      ∧ clear_controls (clear_controls d) = clear_controls d := by
  refine ⟨clear_controls_history_zero d, clear_controls_same_coefficients d, ?_, ?_, ?_⟩
  · intro i hi
    rw [clear_controls_eq]
    simp only
    rw [if_neg (not_le.mpr hi)]
  · intro j hj
    rw [clear_controls_eq]
    simp only
    rw [if_neg (not_le.mpr hj)]
  · rw [clear_controls_eq (clear_controls d), clear_controls_eq d]
    simp only
    congr 1
    · funext i
      by_cases h : (i : Int) ≤ d.n <;> simp [h]
    · funext j
      by_cases h : (j : Int) ≤ d.m <;> simp [h]

/-- With a zero history (`m ≥ 0`, so that `outputs[0]` is one of its slots) and a
nonnegative saturation limit, a zero error gives a zero duty. -/
theorem control_step_zero_of_history_zero (d : controller_d_t) (hz : history_zero d)
    (hm : 0 ≤ d.m) (hsat : 0 ≤ d.saturation) : (control_step d 0).1 = 0 := by
  rw [control_step_fst]
  have h1 : ((loop_up d.n).map
      (fun i => d.gain * d.numerator i * (set_input d 0 0).inputs i)).sum = 0 := by
    apply List.sum_eq_zero
    intro x hx
    rw [List.mem_map] at hx
    obtain ⟨i, hi, rfl⟩ := hx
    have hin : (set_input d 0 0).inputs i = 0 := by
      simp only [set_input, Function.update_apply]
      split_ifs
      · rfl
      · exact hz.1 i ((mem_loop_up d.n i).mp hi)
    rw [hin, mul_zero]
  have h2 : ((loop_up_from_one d.m).map (fun j => d.denominator j * d.outputs j)).sum = 0 := by
    apply List.sum_eq_zero
    intro x hx
    rw [List.mem_map] at hx
    obtain ⟨j, hj, rfl⟩ := hx
    rw [hz.2 j ((mem_loop_up_from_one d.m j).mp hj).2, mul_zero]
  have h3 : d.outputs 0 + 0 - 0 = d.outputs 0 := by ring
  rw [h1, h2, h3]
  rw [hz.2 0 (by exact_mod_cast hm), zero_div]
  unfold saturate
  rw [if_neg (not_lt.mpr hsat), if_neg (by linarith)]

/-- Claim C6. Clear then zero step: for every valid compensator configuration
(`denominator[0] ≠ 0`, `saturation ≥ 0`, orders within the history capacity)
and every prior history, `clear_controls` followed at once by `control_step`
with error 0 returns exactly 0. -/
theorem clear_then_zero_step (d : controller_d_t) (h : valid_config d) :
    (control_step (clear_controls d) 0).1 = 0 := by
  have hc := clear_controls_same_coefficients d
  apply control_step_zero_of_history_zero _ (clear_controls_history_zero d)
  · rw [hc.2.2.1]
    exact h.m_fits.1
  · rw [hc.2.2.2.2.2]
    exact h.sat_nonneg

/-- Witness for claim C6: the `D1` coefficients with a non-trivial prior history. -/
theorem clear_then_zero_step_witness :
    valid_config example_D1 ∧ (control_step (clear_controls example_D1) 0).1 = 0 :=
  ⟨⟨by norm_num [example_D1, D1_DEN], by norm_num [example_D1, D1_SATURATION],
      by simp [example_D1, D1_N], by simp [example_D1, D1_M]⟩,
    clear_then_zero_step example_D1
      ⟨by norm_num [example_D1, D1_DEN], by norm_num [example_D1, D1_SATURATION],
        by simp [example_D1, D1_N], by simp [example_D1, D1_M]⟩⟩

/-! ## Safety supervisor -/

theorem body_control_and_drive_motors_enabled (s : Balance_body.state) :
    (Balance_body.control_and_drive s).hw.motors_enabled = s.hw.motors_enabled := rfl

theorem mip_control_and_drive_motors_enabled (s : Balance_mip.state) :
    (Balance_mip.control_and_drive s).hw.motors_enabled = s.hw.motors_enabled := rfl

theorem body_tick_motors_enabled (s : Balance_body.state) (tilt : ℚ) :
    (Balance_body.tick_with_tilt s tilt).hw.motors_enabled = decide (|tilt| ≤ TIP_ANGLE) := by
  unfold Balance_body.tick_with_tilt
  rw [body_control_and_drive_motors_enabled]
  unfold Balance_body.tip_check
  by_cases h : |tilt| > TIP_ANGLE
  · simp [h, rc_disable_motors, printf]
  · simp [h, rc_enable_motors, not_lt.mp h]

theorem mip_tick_motors_enabled (s : Balance_mip.state) (tilt : ℚ) :
    (Balance_mip.tick_with_tilt s tilt).hw.motors_enabled = decide (|tilt| ≤ TIP_ANGLE) := by
  unfold Balance_mip.tick_with_tilt
  rw [mip_control_and_drive_motors_enabled]
  unfold Balance_mip.tip_check
  by_cases h : |tilt| > TIP_ANGLE
  · simp [h, Balance_mip.suspend_ops, rc_disable_motors, printf]
  · simp [h, Balance_mip.initialize_ops, Balance_mip.clear_encoders, rc_enable_motors,
      rc_set_encoder_pos, not_lt.mp h]

theorem body_enabled_trace_eq (s : Balance_body.state) (tilts : List ℚ) :
    Balance_body.enabled_trace s tilts = tilts.map (fun t => decide (|t| ≤ TIP_ANGLE)) := by
  induction tilts generalizing s with
  | nil => rfl
  | cons t ts ih =>
    simp only [Balance_body.enabled_trace, List.map_cons, body_tick_motors_enabled, ih]

theorem mip_enabled_trace_eq (s : Balance_mip.state) (tilts : List ℚ) :
    Balance_mip.enabled_trace s tilts = tilts.map (fun t => decide (|t| ≤ TIP_ANGLE)) := by
  induction tilts generalizing s with
  | nil => rfl
  | cons t ts ih =>
    simp only [Balance_mip.enabled_trace, List.map_cons, mip_tick_motors_enabled, ih]

/-- Claim C3. Safety supervisor transition law, for `balance_body` and `balance_mip`
alike: `inner_loop` is the filter call followed by `tick_with_tilt` on the
value it returned; after a tick the motors are disabled iff that tick's
`|tilt| > TIP_ANGLE = 0.8` and enabled iff `|tilt| ≤ 0.8`, whatever the state
before the tick; hence along any sequence of tilt estimates the enable flag
after each tick is `|tilt| ≤ 0.8` of that tick alone (`|tilt| = 0.8` is SAFE). -/
theorem supervisor_transition_law :
    TIP_ANGLE = 0.8
    ∧ (∀ (atan2 : ℚ → ℚ → ℚ) (DEG_TO_RAD : ℚ) (s : Balance_body.state),
        Balance_body.inner_loop atan2 DEG_TO_RAD s
          = Balance_body.tick_with_tilt (Balance_body.complementary_filter atan2 DEG_TO_RAD s).2
              (Balance_body.complementary_filter atan2 DEG_TO_RAD s).1)
    ∧ (∀ (atan2 : ℚ → ℚ → ℚ) (DEG_TO_RAD : ℚ) (s : Balance_mip.state),
        Balance_mip.inner_loop atan2 DEG_TO_RAD s
          = Balance_mip.tick_with_tilt (Balance_mip.complementary_filter atan2 DEG_TO_RAD s).2
              (Balance_mip.complementary_filter atan2 DEG_TO_RAD s).1)
    ∧ (∀ (s : Balance_body.state) (tilt : ℚ),
        ((Balance_body.tick_with_tilt s tilt).hw.motors_enabled = false ↔ |tilt| > TIP_ANGLE)
        ∧ ((Balance_body.tick_with_tilt s tilt).hw.motors_enabled = true ↔ |tilt| ≤ TIP_ANGLE))
    ∧ (∀ (s : Balance_mip.state) (tilt : ℚ),
        ((Balance_mip.tick_with_tilt s tilt).hw.motors_enabled = false ↔ |tilt| > TIP_ANGLE)
        ∧ ((Balance_mip.tick_with_tilt s tilt).hw.motors_enabled = true ↔ |tilt| ≤ TIP_ANGLE))
    ∧ (∀ (s : Balance_body.state) (tilts : List ℚ),
        Balance_body.enabled_trace s tilts = tilts.map (fun t => decide (|t| ≤ TIP_ANGLE)))
    ∧ (∀ (s : Balance_mip.state) (tilts : List ℚ),
        Balance_mip.enabled_trace s tilts = tilts.map (fun t => decide (|t| ≤ TIP_ANGLE))) := by
  refine ⟨by norm_num [TIP_ANGLE], fun _ _ _ => rfl, fun _ _ _ => rfl, ?_, ?_,
    body_enabled_trace_eq, mip_enabled_trace_eq⟩
  · intro s tilt
    rw [body_tick_motors_enabled]
    simp
  · intro s tilt
    rw [mip_tick_motors_enabled]
    simp

/-- Scenario 3 of the specification on both programs: tilt driven from `0` up to
`0.9` and back; the motors are off exactly on the ticks with `|tilt| > 0.8`. -/
theorem enabled_trace_scenario :
    Balance_body.enabled_trace example_body_state [0, 0.5, 0.8, 0.81, 0.9, 0.8, -0.9, 0]
        = [true, true, true, false, false, true, false, true]
    ∧ Balance_mip.enabled_trace example_mip_state [0, 0.5, 0.8, 0.81, 0.9, 0.8, -0.9, 0]
        = [true, true, true, false, false, true, false, true] := by
  rw [body_enabled_trace_eq, mip_enabled_trace_eq]
  norm_num [TIP_ANGLE, abs_le]

theorem body_tip_check_safe (s : Balance_body.state) (h : |s.current_theta| ≤ TIP_ANGLE) :
    Balance_body.tip_check s
      = { s with hw := rc_enable_motors s.hw, D1 := clear_controls s.D1 } := by
  unfold Balance_body.tip_check
  rw [if_neg (not_lt.mpr h)]

theorem body_tip_check_tripped (s : Balance_body.state) (h : |s.current_theta| > TIP_ANGLE) :
    Balance_body.tip_check s
      = { s with hw := printf (rc_disable_motors s.hw) "Oops,unexpected trustfall!\n" } := by
  unfold Balance_body.tip_check
  rw [if_pos h]

theorem mip_tip_check_safe (s : Balance_mip.state) (h : |s.current_theta| ≤ TIP_ANGLE) :
    Balance_mip.tip_check s = Balance_mip.initialize_ops s := by
  unfold Balance_mip.tip_check
  rw [if_neg (not_lt.mpr h)]

theorem mip_tip_check_tripped (s : Balance_mip.state) (h : |s.current_theta| > TIP_ANGLE) :
    Balance_mip.tip_check s = Balance_mip.suspend_ops s := by
  unfold Balance_mip.tip_check
  rw [if_pos h]

/-- Claim C4. Clear on SAFE: on an `inner_loop` tick whose `|tilt| ≤ TIP_ANGLE` the
tipping check hands the control step cleared compensators. Single loop: `D1`
is `clear_controls` of the old `D1` (every history slot 0, coefficients
unchanged), the motors are enabled, and the `D1` left by the tick is
`control_step` run on that cleared `D1`. Dual loop: the same for `D1`, and in
addition `D2` is cleared and both wheel encoder positions are 0. -/
theorem clear_on_safe (atan2 : ℚ → ℚ → ℚ) (DEG_TO_RAD : ℚ)
    (sb : Balance_body.state) (sm : Balance_mip.state)
    (hb : |(Balance_body.read_tilt atan2 DEG_TO_RAD sb).current_theta| ≤ TIP_ANGLE)
    (hm : |(Balance_mip.read_tilt atan2 DEG_TO_RAD sm).current_theta| ≤ TIP_ANGLE) :
    ((Balance_body.tip_check (Balance_body.read_tilt atan2 DEG_TO_RAD sb)).D1
        = clear_controls sb.D1
      ∧ history_zero (clear_controls sb.D1)
      ∧ same_coefficients sb.D1 (clear_controls sb.D1)
      ∧ (Balance_body.tip_check (Balance_body.read_tilt atan2 DEG_TO_RAD sb)).hw.motors_enabled
          = true
      ∧ (Balance_body.inner_loop atan2 DEG_TO_RAD sb).D1
          = (control_step (clear_controls sb.D1) (Balance_body.THETA_REFERENCE
              - (Balance_body.read_tilt atan2 DEG_TO_RAD sb).current_theta)).2
      ∧ (Balance_body.inner_loop atan2 DEG_TO_RAD sb).hw.motors_enabled = true)
    ∧ ((Balance_mip.tip_check (Balance_mip.read_tilt atan2 DEG_TO_RAD sm)).D1
        = clear_controls sm.D1
      ∧ (Balance_mip.tip_check (Balance_mip.read_tilt atan2 DEG_TO_RAD sm)).D2
        = clear_controls sm.D2
      ∧ history_zero (clear_controls sm.D1) ∧ history_zero (clear_controls sm.D2)
      ∧ same_coefficients sm.D1 (clear_controls sm.D1)
      ∧ same_coefficients sm.D2 (clear_controls sm.D2)
      ∧ (Balance_mip.tip_check (Balance_mip.read_tilt atan2 DEG_TO_RAD sm)).hw.encoder_pos
          ENCODER_CHANNEL_L = 0
      ∧ (Balance_mip.tip_check (Balance_mip.read_tilt atan2 DEG_TO_RAD sm)).hw.encoder_pos
          ENCODER_CHANNEL_R = 0
      ∧ (Balance_mip.tip_check (Balance_mip.read_tilt atan2 DEG_TO_RAD sm)).hw.motors_enabled
          = true
      ∧ (Balance_mip.inner_loop atan2 DEG_TO_RAD sm).D1
          = (control_step (clear_controls sm.D1)
              (sm.theta_r - (Balance_mip.read_tilt atan2 DEG_TO_RAD sm).current_theta)).2
      ∧ (Balance_mip.inner_loop atan2 DEG_TO_RAD sm).D2 = clear_controls sm.D2
      ∧ (Balance_mip.inner_loop atan2 DEG_TO_RAD sm).hw.encoder_pos ENCODER_CHANNEL_L = 0
      ∧ (Balance_mip.inner_loop atan2 DEG_TO_RAD sm).hw.encoder_pos ENCODER_CHANNEL_R = 0
      ∧ (Balance_mip.inner_loop atan2 DEG_TO_RAD sm).hw.motors_enabled = true) := by
  have eb := body_tip_check_safe _ hb
  have em := mip_tip_check_safe _ hm
  refine ⟨⟨?_, clear_controls_history_zero _, clear_controls_same_coefficients _, ?_, ?_, ?_⟩,
    ⟨?_, ?_, clear_controls_history_zero _, clear_controls_history_zero _,
      clear_controls_same_coefficients _, clear_controls_same_coefficients _,
      ?_, ?_, ?_, ?_, ?_, ?_, ?_, ?_⟩⟩
  · rw [eb]; rfl
  · rw [eb]; rfl
  · unfold Balance_body.inner_loop
    rw [eb]; rfl
  · unfold Balance_body.inner_loop
    rw [eb]; rfl
  · rw [em]; rfl
  · rw [em]; rfl
  · rw [em]
    simp [Balance_mip.initialize_ops, Balance_mip.clear_encoders, rc_set_encoder_pos,
      rc_enable_motors, ENCODER_CHANNEL_L, ENCODER_CHANNEL_R]
  · rw [em]
    simp [Balance_mip.initialize_ops, Balance_mip.clear_encoders, rc_set_encoder_pos,
      rc_enable_motors, ENCODER_CHANNEL_R]
  · rw [em]; rfl
  · unfold Balance_mip.inner_loop
    rw [em]; rfl
  · unfold Balance_mip.inner_loop
    rw [em]; rfl
  · unfold Balance_mip.inner_loop
    rw [em]
    simp [Balance_mip.control_and_drive, Balance_mip.initialize_ops, Balance_mip.clear_encoders,
      rc_set_encoder_pos, rc_enable_motors, rc_set_motor, ENCODER_CHANNEL_L, ENCODER_CHANNEL_R]
  · unfold Balance_mip.inner_loop
    rw [em]
    simp [Balance_mip.control_and_drive, Balance_mip.initialize_ops, Balance_mip.clear_encoders,
      rc_set_encoder_pos, rc_enable_motors, rc_set_motor, ENCODER_CHANNEL_R]
  · unfold Balance_mip.inner_loop
    rw [em]; rfl

theorem example_body_level_tilt :
    (Balance_body.read_tilt example_atan2 example_DEG_TO_RAD example_body_state_level).current_theta
      = 0.15 := by
  norm_num [Balance_body.read_tilt, Balance_body.complementary_filter, complementary_filter_body,
    example_body_state_level, example_body_state, example_atan2, example_sample,
    filter_statics_zero, OMEGA_C, DT, Balance_body.THETA_OFFSET]

theorem example_mip_level_tilt :
    (Balance_mip.read_tilt example_atan2 example_DEG_TO_RAD example_mip_state_level).current_theta
      = 0.23 := by
  norm_num [Balance_mip.read_tilt, Balance_mip.complementary_filter, complementary_filter_body,
    example_mip_state_level, example_mip_state, example_atan2, example_sample,
    filter_statics_zero, OMEGA_C, DT, Balance_mip.THETA_OFFSET]

theorem example_body_tipped_tilt :
    (Balance_body.read_tilt example_atan2 example_DEG_TO_RAD example_body_state).current_theta
      = 1.15 := by
  norm_num [Balance_body.read_tilt, Balance_body.complementary_filter, complementary_filter_body,
    example_body_state, example_atan2, example_sample, example_filter_tipped,
    filter_statics_zero, OMEGA_C, DT, Balance_body.THETA_OFFSET]

theorem example_mip_tipped_tilt :
    (Balance_mip.read_tilt example_atan2 example_DEG_TO_RAD example_mip_state).current_theta
      = 1.23 := by
  norm_num [Balance_mip.read_tilt, Balance_mip.complementary_filter, complementary_filter_body,
    example_mip_state, example_atan2, example_sample, example_filter_tipped,
    filter_statics_zero, OMEGA_C, DT, Balance_mip.THETA_OFFSET]

/-- Witness for claim C4: both programs at level rest (tilt `0.15` and `0.23`). -/
theorem clear_on_safe_witness :
    |(Balance_body.read_tilt example_atan2 example_DEG_TO_RAD
        example_body_state_level).current_theta| ≤ TIP_ANGLE
    ∧ |(Balance_mip.read_tilt example_atan2 example_DEG_TO_RAD
        example_mip_state_level).current_theta| ≤ TIP_ANGLE
    ∧ (Balance_body.tip_check (Balance_body.read_tilt example_atan2 example_DEG_TO_RAD
        example_body_state_level)).D1 = clear_controls example_body_state_level.D1
    ∧ (Balance_mip.inner_loop example_atan2 example_DEG_TO_RAD
        example_mip_state_level).D2 = clear_controls example_mip_state_level.D2 :=
  ⟨by rw [example_body_level_tilt]; norm_num [TIP_ANGLE, abs_le],
    by rw [example_mip_level_tilt]; norm_num [TIP_ANGLE, abs_le],
    (clear_on_safe example_atan2 example_DEG_TO_RAD example_body_state_level
      example_mip_state_level
      (by rw [example_body_level_tilt]; norm_num [TIP_ANGLE, abs_le])
      (by rw [example_mip_level_tilt]; norm_num [TIP_ANGLE, abs_le])).1.1,
    (clear_on_safe example_atan2 example_DEG_TO_RAD example_body_state_level
      example_mip_state_level
      (by rw [example_body_level_tilt]; norm_num [TIP_ANGLE, abs_le])
      (by rw [example_mip_level_tilt]; norm_num [TIP_ANGLE, abs_le])).2.2.2.2.2.2.2.2.2.2.2.1⟩

/-! ## Complementary filter -/

theorem complementary_filter_body_eq (atan2 : ℚ → ℚ → ℚ) (DEG_TO_RAD THETA_OFFSET : ℚ)
    (f : filter_statics) (imu : rc_imu_data_t) :
    (complementary_filter_body atan2 DEG_TO_RAD THETA_OFFSET f imu).1
        = (filter_step_spec OMEGA_C DT DEG_TO_RAD THETA_OFFSET (rolling f)
            (atan2 (-imu.accel 2) (imu.accel 1)) (imu.gyro 0)).1
      ∧ rolling (complementary_filter_body atan2 DEG_TO_RAD THETA_OFFSET f imu).2
        = (filter_step_spec OMEGA_C DT DEG_TO_RAD THETA_OFFSET (rolling f)
            (atan2 (-imu.accel 2) (imu.accel 1)) (imu.gyro 0)).2 := by
  constructor
  · simp only [complementary_filter_body, filter_step_spec, rolling]
    ring
  · simp only [complementary_filter_body, filter_step_spec, rolling]
    congr 1
    ring

/-- Claim C5. Complementary filter step. With `OMEGA_C = 2`, `DT = 0.01` and
`THETA_OFFSET = 0.15` (balance_body) or `0.23` (balance_mip), and the statics
starting all zero, one call of `complementary_filter` on previous rolling
state `(theta_a_prev, theta_g_prev, theta_a_raw_prev, theta_g_raw_prev)` and a
sample with `A = atan2(-accel.z, accel.y)`, `w = gyro.x` computes
`theta_g_raw = theta_g_raw_prev + w*DEG_TO_RAD*DT`,
`theta_a = (1 - OMEGA_C*DT)*theta_a_prev + (OMEGA_C*DT)*theta_a_raw_prev`,
`theta_g = (1 - OMEGA_C*DT)*theta_g_prev + (theta_g_raw - theta_g_raw_prev)`,
returns `theta_a + theta_g + THETA_OFFSET` and leaves the rolling state
`(theta_a, theta_g, A, theta_g_raw)`. -/
theorem complementary_filter_step (atan2 : ℚ → ℚ → ℚ) (DEG_TO_RAD : ℚ)
    (sb : Balance_body.state) (sm : Balance_mip.state) :
    rolling filter_statics_zero = ⟨0, 0, 0, 0⟩
    ∧ (Balance_body.complementary_filter atan2 DEG_TO_RAD sb).1
        = (filter_step_spec 2 0.01 DEG_TO_RAD 0.15 (rolling sb.filter)
            (atan2 (-sb.imu_reader.accel 2) (sb.imu_reader.accel 1)) (sb.imu_reader.gyro 0)).1
    ∧ rolling (Balance_body.complementary_filter atan2 DEG_TO_RAD sb).2.filter
        = (filter_step_spec 2 0.01 DEG_TO_RAD 0.15 (rolling sb.filter)
            (atan2 (-sb.imu_reader.accel 2) (sb.imu_reader.accel 1)) (sb.imu_reader.gyro 0)).2
    ∧ (Balance_mip.complementary_filter atan2 DEG_TO_RAD sm).1
        = (filter_step_spec 2 0.01 DEG_TO_RAD 0.23 (rolling sm.filter)
            (atan2 (-sm.imu_reader.accel 2) (sm.imu_reader.accel 1)) (sm.imu_reader.gyro 0)).1
    ∧ rolling (Balance_mip.complementary_filter atan2 DEG_TO_RAD sm).2.filter
        = (filter_step_spec 2 0.01 DEG_TO_RAD 0.23 (rolling sm.filter)
            (atan2 (-sm.imu_reader.accel 2) (sm.imu_reader.accel 1)) (sm.imu_reader.gyro 0)).2 := by
  have hb := complementary_filter_body_eq atan2 DEG_TO_RAD Balance_body.THETA_OFFSET
    sb.filter sb.imu_reader
  have hm := complementary_filter_body_eq atan2 DEG_TO_RAD Balance_mip.THETA_OFFSET
    sm.filter sm.imu_reader
  have h1 : OMEGA_C = 2 := rfl
  have h2 : DT = 0.01 := rfl
  have h3 : Balance_body.THETA_OFFSET = 0.15 := rfl
  have h4 : Balance_mip.THETA_OFFSET = 0.23 := rfl
  rw [h1, h2, h3] at hb
  rw [h1, h2, h4] at hm
  exact ⟨rfl, hb.1, hb.2, hm.1, hm.2⟩

/-! ## Pass-through scenario -/

theorem foldl_keeps_mem {α β : Type} (P : α → Prop) (f : α → β → α) (l : List β)
    (hf : ∀ a b, b ∈ l → P a → P (f a b)) (a : α) (ha : P a) :
    P (l.foldl f a) := by
  induction l generalizing a with
  | nil => exact ha
  | cons b l ih =>
    exact ih (fun a' b' hb' => hf a' b' (List.mem_cons_of_mem b hb')) (f a b)
      (hf a b (List.mem_cons_self b l) ha)

theorem mem_loop_down_to_one (n : Int) (k : Nat) :
    k ∈ loop_down_to_one n ↔ 1 ≤ k ∧ (k : Int) ≤ n := by
  simp only [loop_down_to_one, List.mem_reverse, List.mem_map, List.mem_range]
  constructor
  · rintro ⟨a, ha, rfl⟩
    omega
  · rintro ⟨h1, h2⟩
    exact ⟨k - 1, by omega, by omega⟩

/-- After `control_step` the slot `outputs[0]` holds 0. -/
theorem control_step_outputs_zero (d : controller_d_t) (e : ℚ) :
    (control_step d e).2.outputs 0 = 0 := by
  unfold control_step
  apply foldl_keeps_mem (fun d' : controller_d_t => d'.outputs 0 = 0)
  · intro a l hl ha
    have hl0 : (0 : Nat) ≠ l := by
      have := ((mem_loop_down_to_one d.m l).mp hl).1
      omega
    simp only [set_output, Function.update_noteq hl0]
    exact ha
  apply foldl_keeps (fun d' : controller_d_t => d'.outputs 0 = 0)
  · intro a k ha
    exact ha
  simp [set_output]

theorem pass_through_inv_start (junk : controller_d_t) : pass_through_inv (pass_through junk) := by
  have hr : List.range 1 = [0] := rfl
  simp [pass_through_inv, pass_through, initialize_controller, loop_up, set_input, set_output,
    set_numerator, set_denominator, hr]

theorem pass_through_inv_reachable (junk d : controller_d_t)
    (h : reachable (pass_through junk) d) : pass_through_inv d := by
  induction h with
  | start => exact pass_through_inv_start junk
  | step d e _ ih =>
    obtain ⟨h1, h2, h3, h4, h5, h6, _⟩ := ih
    have hc := control_step_same_coefficients d e
    exact ⟨hc.1.trans h1, hc.2.1.trans h2, hc.2.2.1.trans h3, by rw [hc.2.2.2.1]; exact h4,
      by rw [hc.2.2.2.2.1]; exact h5, hc.2.2.2.2.2.trans h6, control_step_outputs_zero d e⟩
  | clear d _ ih =>
    obtain ⟨h1, h2, h3, h4, h5, h6, h7⟩ := ih
    have hc := clear_controls_same_coefficients d
    refine ⟨hc.1.trans h1, hc.2.1.trans h2, hc.2.2.1.trans h3, by rw [hc.2.2.2.1]; exact h4,
      by rw [hc.2.2.2.2.1]; exact h5, hc.2.2.2.2.2.trans h6, ?_⟩
    rw [clear_controls_eq]
    simp [h7]

theorem pass_through_step (d : controller_d_t) (h : pass_through_inv d) (e : ℚ) :
    (control_step d e).1 = clamp e (-0.5) 0.5 := by
  obtain ⟨h1, h2, h3, h4, h5, h6, h7⟩ := h
  rw [control_step_fst_eq_clamp d e (by rw [h5]; exact one_ne_zero)
    (by rw [h6]; norm_num) h7, h6]
  congr 1
  simp [difference_equation, h1, h2, h3, h4, h5]

/-- Claim C8. Pass-through saturation scenario: for the compensator built by
`initialize_controller` with `gain = 1`, `numerator = [1]`, `denominator = [1]`
(`n = 0`, `m = 0`) and `saturation = 0.5`, `control_step(0.9)` returns `0.5`,
and after `clear_controls`, `control_step(-0.9)` returns `-0.5`; in every state
reached from it by steps and clears, a step with input `e` returns
`clamp(e, -0.5, 0.5)`. -/
theorem pass_through_scenario (junk : controller_d_t) :
    (control_step (pass_through junk) 0.9).1 = 0.5
    ∧ (control_step (clear_controls (control_step (pass_through junk) 0.9).2) (-0.9)).1 = -0.5
    ∧ ∀ d : controller_d_t, reachable (pass_through junk) d →
        ∀ e : ℚ, (control_step d e).1 = clamp e (-0.5) 0.5 := by
  have hgen : ∀ d : controller_d_t, reachable (pass_through junk) d →
      ∀ e : ℚ, (control_step d e).1 = clamp e (-0.5) 0.5 :=
    fun d hd e => pass_through_step d (pass_through_inv_reachable junk d hd) e
  refine ⟨?_, ?_, hgen⟩
  · rw [hgen _ reachable.start]
    norm_num [clamp]
  · rw [hgen _ (reachable.clear _ (reachable.step _ _ reachable.start))]
    norm_num [clamp]

/-- Witness for claim C8: a third step, with error `0.3`, after a step and a clear. -/
theorem pass_through_scenario_witness :
    reachable (pass_through example_junk)
        (clear_controls (control_step (pass_through example_junk) 0.9).2)
    ∧ (control_step (clear_controls (control_step (pass_through example_junk) 0.9).2) 0.3).1
        = clamp 0.3 (-0.5) 0.5 :=
  ⟨reachable.clear _ (reachable.step _ _ reachable.start),
    (pass_through_scenario example_junk).2.2 _
      (reachable.clear _ (reachable.step _ _ reachable.start)) 0.3⟩

/-! ## Tipped ticks -/

/-- Claim C9. Trip in the single-loop program gates actuation but not computation:
on an `inner_loop` tick of `balance_body` with `|tilt| > TIP_ANGLE` the tipping
check disables the motors and leaves `D1` as it was; the control step is still
evaluated, so `D1` after the tick is what `control_step` makes of the pre-tick
`D1` with error `THETA_REFERENCE - tilt`, and its duty is still passed to both
motor channels. -/
theorem body_trip_gates_actuation_only (atan2 : ℚ → ℚ → ℚ) (DEG_TO_RAD : ℚ)
    (s : Balance_body.state)
    (h : |(Balance_body.read_tilt atan2 DEG_TO_RAD s).current_theta| > TIP_ANGLE) :
    (Balance_body.tip_check (Balance_body.read_tilt atan2 DEG_TO_RAD s)).D1 = s.D1
    ∧ (Balance_body.tip_check (Balance_body.read_tilt atan2 DEG_TO_RAD s)).hw.motors_enabled
        = false
    ∧ (Balance_body.inner_loop atan2 DEG_TO_RAD s).hw.motors_enabled = false
    ∧ (Balance_body.inner_loop atan2 DEG_TO_RAD s).D1
        = (control_step s.D1 (Balance_body.THETA_REFERENCE
            - (Balance_body.read_tilt atan2 DEG_TO_RAD s).current_theta)).2
    ∧ (Balance_body.inner_loop atan2 DEG_TO_RAD s).control_duty
        = (control_step s.D1 (Balance_body.THETA_REFERENCE
            - (Balance_body.read_tilt atan2 DEG_TO_RAD s).current_theta)).1
    ∧ (Balance_body.inner_loop atan2 DEG_TO_RAD s).hw.motor_calls
        = s.hw.motor_calls
          ++ [(MOTOR_CHANNEL_L,
                MOTOR_POLARITY_L * (Balance_body.inner_loop atan2 DEG_TO_RAD s).control_duty),
              (MOTOR_CHANNEL_R,
                MOTOR_POLARITY_R * (Balance_body.inner_loop atan2 DEG_TO_RAD s).control_duty)] := by
  have e := body_tip_check_tripped _ h
  refine ⟨?_, ?_, ?_, ?_, ?_, ?_⟩
  · rw [e]; rfl
  · rw [e]; rfl
  · unfold Balance_body.inner_loop
    rw [e]; rfl
  · unfold Balance_body.inner_loop
    rw [e]; rfl
  · unfold Balance_body.inner_loop
    rw [e]; rfl
  · unfold Balance_body.inner_loop
    rw [e]
    simp [Balance_body.control_and_drive, rc_set_motor, printf, rc_disable_motors,
      Balance_body.read_tilt, Balance_body.complementary_filter]

/-- Witness for claim C9: a robot lying at 1 rad: the tilt estimate is `1.15`. -/
theorem body_trip_gates_actuation_only_witness :
    |(Balance_body.read_tilt example_atan2 example_DEG_TO_RAD example_body_state).current_theta|
        > TIP_ANGLE
    ∧ (Balance_body.inner_loop example_atan2 example_DEG_TO_RAD example_body_state).D1
        = (control_step example_body_state.D1 (Balance_body.THETA_REFERENCE
            - (Balance_body.read_tilt example_atan2 example_DEG_TO_RAD
                example_body_state).current_theta)).2 :=
  ⟨by rw [example_body_tipped_tilt]; norm_num [TIP_ANGLE, lt_abs],
    (body_trip_gates_actuation_only example_atan2 example_DEG_TO_RAD example_body_state
      (by rw [example_body_tipped_tilt]; norm_num [TIP_ANGLE, lt_abs])).2.2.2.1⟩

/-- Counterexample to claim C10 as stated: a tipped tick of `balance_mip` (tilt estimate `1.23`)
on a state with history in `D1` and `D2` and both wheels away from zero: after
`suspend_ops`, and after the whole tick, `D2` still holds its history and both
encoders their counts; `D1` is not cleared either. -/
theorem mip_trip_clears_counterexample :
    |(Balance_mip.read_tilt example_atan2 example_DEG_TO_RAD example_mip_state).current_theta|
        > TIP_ANGLE
    ∧ ¬ history_zero
        (Balance_mip.tip_check
          (Balance_mip.read_tilt example_atan2 example_DEG_TO_RAD example_mip_state)).D1
    ∧ ¬ history_zero
        (Balance_mip.tip_check
          (Balance_mip.read_tilt example_atan2 example_DEG_TO_RAD example_mip_state)).D2
    ∧ (Balance_mip.tip_check
          (Balance_mip.read_tilt example_atan2 example_DEG_TO_RAD example_mip_state)).hw.encoder_pos
        ENCODER_CHANNEL_L = 120
    ∧ (Balance_mip.tip_check
          (Balance_mip.read_tilt example_atan2 example_DEG_TO_RAD example_mip_state)).hw.encoder_pos
        ENCODER_CHANNEL_R = -75
    ∧ ¬ history_zero (Balance_mip.inner_loop example_atan2 example_DEG_TO_RAD example_mip_state).D2
    ∧ (Balance_mip.inner_loop example_atan2 example_DEG_TO_RAD example_mip_state).hw.encoder_pos
        ENCODER_CHANNEL_L = 120
    ∧ (Balance_mip.inner_loop example_atan2 example_DEG_TO_RAD example_mip_state).hw.encoder_pos
        ENCODER_CHANNEL_R = -75 := by
  have ht : |(Balance_mip.read_tilt example_atan2 example_DEG_TO_RAD
      example_mip_state).current_theta| > TIP_ANGLE := by
    rw [example_mip_tipped_tilt]; norm_num [TIP_ANGLE, lt_abs]
  have e := mip_tip_check_tripped _ ht
  have hD1 : ¬ history_zero example_D1_running := by
    intro hz
    have := hz.1 1 (by simp [example_D1_running, D1_N])
    norm_num [example_D1_running] at this
  have hD2 : ¬ history_zero example_D2_running := by
    intro hz
    have := hz.1 1 (by simp [example_D2_running, Balance_mip.D2_N])
    norm_num [example_D2_running] at this
  refine ⟨ht, ?_, ?_, ?_, ?_, ?_, ?_, ?_⟩
  · rw [e]; exact hD1
  · rw [e]; exact hD2
  · rw [e]; rfl
  · rw [e]; rfl
  · unfold Balance_mip.inner_loop
    rw [e]; exact hD2
  · unfold Balance_mip.inner_loop
    rw [e]; rfl
  · unfold Balance_mip.inner_loop
    rw [e]; rfl

/-- Claim C10, amended. Trip in the dual-loop program: on an `inner_loop` tick of
`balance_mip` with `|tilt| > TIP_ANGLE` the tipping check is `suspend_ops`, which
disables motor actuation and prints, and changes nothing else: `D1`, `D2` and
both wheel encoders are as before. After the whole tick `D2` and the encoders
are still unchanged and `D1` has been advanced by `control_step` with error
`theta_r - tilt`. -/
theorem mip_trip_disables_only (atan2 : ℚ → ℚ → ℚ) (DEG_TO_RAD : ℚ) (s : Balance_mip.state)
    (h : |(Balance_mip.read_tilt atan2 DEG_TO_RAD s).current_theta| > TIP_ANGLE) :
    Balance_mip.tip_check (Balance_mip.read_tilt atan2 DEG_TO_RAD s)
        = Balance_mip.suspend_ops (Balance_mip.read_tilt atan2 DEG_TO_RAD s)
    ∧ (Balance_mip.suspend_ops (Balance_mip.read_tilt atan2 DEG_TO_RAD s)).hw.motors_enabled
        = false
    ∧ (Balance_mip.suspend_ops (Balance_mip.read_tilt atan2 DEG_TO_RAD s)).D1 = s.D1
    ∧ (Balance_mip.suspend_ops (Balance_mip.read_tilt atan2 DEG_TO_RAD s)).D2 = s.D2
    ∧ (Balance_mip.suspend_ops (Balance_mip.read_tilt atan2 DEG_TO_RAD s)).hw.encoder_pos
        = s.hw.encoder_pos
    ∧ (Balance_mip.inner_loop atan2 DEG_TO_RAD s).hw.motors_enabled = false
    ∧ (Balance_mip.inner_loop atan2 DEG_TO_RAD s).D1
        = (control_step s.D1
            (s.theta_r - (Balance_mip.read_tilt atan2 DEG_TO_RAD s).current_theta)).2
    ∧ (Balance_mip.inner_loop atan2 DEG_TO_RAD s).D2 = s.D2
    ∧ (Balance_mip.inner_loop atan2 DEG_TO_RAD s).hw.encoder_pos = s.hw.encoder_pos := by
  have e := mip_tip_check_tripped _ h
  refine ⟨e, rfl, rfl, rfl, rfl, ?_, ?_, ?_, ?_⟩
  · unfold Balance_mip.inner_loop
    rw [e]; rfl
  · unfold Balance_mip.inner_loop
    rw [e]; rfl
  · unfold Balance_mip.inner_loop
    rw [e]; rfl
  · unfold Balance_mip.inner_loop
    rw [e]; rfl

/-- Witness for claim C10: the tipped example state of `balance_mip`. -/
theorem mip_trip_disables_only_witness :
    |(Balance_mip.read_tilt example_atan2 example_DEG_TO_RAD example_mip_state).current_theta|
        > TIP_ANGLE
    ∧ (Balance_mip.inner_loop example_atan2 example_DEG_TO_RAD example_mip_state).D2
        = example_mip_state.D2 :=
  ⟨by rw [example_mip_tipped_tilt]; norm_num [TIP_ANGLE, lt_abs],
    (mip_trip_disables_only example_atan2 example_DEG_TO_RAD example_mip_state
      (by rw [example_mip_tipped_tilt]; norm_num [TIP_ANGLE, lt_abs])).2.2.2.2.2.2.2.1⟩

/-! ## Motor commands and the outer loop -/

theorem tip_check_saturation_body (s : Balance_body.state) :
    (Balance_body.tip_check s).D1.saturation = s.D1.saturation := by
  unfold Balance_body.tip_check
  split_ifs
  · rfl
  · exact (clear_controls_same_coefficients s.D1).2.2.2.2.2

theorem tip_check_saturation_mip (s : Balance_mip.state) :
    (Balance_mip.tip_check s).D1.saturation = s.D1.saturation := by
  unfold Balance_mip.tip_check
  split_ifs
  · rfl
  · exact (clear_controls_same_coefficients s.D1).2.2.2.2.2

theorem tip_check_motor_calls_body (s : Balance_body.state) :
    (Balance_body.tip_check s).hw.motor_calls = s.hw.motor_calls := by
  unfold Balance_body.tip_check
  split_ifs <;> rfl

theorem tip_check_motor_calls_mip (s : Balance_mip.state) :
    (Balance_mip.tip_check s).hw.motor_calls = s.hw.motor_calls := by
  unfold Balance_mip.tip_check
  split_ifs <;> rfl

theorem tip_check_current_theta_body (s : Balance_body.state) :
    (Balance_body.tip_check s).current_theta = s.current_theta := by
  unfold Balance_body.tip_check
  split_ifs <;> rfl

theorem tip_check_reference_mip (s : Balance_mip.state) :
    (Balance_mip.tip_check s).theta_r = s.theta_r
      ∧ (Balance_mip.tip_check s).current_theta = s.current_theta := by
  unfold Balance_mip.tip_check
  split_ifs <;> exact ⟨rfl, rfl⟩

theorem abs_le_one_bounds (x : ℚ) (h : |x| ≤ 1) : (-1 ≤ x ∧ x ≤ 1) ∧ (-1 ≤ -x ∧ -x ≤ 1) := by
  rw [abs_le] at h
  exact ⟨h, by constructor <;> linarith⟩

/-- Claim C11. Motor commands are mirrored and in range: on an `inner_loop` tick
of either program, whatever the tilt, the reference and the history of `D1`,
the tick issues exactly two motor commands, `+duty` to the left channel (3) and
`-duty` to the right channel (2), where `duty` is what `control_step` returns
for the `D1` the tipping check hands over and the error `reference - tilt`; the
two commands sum to 0 and, with `D1_SATURATION = 1`, both lie in `[-1, 1]`. -/
theorem motor_commands_mirrored (atan2 : ℚ → ℚ → ℚ) (DEG_TO_RAD : ℚ)
    (sb : Balance_body.state) (sm : Balance_mip.state)
    (hb : sb.D1.saturation = D1_SATURATION) (hm : sm.D1.saturation = D1_SATURATION) :
    MOTOR_CHANNEL_L = 3 ∧ MOTOR_CHANNEL_R = 2 ∧ D1_SATURATION = 1
    ∧ (∃ duty : ℚ,
        duty = (control_step
            (Balance_body.tip_check (Balance_body.read_tilt atan2 DEG_TO_RAD sb)).D1
            (Balance_body.THETA_REFERENCE
              - (Balance_body.read_tilt atan2 DEG_TO_RAD sb).current_theta)).1
        ∧ (Balance_body.inner_loop atan2 DEG_TO_RAD sb).hw.motor_calls
            = sb.hw.motor_calls ++ [(MOTOR_CHANNEL_L, duty), (MOTOR_CHANNEL_R, -duty)]
        ∧ duty + -duty = 0
        ∧ (-1 ≤ duty ∧ duty ≤ 1) ∧ (-1 ≤ -duty ∧ -duty ≤ 1))
    ∧ (∃ duty : ℚ,
        duty = (control_step
            (Balance_mip.tip_check (Balance_mip.read_tilt atan2 DEG_TO_RAD sm)).D1
            (sm.theta_r - (Balance_mip.read_tilt atan2 DEG_TO_RAD sm).current_theta)).1
        ∧ (Balance_mip.inner_loop atan2 DEG_TO_RAD sm).hw.motor_calls
            = sm.hw.motor_calls ++ [(MOTOR_CHANNEL_L, duty), (MOTOR_CHANNEL_R, -duty)]
        ∧ duty + -duty = 0
        ∧ (-1 ≤ duty ∧ duty ≤ 1) ∧ (-1 ≤ -duty ∧ -duty ≤ 1)) := by
  have h1 : D1_SATURATION = 1 := rfl
  refine ⟨rfl, rfl, h1, ⟨_, rfl, ?_, add_neg_cancel _, ?_⟩, ⟨_, rfl, ?_, add_neg_cancel _, ?_⟩⟩
  · have hc := tip_check_motor_calls_body (Balance_body.read_tilt atan2 DEG_TO_RAD sb)
    have ht := tip_check_current_theta_body (Balance_body.read_tilt atan2 DEG_TO_RAD sb)
    simp only [Balance_body.inner_loop, Balance_body.control_and_drive, rc_set_motor,
      MOTOR_POLARITY_L, MOTOR_POLARITY_R, hc, ht, one_mul, neg_one_mul, List.append_assoc,
      List.singleton_append]
    rfl
  · apply abs_le_one_bounds
    have hs : (Balance_body.tip_check (Balance_body.read_tilt atan2 DEG_TO_RAD sb)).D1.saturation
        = 1 := by
      rw [tip_check_saturation_body]
      exact hb.trans h1
    have := control_step_abs_le
      (Balance_body.tip_check (Balance_body.read_tilt atan2 DEG_TO_RAD sb)).D1
      (Balance_body.THETA_REFERENCE - (Balance_body.read_tilt atan2 DEG_TO_RAD sb).current_theta)
      (by rw [hs]; exact zero_le_one)
    rwa [hs] at this
  · have hc := tip_check_motor_calls_mip (Balance_mip.read_tilt atan2 DEG_TO_RAD sm)
    have ht := tip_check_reference_mip (Balance_mip.read_tilt atan2 DEG_TO_RAD sm)
    simp only [Balance_mip.inner_loop, Balance_mip.control_and_drive, rc_set_motor,
      MOTOR_POLARITY_L, MOTOR_POLARITY_R, hc, ht.1, ht.2, one_mul, neg_one_mul,
      List.append_assoc, List.singleton_append]
    rfl
  · apply abs_le_one_bounds
    have hs : (Balance_mip.tip_check (Balance_mip.read_tilt atan2 DEG_TO_RAD sm)).D1.saturation
        = 1 := by
      rw [tip_check_saturation_mip]
      exact hm.trans h1
    have := control_step_abs_le
      (Balance_mip.tip_check (Balance_mip.read_tilt atan2 DEG_TO_RAD sm)).D1
      (sm.theta_r - (Balance_mip.read_tilt atan2 DEG_TO_RAD sm).current_theta)
      (by rw [hs]; exact zero_le_one)
    rwa [hs] at this

/-- Witness for claim C11: the tipped example states of both programs, whose `D1`
carries the configured saturation. -/
theorem motor_commands_mirrored_witness :
    example_body_state.D1.saturation = D1_SATURATION
    ∧ example_mip_state.D1.saturation = D1_SATURATION
    ∧ ∃ duty : ℚ,
        duty = (control_step
            (Balance_mip.tip_check
              (Balance_mip.read_tilt example_atan2 example_DEG_TO_RAD example_mip_state)).D1
            (example_mip_state.theta_r
              - (Balance_mip.read_tilt example_atan2 example_DEG_TO_RAD
                  example_mip_state).current_theta)).1
        ∧ (Balance_mip.inner_loop example_atan2 example_DEG_TO_RAD
              example_mip_state).hw.motor_calls
            = example_mip_state.hw.motor_calls
                ++ [(MOTOR_CHANNEL_L, duty), (MOTOR_CHANNEL_R, -duty)]
        ∧ duty + -duty = 0
        ∧ (-1 ≤ duty ∧ duty ≤ 1) ∧ (-1 ≤ -duty ∧ -duty ≤ 1) :=
  ⟨rfl, rfl,
    (motor_commands_mirrored example_atan2 example_DEG_TO_RAD example_body_state
      example_mip_state rfl rfl).2.2.2.2⟩

theorem outer_error_spec_eq (TWO_PI : ℚ) (L R : Int) (theta : ℚ) :
    outer_error_spec TWO_PI L R theta
      = theta - (TWO_PI / 2) * ((L : ℚ) - (R : ℚ)) / (35.577 * 60) := by
  unfold outer_error_spec GEARBOX ENCODER_RES Balance_mip.PHI_REFERENCE
  ring

theorem int_mul_one (a : Int) (h1 : INT_MIN ≤ a) (h2 : a ≤ INT_MAX) : int_mul a 1 = a := by
  unfold int_mul wrap_int
  unfold INT_MIN at h1 ⊢
  unfold INT_MAX at h2
  omega

theorem int_mul_neg_one (a : Int) (h1 : INT_MIN < a) (h2 : a ≤ INT_MAX) :
    int_mul a (-1) = -a := by
  unfold int_mul wrap_int
  unfold INT_MIN at h1 ⊢
  unfold INT_MAX at h2
  omega

theorem int_mul_min_neg_one : int_mul INT_MIN (-1) = INT_MIN := by
  unfold int_mul wrap_int INT_MIN
  omega

/-- What `outer_loop` does to the state, with the error it computes written out. -/
theorem outer_loop_unfold (TWO_PI : ℚ) (s : Balance_mip.state) :
    Balance_mip.outer_loop TWO_PI s
      = { s with
          theta_r := (control_step s.D2 (Balance_mip.PHI_REFERENCE
            - (0.5 * (((int_mul (s.hw.encoder_pos ENCODER_CHANNEL_L) 1 : Int) : ℚ) * TWO_PI
                  / (GEARBOX * ENCODER_RES)
                + ((int_mul (s.hw.encoder_pos ENCODER_CHANNEL_R) (-1) : Int) : ℚ) * TWO_PI
                  / (GEARBOX * ENCODER_RES))
              - s.current_theta))).1
          D2 := (control_step s.D2 (Balance_mip.PHI_REFERENCE
            - (0.5 * (((int_mul (s.hw.encoder_pos ENCODER_CHANNEL_L) 1 : Int) : ℚ) * TWO_PI
                  / (GEARBOX * ENCODER_RES)
                + ((int_mul (s.hw.encoder_pos ENCODER_CHANNEL_R) (-1) : Int) : ℚ) * TWO_PI
                  / (GEARBOX * ENCODER_RES))
              - s.current_theta))).2 } := rfl

/-- When neither `int` product overflows, `outer_loop` steps `D2` with the error
of the specification. -/
theorem outer_loop_eq (TWO_PI : ℚ) (s : Balance_mip.state)
    (hL : INT_MIN ≤ s.hw.encoder_pos ENCODER_CHANNEL_L ∧ s.hw.encoder_pos ENCODER_CHANNEL_L ≤ INT_MAX)
    (hR : INT_MIN < s.hw.encoder_pos ENCODER_CHANNEL_R ∧ s.hw.encoder_pos ENCODER_CHANNEL_R ≤ INT_MAX) :
    Balance_mip.outer_loop TWO_PI s
      = { s with
          theta_r := (control_step s.D2 (outer_error_spec TWO_PI
            (s.hw.encoder_pos ENCODER_CHANNEL_L) (s.hw.encoder_pos ENCODER_CHANNEL_R)
            s.current_theta)).1
          D2 := (control_step s.D2 (outer_error_spec TWO_PI
            (s.hw.encoder_pos ENCODER_CHANNEL_L) (s.hw.encoder_pos ENCODER_CHANNEL_R)
            s.current_theta)).2 } := by
  rw [outer_loop_unfold, int_mul_one _ hL.1 hL.2, int_mul_neg_one _ hR.1 hR.2]
  have herr : Balance_mip.PHI_REFERENCE
      - (0.5 * (((s.hw.encoder_pos ENCODER_CHANNEL_L : Int) : ℚ) * TWO_PI / (GEARBOX * ENCODER_RES)
            + ((-(s.hw.encoder_pos ENCODER_CHANNEL_R) : Int) : ℚ) * TWO_PI
              / (GEARBOX * ENCODER_RES))
          - s.current_theta)
      = outer_error_spec TWO_PI (s.hw.encoder_pos ENCODER_CHANNEL_L)
          (s.hw.encoder_pos ENCODER_CHANNEL_R) s.current_theta := by
    unfold outer_error_spec
    push_cast
    ring
  rw [herr]

/-! ## `initialize_controller` -/

theorem init_numerator_loop (num : Nat → ℚ) (l : List Nat) (d : controller_d_t) :
    l.foldl (fun d i => set_input (set_numerator d i (num i)) i 0) d
      = { d with
          numerator := fun i => if i ∈ l then num i else d.numerator i
          inputs := fun i => if i ∈ l then 0 else d.inputs i } := by
  induction l generalizing d with
  | nil => simp
  | cons a l ih =>
    rw [List.foldl_cons, ih]
    simp only [set_input, set_numerator, List.mem_cons]
    congr 1
    · funext i
      by_cases hl : i ∈ l
      · simp [hl]
      · by_cases ha : i = a
        · subst ha
          simp [hl]
        · simp [hl, ha, Function.update_noteq ha]
    · funext i
      by_cases hl : i ∈ l
      · simp [hl]
      · by_cases ha : i = a
        · subst ha
          simp [hl]
        · simp [hl, ha, Function.update_noteq ha]

theorem init_denominator_loop (den : Nat → ℚ) (l : List Nat) (d : controller_d_t) :
    l.foldl (fun d j => set_output (set_denominator d j (den j)) j 0) d
      = { d with
          denominator := fun j => if j ∈ l then den j else d.denominator j
          outputs := fun j => if j ∈ l then 0 else d.outputs j } := by
  induction l generalizing d with
  | nil => simp
  | cons a l ih =>
    rw [List.foldl_cons, ih]
    simp only [set_output, set_denominator, List.mem_cons]
    congr 1
    · funext j
      by_cases hl : j ∈ l
      · simp [hl]
      · by_cases ha : j = a
        · subst ha
          simp [hl]
        · simp [hl, ha, Function.update_noteq ha]
    · funext j
      by_cases hl : j ∈ l
      · simp [hl]
      · by_cases ha : j = a
        · subst ha
          simp [hl]
        · simp [hl, ha, Function.update_noteq ha]

/-- Closed form of `initialize_controller`: the arguments are stored as given,
slots `0..n` and `0..m` are filled, the other slots keep the starting contents. -/
theorem initialize_controller_eq (junk : controller_d_t) (gain : ℚ) (n m : Int)
    (num den : Nat → ℚ) (sat : ℚ) :
    initialize_controller junk gain n m num den sat
      = { gain := gain, n := n, m := m,
          numerator := fun i => if (i : Int) ≤ n then num i else junk.numerator i
          denominator := fun j => if (j : Int) ≤ m then den j else junk.denominator j
          inputs := fun i => if (i : Int) ≤ n then 0 else junk.inputs i
          outputs := fun j => if (j : Int) ≤ m then 0 else junk.outputs j
          saturation := sat } := by
  unfold initialize_controller
  simp only [init_numerator_loop, init_denominator_loop, mem_loop_up]

theorem initialize_controller_history_zero (junk : controller_d_t) (gain : ℚ) (n m : Int)
    (num den : Nat → ℚ) (sat : ℚ) :
    history_zero (initialize_controller junk gain n m num den sat) := by
  rw [initialize_controller_eq]
  constructor
  · intro i hi
    simp only at hi ⊢
    rw [if_pos hi]
  · intro j hj
    simp only at hj ⊢
    rw [if_pos hj]

/-- Along any run from `d0` the gain, orders, coefficients and saturation stay
those of `d0`. -/
theorem reachable_same_coefficients (d0 d : controller_d_t) (h : reachable d0 d) :
    same_coefficients d0 d := by
  induction h with
  | start => exact same_coefficients_refl d0
  | step d e _ ih =>
    have hc := control_step_same_coefficients d e
    exact ⟨hc.1.trans ih.1, hc.2.1.trans ih.2.1, hc.2.2.1.trans ih.2.2.1,
      hc.2.2.2.1.trans ih.2.2.2.1, hc.2.2.2.2.1.trans ih.2.2.2.2.1,
      hc.2.2.2.2.2.trans ih.2.2.2.2.2⟩
  | clear d _ ih =>
    have hc := clear_controls_same_coefficients d
    exact ⟨hc.1.trans ih.1, hc.2.1.trans ih.2.1, hc.2.2.1.trans ih.2.2.1,
      hc.2.2.2.1.trans ih.2.2.2.1, hc.2.2.2.2.1.trans ih.2.2.2.2.1,
      hc.2.2.2.2.2.trans ih.2.2.2.2.2⟩

/-- Counterexample to claim C13 as stated: `initialize_controller` given
`denominator[0] = 0` (orders `n = m = 0`, well within the three slots) returns a
controller with that zero divisor stored, and nothing keeps it from being
passed to `control_step`. -/
theorem initialize_controller_rejects_counterexample :
    (initialize_controller example_junk 1 0 0 (fun _ => 1) (fun _ => 0) 1).denominator 0 = 0
    ∧ (initialize_controller example_junk 1 0 0 (fun _ => 1) (fun _ => 0) 1).n = 0
    ∧ (initialize_controller example_junk 1 0 0 (fun _ => 1) (fun _ => 0) 1).m = 0
    ∧ reachable (initialize_controller example_junk 1 0 0 (fun _ => 1) (fun _ => 0) 1)
        (control_step
          (initialize_controller example_junk 1 0 0 (fun _ => 1) (fun _ => 0) 1) 0.5).2 := by
  refine ⟨?_, ?_, ?_, reachable.step _ _ reachable.start⟩
  · rw [initialize_controller_eq]; simp
  · rw [initialize_controller_eq]
  · rw [initialize_controller_eq]

/-- Claim C13, amended. `initialize_controller` does not reject a zero
`denominator[0]`: for every gain, coefficient arrays and saturation, and orders
`n`, `m` within the three slots (`n ≤ 2`, `m ≤ 2`), it returns a controller holding
exactly those values, with `numerator[0..n]`, `denominator[0..m]` copied
(`denominator[0] = 0` included) and the history slots `inputs[0..n]`,
`outputs[0..m]` zeroed. The division by `denominator[0]` and the history indices
are well defined at runtime because of what the programs configure: in every
state reached from the `D1` and `D2` that `main` builds, `denominator[0] = 1` and
the orders are 2, 2 and 1, 1, within the three slots. -/
theorem initialize_controller_no_validation (junk : controller_d_t) :
    (∀ (gain : ℚ) (n m : Int) (num den : Nat → ℚ) (sat : ℚ), n ≤ 2 → m ≤ 2 →
      (initialize_controller junk gain n m num den sat).gain = gain
      ∧ (initialize_controller junk gain n m num den sat).n = n
      ∧ (initialize_controller junk gain n m num den sat).m = m
      ∧ (initialize_controller junk gain n m num den sat).saturation = sat
      ∧ (∀ i : Nat, (i : Int) ≤ n →
          (initialize_controller junk gain n m num den sat).numerator i = num i
          ∧ (initialize_controller junk gain n m num den sat).inputs i = 0)
      ∧ (∀ j : Nat, (j : Int) ≤ m →
          (initialize_controller junk gain n m num den sat).denominator j = den j
          ∧ (initialize_controller junk gain n m num den sat).outputs j = 0))
    ∧ (∀ d : controller_d_t, reachable (initial_D1 junk) d →
        d.denominator 0 = 1 ∧ d.n = 2 ∧ d.m = 2)
    ∧ (∀ d : controller_d_t, reachable (Balance_mip.initial_D2 junk) d →
        d.denominator 0 = 1 ∧ d.n = 1 ∧ d.m = 1) := by
  refine ⟨?_, ?_, ?_⟩
  · intro gain n m num den sat _ _
    rw [initialize_controller_eq]
    refine ⟨rfl, rfl, rfl, rfl, ?_, ?_⟩
    · intro i hi
      simp only
      rw [if_pos hi, if_pos hi]
      exact ⟨rfl, rfl⟩
    · intro j hj
      simp only
      rw [if_pos hj, if_pos hj]
      exact ⟨rfl, rfl⟩
  · intro d hd
    have hc := reachable_same_coefficients _ _ hd
    rw [hc.2.2.2.2.1, hc.2.1, hc.2.2.1]
    unfold initial_D1
    rw [initialize_controller_eq]
    simp [D1_DEN, D1_N, D1_M]
  · intro d hd
    have hc := reachable_same_coefficients _ _ hd
    rw [hc.2.2.2.2.1, hc.2.1, hc.2.2.1]
    unfold Balance_mip.initial_D2
    rw [initialize_controller_eq]
    simp [Balance_mip.D2_DEN, Balance_mip.D2_N, Balance_mip.D2_M]

/-- Witness for claim C13, amended: a first-order configuration with
`denominator[0] = 0` is returned as given, and the `D1` that `main` builds keeps
`denominator[0] = 1` and orders 2, 2 after a step and a clear. -/
theorem initialize_controller_no_validation_witness :
    (1 : Int) ≤ 2 ∧ (1 : Int) ≤ 2
    ∧ (initialize_controller example_junk 1 1 1 (fun _ => 1) (fun _ => 0) 1).denominator 0 = 0
    ∧ reachable (initial_D1 example_junk)
        (clear_controls (control_step (initial_D1 example_junk) 0.1).2)
    ∧ (clear_controls (control_step (initial_D1 example_junk) 0.1).2).denominator 0 = 1
    ∧ (clear_controls (control_step (initial_D1 example_junk) 0.1).2).n = 2
    ∧ (clear_controls (control_step (initial_D1 example_junk) 0.1).2).m = 2 :=
  ⟨by decide, by decide,
    ((initialize_controller_no_validation example_junk).1 1 1 1 (fun _ => 1) (fun _ => 0) 1
      (by decide) (by decide)).2.2.2.2.2 0 (by decide) |>.1,
    reachable.clear _ (reachable.step _ _ reachable.start),
    (initialize_controller_no_validation example_junk).2.1 _
      (reachable.clear _ (reachable.step _ _ reachable.start))⟩

/-! ## Filter runs -/

theorem filter_body_level (atan2 : ℚ → ℚ → ℚ) (DEG_TO_RAD THETA_OFFSET : ℚ)
    (f : filter_statics) (h0 : atan2 (-0) 1 = 0) (hf : rolling f = ⟨0, 0, 0, 0⟩) :
    (complementary_filter_body atan2 DEG_TO_RAD THETA_OFFSET f level_rest_sample).1 = THETA_OFFSET
      ∧ rolling (complementary_filter_body atan2 DEG_TO_RAD THETA_OFFSET f level_rest_sample).2
        = ⟨0, 0, 0, 0⟩ := by
  have h := complementary_filter_body_eq atan2 DEG_TO_RAD THETA_OFFSET f level_rest_sample
  have hA : atan2 (-level_rest_sample.accel 2) (level_rest_sample.accel 1) = 0 := by
    simpa [level_rest_sample] using h0
  rw [h.1, h.2, hf, hA]
  simp [filter_step_spec, level_rest_sample]

theorem body_filter_trace_level (atan2 : ℚ → ℚ → ℚ) (DEG_TO_RAD : ℚ) (h0 : atan2 (-0) 1 = 0)
    (k : Nat) (s : Balance_body.state) (hs : rolling s.filter = ⟨0, 0, 0, 0⟩) :
    (Balance_body.filter_trace atan2 DEG_TO_RAD s (List.replicate k level_rest_sample)).1
      = List.replicate k Balance_body.THETA_OFFSET := by
  induction k generalizing s with
  | zero => rfl
  | succ k ih =>
    have hl := filter_body_level atan2 DEG_TO_RAD Balance_body.THETA_OFFSET s.filter h0 hs
    simp only [List.replicate_succ, Balance_body.filter_trace]
    rw [ih _ hl.2]
    exact congrArg (· :: _) hl.1

theorem mip_filter_trace_level (atan2 : ℚ → ℚ → ℚ) (DEG_TO_RAD : ℚ) (h0 : atan2 (-0) 1 = 0)
    (k : Nat) (s : Balance_mip.state) (hs : rolling s.filter = ⟨0, 0, 0, 0⟩) :
    (Balance_mip.filter_trace atan2 DEG_TO_RAD s (List.replicate k level_rest_sample)).1
      = List.replicate k Balance_mip.THETA_OFFSET := by
  induction k generalizing s with
  | zero => rfl
  | succ k ih =>
    have hl := filter_body_level atan2 DEG_TO_RAD Balance_mip.THETA_OFFSET s.filter h0 hs
    simp only [List.replicate_succ, Balance_mip.filter_trace]
    rw [ih _ hl.2]
    exact congrArg (· :: _) hl.1

/-- Claim C14. Level-rest scenario: from the zero-initialised filter statics, with
the constant sample `accel = (0, 1, 0)`, `gyro = (0, 0, 0)` fed for 1000 ticks
(`DT = 0.01`, `OMEGA_C = 2`, taking `atan2(-0, 1) = 0`), the fused estimate
returned by `complementary_filter` at tick 1000 is within `0.01` of
`THETA_OFFSET`; in fact every one of the 1000 estimates equals `THETA_OFFSET`.
Stated for `balance_body` and for `balance_mip`. -/
theorem level_rest_scenario (atan2 : ℚ → ℚ → ℚ) (DEG_TO_RAD : ℚ)
    (sb : Balance_body.state) (sm : Balance_mip.state) (h0 : atan2 (-0) 1 = 0)
    (hb : sb.filter = filter_statics_zero) (hm : sm.filter = filter_statics_zero) :
    DT = 0.01 ∧ OMEGA_C = 2
    ∧ (Balance_body.filter_trace atan2 DEG_TO_RAD sb (List.replicate 1000 level_rest_sample)).1
        = List.replicate 1000 Balance_body.THETA_OFFSET
    ∧ (∃ est : ℚ,
        (Balance_body.filter_trace atan2 DEG_TO_RAD sb
            (List.replicate 1000 level_rest_sample)).1[999]? = some est
        ∧ |est - Balance_body.THETA_OFFSET| ≤ 0.01)
    ∧ (Balance_mip.filter_trace atan2 DEG_TO_RAD sm (List.replicate 1000 level_rest_sample)).1
        = List.replicate 1000 Balance_mip.THETA_OFFSET
    ∧ (∃ est : ℚ,
        (Balance_mip.filter_trace atan2 DEG_TO_RAD sm
            (List.replicate 1000 level_rest_sample)).1[999]? = some est
        ∧ |est - Balance_mip.THETA_OFFSET| ≤ 0.01) := by
  have eb := body_filter_trace_level atan2 DEG_TO_RAD h0 1000 sb (by rw [hb]; rfl)
  have em := mip_filter_trace_level atan2 DEG_TO_RAD h0 1000 sm (by rw [hm]; rfl)
  refine ⟨rfl, rfl, eb, ⟨Balance_body.THETA_OFFSET, ?_, ?_⟩, em,
    ⟨Balance_mip.THETA_OFFSET, ?_, ?_⟩⟩
  · rw [eb, List.getElem?_replicate, if_pos (by norm_num)]
  · norm_num
  · rw [em, List.getElem?_replicate, if_pos (by norm_num)]
  · norm_num

/-- Witness for claim C14: the level example states, with `atan2` standing at 0. -/
theorem level_rest_scenario_witness :
    example_atan2 (-0) 1 = 0
    ∧ example_body_state_level.filter = filter_statics_zero
    ∧ example_mip_state_level.filter = filter_statics_zero
    ∧ ∃ est : ℚ,
        (Balance_body.filter_trace example_atan2 example_DEG_TO_RAD example_body_state_level
            (List.replicate 1000 level_rest_sample)).1[999]? = some est
        ∧ |est - Balance_body.THETA_OFFSET| ≤ 0.01 :=
  ⟨rfl, rfl, rfl,
    (level_rest_scenario example_atan2 example_DEG_TO_RAD example_body_state_level
      example_mip_state_level rfl rfl rfl).2.2.2.1⟩

theorem filter_body_depends_on_rolling (atan2 : ℚ → ℚ → ℚ) (DEG_TO_RAD THETA_OFFSET : ℚ)
    (f f' : filter_statics) (imu : rc_imu_data_t) (h : rolling f = rolling f') :
    (complementary_filter_body atan2 DEG_TO_RAD THETA_OFFSET f imu).1
        = (complementary_filter_body atan2 DEG_TO_RAD THETA_OFFSET f' imu).1
      ∧ rolling (complementary_filter_body atan2 DEG_TO_RAD THETA_OFFSET f imu).2
        = rolling (complementary_filter_body atan2 DEG_TO_RAD THETA_OFFSET f' imu).2 := by
  have e := complementary_filter_body_eq atan2 DEG_TO_RAD THETA_OFFSET f imu
  have e' := complementary_filter_body_eq atan2 DEG_TO_RAD THETA_OFFSET f' imu
  rw [e.1, e.2, e'.1, e'.2, h]
  exact ⟨rfl, rfl⟩

theorem body_filter_trace_depends_on_rolling (atan2 : ℚ → ℚ → ℚ) (DEG_TO_RAD : ℚ)
    (samples : List rc_imu_data_t) (s s' : Balance_body.state)
    (h : rolling s.filter = rolling s'.filter) :
    (Balance_body.filter_trace atan2 DEG_TO_RAD s samples).1
        = (Balance_body.filter_trace atan2 DEG_TO_RAD s' samples).1
      ∧ rolling (Balance_body.filter_trace atan2 DEG_TO_RAD s samples).2.filter
        = rolling (Balance_body.filter_trace atan2 DEG_TO_RAD s' samples).2.filter := by
  induction samples generalizing s s' with
  | nil => exact ⟨rfl, h⟩
  | cons x xs ih =>
    have hx := filter_body_depends_on_rolling atan2 DEG_TO_RAD Balance_body.THETA_OFFSET
      s.filter s'.filter x h
    have hrest := ih (Balance_body.complementary_filter atan2 DEG_TO_RAD
        { s with imu_reader := x }).2
      (Balance_body.complementary_filter atan2 DEG_TO_RAD { s' with imu_reader := x }).2 hx.2
    simp only [Balance_body.filter_trace]
    exact ⟨by rw [hrest.1]; exact congrArg (· :: _) hx.1, hrest.2⟩

theorem mip_filter_trace_depends_on_rolling (atan2 : ℚ → ℚ → ℚ) (DEG_TO_RAD : ℚ)
    (samples : List rc_imu_data_t) (s s' : Balance_mip.state)
    (h : rolling s.filter = rolling s'.filter) :
    (Balance_mip.filter_trace atan2 DEG_TO_RAD s samples).1
        = (Balance_mip.filter_trace atan2 DEG_TO_RAD s' samples).1
      ∧ rolling (Balance_mip.filter_trace atan2 DEG_TO_RAD s samples).2.filter
        = rolling (Balance_mip.filter_trace atan2 DEG_TO_RAD s' samples).2.filter := by
  induction samples generalizing s s' with
  | nil => exact ⟨rfl, h⟩
  | cons x xs ih =>
    have hx := filter_body_depends_on_rolling atan2 DEG_TO_RAD Balance_mip.THETA_OFFSET
      s.filter s'.filter x h
    have hrest := ih (Balance_mip.complementary_filter atan2 DEG_TO_RAD
        { s with imu_reader := x }).2
      (Balance_mip.complementary_filter atan2 DEG_TO_RAD { s' with imu_reader := x }).2 hx.2
    simp only [Balance_mip.filter_trace]
    exact ⟨by rw [hrest.1]; exact congrArg (· :: _) hx.1, hrest.2⟩

/-- Claim C15. Filter determinism: `complementary_filter` is a function of its
four-value rolling state and the new sample only. In either program, two runs
over the same sample sequence from states with the same rolling filter state
(whatever else differs) return the same sequence of fused estimates and end
with the same rolling filter state; in particular two runs from the same
initial state do. -/
theorem filter_determinism (atan2 : ℚ → ℚ → ℚ) (DEG_TO_RAD : ℚ)
    (samples : List rc_imu_data_t) (sb sb' : Balance_body.state) (sm sm' : Balance_mip.state)
    (hb : rolling sb.filter = rolling sb'.filter) (hm : rolling sm.filter = rolling sm'.filter) :
    ((Balance_body.filter_trace atan2 DEG_TO_RAD sb samples).1
        = (Balance_body.filter_trace atan2 DEG_TO_RAD sb' samples).1
      ∧ rolling (Balance_body.filter_trace atan2 DEG_TO_RAD sb samples).2.filter
        = rolling (Balance_body.filter_trace atan2 DEG_TO_RAD sb' samples).2.filter)
    ∧ ((Balance_mip.filter_trace atan2 DEG_TO_RAD sm samples).1
        = (Balance_mip.filter_trace atan2 DEG_TO_RAD sm' samples).1
      ∧ rolling (Balance_mip.filter_trace atan2 DEG_TO_RAD sm samples).2.filter
        = rolling (Balance_mip.filter_trace atan2 DEG_TO_RAD sm' samples).2.filter) :=
  ⟨body_filter_trace_depends_on_rolling atan2 DEG_TO_RAD samples sb sb' hb,
    mip_filter_trace_depends_on_rolling atan2 DEG_TO_RAD samples sm sm' hm⟩

/-- Witness for claim C15: two states per program that agree on the rolling filter
state only, run over three samples. -/
theorem filter_determinism_witness :
    rolling example_body_state.filter = rolling example_body_state_other.filter
    ∧ rolling example_mip_state.filter = rolling example_mip_state_other.filter
    ∧ (Balance_body.filter_trace example_atan2 example_DEG_TO_RAD example_body_state
          [example_sample_moving, level_rest_sample, example_sample_moving]).1
        = (Balance_body.filter_trace example_atan2 example_DEG_TO_RAD example_body_state_other
          [example_sample_moving, level_rest_sample, example_sample_moving]).1 :=
  ⟨rfl, rfl,
    (filter_determinism example_atan2 example_DEG_TO_RAD
      [example_sample_moving, level_rest_sample, example_sample_moving]
      example_body_state example_body_state_other example_mip_state example_mip_state_other
      rfl rfl).1.1⟩

/-! ## History shift of `control_step` -/

theorem down_list_succ (k : Nat) :
    ((List.range (k + 1)).map (· + 1)).reverse
      = (k + 1) :: ((List.range k).map (· + 1)).reverse := by
  simp [List.range_succ]

theorem shift_inputs_loop (k : Nat) (d : controller_d_t) :
    (((List.range k).map (· + 1)).reverse).foldl
        (fun d i => set_input d i (d.inputs (i - 1))) d
      = { d with inputs := fun i => if 1 ≤ i ∧ i ≤ k then d.inputs (i - 1) else d.inputs i } := by
  induction k generalizing d with
  | zero =>
    simp only [List.range_zero, List.map_nil, List.reverse_nil, List.foldl_nil]
    have hfun : (fun i => if 1 ≤ i ∧ i ≤ 0 then d.inputs (i - 1) else d.inputs i) = d.inputs := by
      funext i
      rw [if_neg (by omega)]
    rw [hfun]
  | succ k ih =>
    rw [down_list_succ, List.foldl_cons, ih]
    simp only [set_input]
    congr 1
    funext i
    by_cases h1 : 1 ≤ i ∧ i ≤ k
    · rw [if_pos h1, if_pos ⟨h1.1, by omega⟩,
        Function.update_noteq (show i - 1 ≠ k + 1 by omega)]
    · rw [if_neg h1]
      by_cases h2 : i = k + 1
      · subst h2
        rw [Function.update_same, if_pos ⟨by omega, le_refl _⟩]
      · rw [Function.update_noteq h2, if_neg (by omega)]

theorem shift_outputs_loop (k : Nat) (d : controller_d_t) :
    (((List.range k).map (· + 1)).reverse).foldl
        (fun d l => set_output d l (d.outputs (l - 1))) d
      = { d with
          outputs := fun j => if 1 ≤ j ∧ j ≤ k then d.outputs (j - 1) else d.outputs j } := by
  induction k generalizing d with
  | zero =>
    simp only [List.range_zero, List.map_nil, List.reverse_nil, List.foldl_nil]
    have hfun : (fun j => if 1 ≤ j ∧ j ≤ 0 then d.outputs (j - 1) else d.outputs j)
        = d.outputs := by
      funext j
      rw [if_neg (by omega)]
    rw [hfun]
  | succ k ih =>
    rw [down_list_succ, List.foldl_cons, ih]
    simp only [set_output]
    congr 1
    funext j
    by_cases h1 : 1 ≤ j ∧ j ≤ k
    · rw [if_pos h1, if_pos ⟨h1.1, by omega⟩,
        Function.update_noteq (show j - 1 ≠ k + 1 by omega)]
    · rw [if_neg h1]
      by_cases h2 : j = k + 1
      · subst h2
        rw [Function.update_same, if_pos ⟨by omega, le_refl _⟩]
      · rw [Function.update_noteq h2, if_neg (by omega)]

/-- The controller left by `control_step`: the new error is in `inputs[0]` and
copied up the input history, `outputs[0]` is zeroed and that zero is copied up
the output history; the value computed by the difference equation is not kept. -/
theorem control_step_snd (d : controller_d_t) (e : ℚ) :
    (control_step d e).2
      = { d with
          inputs := fun i =>
            if 1 ≤ i ∧ i ≤ d.n.toNat then Function.update d.inputs 0 e (i - 1)
            else Function.update d.inputs 0 e i
          outputs := fun j =>
            if 1 ≤ j ∧ j ≤ d.m.toNat then Function.update d.outputs 0 0 (j - 1)
            else Function.update d.outputs 0 0 j } := by
  unfold control_step
  simp only [numerator_loop, denominator_loop _ (loop_up_from_one_ne_zero d.m), loop_down_to_one,
    shift_inputs_loop, shift_outputs_loop]
  simp only [set_output, set_input, Function.update_idem]

/-! ## Output history and the FIR form -/

theorem control_step_outputs_stay_zero (d : controller_d_t) (e : ℚ)
    (h : ∀ j : Nat, (j : Int) ≤ d.m → d.outputs j = 0) :
    ∀ j : Nat, (j : Int) ≤ d.m → (control_step d e).2.outputs j = 0 := by
  intro j hj
  rw [control_step_snd]
  simp only
  by_cases h1 : 1 ≤ j ∧ j ≤ d.m.toNat
  · rw [if_pos h1]
    by_cases h0 : j - 1 = 0
    · rw [h0, Function.update_same]
    · rw [Function.update_noteq h0]
      exact h (j - 1) (by omega)
  · rw [if_neg h1]
    have hj0 : j = 0 := by omega
    rw [hj0, Function.update_same]

theorem reachable_outputs_zero (d0 d : controller_d_t) (h0 : history_zero d0)
    (h : reachable d0 d) : ∀ j : Nat, (j : Int) ≤ d.m → d.outputs j = 0 := by
  induction h with
  | start => exact h0.2
  | step d e _ ih =>
    intro j hj
    rw [(control_step_same_coefficients d e).2.2.1] at hj
    exact control_step_outputs_stay_zero d e ih j hj
  | clear d _ _ => exact (clear_controls_history_zero d).2

/-- Claim C19. Output history is identically zero: in every compensator state
reachable from `initialize_controller` by any interleaving of `control_step`
(with any errors) and `clear_controls`, every output-history slot
`outputs[0..m]` equals 0. -/
theorem output_history_zero (junk : controller_d_t) (gain : ℚ) (n m : Int)
    (num den : Nat → ℚ) (sat : ℚ) (d : controller_d_t)
    (h : reachable (initialize_controller junk gain n m num den sat) d) :
    ∀ j : Nat, (j : Int) ≤ d.m → d.outputs j = 0 :=
  reachable_outputs_zero _ d (initialize_controller_history_zero junk gain n m num den sat) h

/-- Witness for claim C19: the `D1` of `main` after two steps, a clear and a third step. -/
theorem output_history_zero_witness :
    reachable (initialize_controller example_junk D1_GAIN D1_N D1_M D1_NUM D1_DEN D1_SATURATION)
        (control_step (clear_controls (control_step (control_step
          (initialize_controller example_junk D1_GAIN D1_N D1_M D1_NUM D1_DEN D1_SATURATION)
          0.5).2 (-3)).2) 0.25).2
    ∧ ∀ j : Nat, (j : Int) ≤ (control_step (clear_controls (control_step (control_step
          (initialize_controller example_junk D1_GAIN D1_N D1_M D1_NUM D1_DEN D1_SATURATION)
          0.5).2 (-3)).2) 0.25).2.m →
        (control_step (clear_controls (control_step (control_step
          (initialize_controller example_junk D1_GAIN D1_N D1_M D1_NUM D1_DEN D1_SATURATION)
          0.5).2 (-3)).2) 0.25).2.outputs j = 0 :=
  ⟨reachable.step _ _ (reachable.clear _ (reachable.step _ _
      (reachable.step _ _ reachable.start))),
    output_history_zero example_junk D1_GAIN D1_N D1_M D1_NUM D1_DEN D1_SATURATION _
      (reachable.step _ _ (reachable.clear _ (reachable.step _ _
        (reachable.step _ _ reachable.start))))⟩

theorem sum_range_truncate (N k : Nat) (f : Nat → ℚ) :
    ∑ i ∈ Finset.range N, (if i ≤ k then f i else 0)
      = ∑ i ∈ Finset.range (min N (k + 1)), f i := by
  rw [← Finset.sum_filter]
  congr 1
  ext i
  simp only [Finset.mem_filter, Finset.mem_range, lt_min_iff]
  omega

/-- Along a run from a compensator with zero history: the coefficients stay,
the output history stays zero, and `inputs[i]` for `1 ≤ i ≤ n` holds the error
given `i` calls ago (0 when there is none). -/
theorem state_after_history (d : controller_d_t) (e : Nat → ℚ) (hz : history_zero d) (k : Nat) :
    same_coefficients d (state_after d e k)
      ∧ (∀ j : Nat, (j : Int) ≤ d.m → (state_after d e k).outputs j = 0)
      ∧ (∀ i : Nat, 1 ≤ i → (i : Int) ≤ d.n →
          (state_after d e k).inputs i = if i ≤ k then e (k - i) else 0) := by
  induction k with
  | zero =>
    refine ⟨same_coefficients_refl d, hz.2, ?_⟩
    intro i h1 hi
    rw [if_neg (by omega)]
    exact hz.1 i hi
  | succ k ih =>
    obtain ⟨hc, hout, hin⟩ := ih
    have hc' := control_step_same_coefficients (state_after d e k) (e k)
    refine ⟨?_, ?_, ?_⟩
    · exact ⟨hc'.1.trans hc.1, hc'.2.1.trans hc.2.1, hc'.2.2.1.trans hc.2.2.1,
        hc'.2.2.2.1.trans hc.2.2.2.1, hc'.2.2.2.2.1.trans hc.2.2.2.2.1,
        hc'.2.2.2.2.2.trans hc.2.2.2.2.2⟩
    · intro j hj
      apply control_step_outputs_stay_zero (state_after d e k) (e k)
      · intro j' hj'
        rw [hc.2.2.1] at hj'
        exact hout j' hj'
      · rw [hc.2.2.1]
        exact hj
    · intro i h1 hi
      show (control_step (state_after d e k) (e k)).2.inputs i = _
      rw [control_step_snd]
      simp only
      rw [if_pos ⟨h1, by rw [hc.2.1]; omega⟩]
      by_cases hi1 : i = 1
      · subst hi1
        rw [Function.update_same, if_pos (by omega)]
        rfl
      · rw [Function.update_noteq (show i - 1 ≠ 0 by omega), hin (i - 1) (by omega) (by omega)]
        by_cases hk : i ≤ k + 1
        · rw [if_pos hk, if_pos (by omega)]
          congr 1
          omega
        · rw [if_neg hk, if_neg (by omega)]

/-- The duty of call number `k` of a run from a zero-history compensator with
`m ≥ 0` and `saturation ≥ 0` is the saturated FIR value. -/
theorem duty_at_eq_fir (d : controller_d_t) (e : Nat → ℚ) (hz : history_zero d)
    (hm : 0 ≤ d.m) (hsat : 0 ≤ d.saturation) (k : Nat) :
    duty_at d e k = fir_output d e k := by
  obtain ⟨hc, hout, hin⟩ := state_after_history d e hz k
  unfold duty_at fir_output
  rw [control_step_fst, hc.1, hc.2.1, hc.2.2.1, hc.2.2.2.1, hc.2.2.2.2.1, hc.2.2.2.2.2,
    saturate_eq_clamp _ _ hsat]
  have h2 : ((loop_up_from_one d.m).map
      (fun j => d.denominator j * (state_after d e k).outputs j)).sum = 0 := by
    apply List.sum_eq_zero
    intro x hx
    rw [List.mem_map] at hx
    obtain ⟨j, hj, rfl⟩ := hx
    rw [hout j ((mem_loop_up_from_one d.m j).mp hj).2, mul_zero]
  have h1 : ((loop_up d.n).map
      (fun i => d.gain * d.numerator i * (set_input (state_after d e k) 0 (e k)).inputs i)).sum
      = d.gain * ∑ i ∈ Finset.range (min (d.n + 1).toNat (k + 1)), d.numerator i * e (k - i) := by
    rw [sum_loop_up, ← sum_range_truncate, Finset.mul_sum]
    apply Finset.sum_congr rfl
    intro i hi
    rw [Finset.mem_range] at hi
    simp only [set_input, Function.update_apply]
    by_cases h0 : i = 0
    · subst h0
      rw [if_pos rfl, if_pos (Nat.zero_le k), Nat.sub_zero]
      ring
    · rw [if_neg h0, hin i (by omega) (by omega)]
      by_cases hk : i ≤ k
      · rw [if_pos hk, if_pos hk]
        ring
      · rw [if_neg hk, if_neg hk]
        ring
  rw [h1, h2, hout 0 (by exact_mod_cast hm)]
  congr 1
  ring

theorem fresh_history_zero (d : controller_d_t) (h : fresh d) : history_zero d := by
  rcases h with ⟨junk, gain, n, m, num, den, sat, rfl⟩ | ⟨d0, rfl⟩
  · exact initialize_controller_history_zero junk gain n m num den sat
  · exact clear_controls_history_zero d0

/-- Claim C20. The compensator is a saturated FIR filter: for a compensator fresh
from `initialize_controller` or `clear_controls` (`denominator[0] ≠ 0` and
`saturation ≥ 0`, with `m ≥ 0` so that `denominator[0]` and `outputs[0]` are slots
of it) and every error sequence `e`, the duty returned by call number `k`
(counted from 0) is
`clamp((gain/denominator[0]) · Σ_{i=0..min(n,k)} numerator[i]·e(k-i), -saturation, +saturation)`;
so a second fresh compensator that differs only in `denominator[1..m]` returns
the same duties. -/
theorem saturated_fir (d : controller_d_t) (e : Nat → ℚ) (hfresh : fresh d) (hm : 0 ≤ d.m)
    (_hden : d.denominator 0 ≠ 0) (hsat : 0 ≤ d.saturation) :
    (∀ k : Nat, duty_at d e k = fir_output d e k)
    ∧ (∀ d' : controller_d_t, fresh d' → d'.gain = d.gain → d'.n = d.n → d'.m = d.m →
        d'.numerator = d.numerator → d'.denominator 0 = d.denominator 0 →
        d'.saturation = d.saturation →
        ∀ k : Nat, duty_at d' e k = duty_at d e k) := by
  have hfir := duty_at_eq_fir d e (fresh_history_zero d hfresh) hm hsat
  refine ⟨hfir, ?_⟩
  intro d' hf' hg hn hm' hnum hden hs k
  rw [hfir k, duty_at_eq_fir d' e (fresh_history_zero d' hf') (by rw [hm']; exact hm)
    (by rw [hs]; exact hsat) k]
  unfold fir_output
  rw [hg, hn, hnum, hden, hs]

/-- Witness for claim C20: the cleared `D1` example on the errors `0.1, 0.05, -0.2`,
third call. -/
theorem saturated_fir_witness :
    fresh (clear_controls example_D1)
    ∧ 0 ≤ (clear_controls example_D1).m
    ∧ (clear_controls example_D1).denominator 0 ≠ 0
    ∧ 0 ≤ (clear_controls example_D1).saturation
    ∧ duty_at (clear_controls example_D1) example_errors 2
        = fir_output (clear_controls example_D1) example_errors 2 :=
  ⟨Or.inr ⟨example_D1, rfl⟩,
    by rw [clear_controls_eq]; simp [example_D1, D1_M],
    by rw [clear_controls_eq]; norm_num [example_D1, D1_DEN],
    by rw [clear_controls_eq]; norm_num [example_D1, D1_SATURATION],
    (saturated_fir (clear_controls example_D1) example_errors (Or.inr ⟨example_D1, rfl⟩)
      (by rw [clear_controls_eq]; simp [example_D1, D1_M])
      (by rw [clear_controls_eq]; norm_num [example_D1, D1_DEN])
      (by rw [clear_controls_eq]; norm_num [example_D1, D1_SATURATION])).1 2⟩

/-- Whenever `m ≥ 1`, the slot `outputs[1]` read by the next call holds 0 after
`control_step`, whatever the difference equation gave. -/
theorem control_step_outputs_one (d : controller_d_t) (e : ℚ) (hm : 1 ≤ d.m) :
    (control_step d e).2.outputs 1 = 0 := by
  rw [control_step_snd]
  simp only
  rw [if_pos ⟨le_refl 1, by omega⟩]
  exact Function.update_same _ _ _

theorem initial_D1_eq (junk : controller_d_t) :
    initial_D1 junk
      = { gain := D1_GAIN, n := 2, m := 2,
          numerator := fun i => if (i : Int) ≤ 2 then D1_NUM i else junk.numerator i
          denominator := fun j => if (j : Int) ≤ 2 then D1_DEN j else junk.denominator j
          inputs := fun i => if (i : Int) ≤ 2 then 0 else junk.inputs i
          outputs := fun j => if (j : Int) ≤ 2 then 0 else junk.outputs j
          saturation := D1_SATURATION } := by
  unfold initial_D1
  rw [initialize_controller_eq]
  rfl

/-- Evaluation for claim C18 at the `D1` that `main` builds, first call with
error `1`: the difference equation gives `raw = -4.24`, the duty is the clamped
`-1`, and `outputs[1]` afterwards holds `0`, not `raw`; the next call, with
error `0`, therefore subtracts nothing and returns `1`. -/
theorem control_step_feedback_evaluation :
    difference_equation (initial_D1 example_junk) 1 = -4.24
    ∧ (control_step (initial_D1 example_junk) 1).1 = -1
    ∧ (control_step (initial_D1 example_junk) 1).2.outputs 1 = 0
    ∧ (control_step (initial_D1 example_junk) 1).2.outputs 1
        ≠ difference_equation (initial_D1 example_junk) 1
    ∧ (control_step (control_step (initial_D1 example_junk) 1).2 0).1 = 1 := by
  have h3 : (3 : Int).toNat = 3 := rfl
  have h2 : (2 : Int).toNat = 2 := rfl
  have hraw : difference_equation (initial_D1 example_junk) 1 = -4.24 := by
    unfold difference_equation
    rw [← sum_loop_up, ← sum_loop_up_from_one, initial_D1_eq]
    norm_num [loop_up, loop_up_from_one, List.range_succ, h3, h2, D1_GAIN, D1_NUM, D1_DEN]
  have hout : (control_step (initial_D1 example_junk) 1).2.outputs 1 = 0 :=
    control_step_outputs_one _ _ (by rw [initial_D1_eq]; norm_num)
  refine ⟨hraw, ?_, hout, ?_, ?_⟩
  · rw [control_step_fst, initial_D1_eq]
    norm_num [loop_up, loop_up_from_one, List.range_succ, h3, h2, D1_GAIN, D1_NUM, D1_DEN,
      D1_SATURATION, set_input, saturate]
  · rw [hout, hraw]
    norm_num
  · rw [control_step_fst, control_step_snd, initial_D1_eq]
    norm_num [loop_up, loop_up_from_one, List.range_succ, h3, h2, D1_GAIN, D1_NUM, D1_DEN,
      D1_SATURATION, set_input, saturate, Function.update_apply]

/-! ## The outer thread and the operational state -/

theorem example_outer_error :
    outer_error_spec example_TWO_PI (example_mip_state.hw.encoder_pos ENCODER_CHANNEL_L)
        (example_mip_state.hw.encoder_pos ENCODER_CHANNEL_R) example_mip_state.current_theta
      = -(3.1416 * 195 / (35.577 * 60)) := by
  rw [outer_error_spec_eq]
  norm_num [example_TWO_PI, example_mip_state, example_hardware, ENCODER_CHANNEL_L,
    ENCODER_CHANNEL_R]

/-- Evaluation for claim C16 on the example state of `balance_mip` (encoders at
`120` and `-75`): however many outer periods the run lasts, the thread has
evaluated `outer_loop` once, and the reference angle it leaves differs from the
one two periodic evaluations would leave. -/
theorem outer_thread_evaluates_once :
    (∀ k : Nat, Balance_mip.outer_thread example_TWO_PI example_mip_state k
        = Balance_mip.outer_loop example_TWO_PI example_mip_state)
    ∧ (Balance_mip.outer_thread example_TWO_PI example_mip_state 2).D2
        = (control_step example_mip_state.D2 (-(3.1416 * 195 / (35.577 * 60)))).2
    ∧ (outer_task_periodic example_TWO_PI example_mip_state 2).D2
        = (control_step (control_step example_mip_state.D2 (-(3.1416 * 195 / (35.577 * 60)))).2
            (-(3.1416 * 195 / (35.577 * 60)))).2
    ∧ (Balance_mip.outer_thread example_TWO_PI example_mip_state 2).theta_r
        ≠ (outer_task_periodic example_TWO_PI example_mip_state 2).theta_r := by
  have hLex : INT_MIN ≤ example_mip_state.hw.encoder_pos ENCODER_CHANNEL_L
      ∧ example_mip_state.hw.encoder_pos ENCODER_CHANNEL_L ≤ INT_MAX := by
    simp [example_mip_state, example_hardware, ENCODER_CHANNEL_L, INT_MIN, INT_MAX]
  have hRex : INT_MIN < example_mip_state.hw.encoder_pos ENCODER_CHANNEL_R
      ∧ example_mip_state.hw.encoder_pos ENCODER_CHANNEL_R ≤ INT_MAX := by
    simp [example_mip_state, example_hardware, ENCODER_CHANNEL_R, INT_MIN, INT_MAX]
  have h1 : Balance_mip.outer_loop example_TWO_PI example_mip_state
      = { example_mip_state with
          theta_r := (control_step example_mip_state.D2 (-(3.1416 * 195 / (35.577 * 60)))).1
          D2 := (control_step example_mip_state.D2 (-(3.1416 * 195 / (35.577 * 60)))).2 } := by
    rw [outer_loop_eq _ _ hLex hRex, example_outer_error]
  have h2 : outer_task_periodic example_TWO_PI example_mip_state 2
      = { example_mip_state with
          theta_r := (control_step (control_step example_mip_state.D2
              (-(3.1416 * 195 / (35.577 * 60)))).2 (-(3.1416 * 195 / (35.577 * 60)))).1
          D2 := (control_step (control_step example_mip_state.D2
              (-(3.1416 * 195 / (35.577 * 60)))).2 (-(3.1416 * 195 / (35.577 * 60)))).2 } := by
    show Balance_mip.outer_loop example_TWO_PI
      (Balance_mip.outer_loop example_TWO_PI example_mip_state) = _
    rw [outer_loop_eq example_TWO_PI (Balance_mip.outer_loop example_TWO_PI example_mip_state)
      hLex hRex, h1]
    simp only
    have he := example_outer_error
    simp only [example_mip_state] at he ⊢
    rw [he]
  refine ⟨fun _ => rfl, ?_, ?_, ?_⟩
  · show (Balance_mip.outer_loop example_TWO_PI example_mip_state).D2 = _
    rw [h1]
  · rw [h2]
  · show (Balance_mip.outer_loop example_TWO_PI example_mip_state).theta_r ≠ _
    rw [h1, h2]
    simp only
    rw [control_step_fst, control_step_fst, control_step_snd]
    have t2 : (2 : Int).toNat = 2 := rfl
    have t1 : (1 : Int).toNat = 1 := rfl
    norm_num [example_mip_state, example_D2_running, loop_up, loop_up_from_one, set_input,
      saturate, Balance_mip.D2_N, Balance_mip.D2_M, Balance_mip.D2_GAIN, Balance_mip.D2_NUM,
      Balance_mip.D2_DEN, Balance_mip.D2_SATURATION, List.range_succ, t1, t2,
      Function.update_apply]

theorem body_inner_loop_ignores_rc_state (atan2 : ℚ → ℚ → ℚ) (DEG_TO_RAD : ℚ)
    (s : Balance_body.state) (st : rc_state_t) :
    Balance_body.inner_loop atan2 DEG_TO_RAD (Balance_body.with_rc_state s st)
      = Balance_body.with_rc_state (Balance_body.inner_loop atan2 DEG_TO_RAD s) st := by
  unfold Balance_body.inner_loop Balance_body.tip_check
  by_cases h : |(Balance_body.read_tilt atan2 DEG_TO_RAD s).current_theta| > TIP_ANGLE
  · have h' : |(Balance_body.read_tilt atan2 DEG_TO_RAD
        (Balance_body.with_rc_state s st)).current_theta| > TIP_ANGLE := h
    rw [if_pos h, if_pos h']
    rfl
  · have h' : ¬ |(Balance_body.read_tilt atan2 DEG_TO_RAD
        (Balance_body.with_rc_state s st)).current_theta| > TIP_ANGLE := h
    rw [if_neg h, if_neg h']
    rfl

theorem mip_inner_loop_ignores_rc_state (atan2 : ℚ → ℚ → ℚ) (DEG_TO_RAD : ℚ)
    (s : Balance_mip.state) (st : rc_state_t) :
    Balance_mip.inner_loop atan2 DEG_TO_RAD (Balance_mip.with_rc_state s st)
      = Balance_mip.with_rc_state (Balance_mip.inner_loop atan2 DEG_TO_RAD s) st := by
  unfold Balance_mip.inner_loop Balance_mip.tip_check
  by_cases h : |(Balance_mip.read_tilt atan2 DEG_TO_RAD s).current_theta| > TIP_ANGLE
  · have h' : |(Balance_mip.read_tilt atan2 DEG_TO_RAD
        (Balance_mip.with_rc_state s st)).current_theta| > TIP_ANGLE := h
    rw [if_pos h, if_pos h']
    rfl
  · have h' : ¬ |(Balance_mip.read_tilt atan2 DEG_TO_RAD
        (Balance_mip.with_rc_state s st)).current_theta| > TIP_ANGLE := h
    rw [if_neg h, if_neg h']
    rfl

theorem body_level_tick_motor_calls :
    (Balance_body.inner_loop example_atan2 example_DEG_TO_RAD
        example_body_state_level).hw.motor_calls = [(3, 0.636), (2, -0.636)] := by
  have ht := example_body_level_tilt
  have hsafe : |(Balance_body.read_tilt example_atan2 example_DEG_TO_RAD
      example_body_state_level).current_theta| ≤ TIP_ANGLE := by
    rw [ht]; norm_num [TIP_ANGLE, abs_le]
  unfold Balance_body.inner_loop
  rw [body_tip_check_safe _ hsafe]
  simp only [Balance_body.control_and_drive, rc_set_motor, rc_enable_motors, ht]
  rw [control_step_fst, clear_controls_eq]
  have t3 : (3 : Int).toNat = 3 := rfl
  have t2 : (2 : Int).toNat = 2 := rfl
  norm_num [Balance_body.read_tilt, Balance_body.complementary_filter, example_body_state_level,
    example_body_state, example_hardware, example_D1_running, loop_up, loop_up_from_one,
    set_input, saturate, D1_N, D1_M, D1_GAIN, D1_NUM, D1_DEN, D1_SATURATION, List.range_succ,
    t2, t3, Function.update_apply, Balance_body.THETA_REFERENCE, MOTOR_CHANNEL_L,
    MOTOR_CHANNEL_R, MOTOR_POLARITY_L, MOTOR_POLARITY_R]

/-- Counterexample to claim C17 as stated: a `balance_body` tick at level rest
(tilt `0.15`) issues the motor commands `+0.636` and `-0.636` when the
operational state is `PAUSED` and when it is `EXITING`, the same as when it is
`RUNNING`. -/
theorem tasks_poll_state_counterexample :
    example_body_state_level.hw.rc_state = rc_state_t.RUNNING
    ∧ (Balance_body.inner_loop example_atan2 example_DEG_TO_RAD
        example_body_state_level).hw.motor_calls = [(3, 0.636), (2, -0.636)]
    ∧ (Balance_body.inner_loop example_atan2 example_DEG_TO_RAD
        (Balance_body.with_rc_state example_body_state_level rc_state_t.PAUSED)).hw.motor_calls
        = [(3, 0.636), (2, -0.636)]
    ∧ (Balance_body.inner_loop example_atan2 example_DEG_TO_RAD
        (Balance_body.with_rc_state example_body_state_level rc_state_t.EXITING)).hw.motor_calls
        = [(3, 0.636), (2, -0.636)] := by
  refine ⟨rfl, body_level_tick_motor_calls, ?_, ?_⟩
  · rw [body_inner_loop_ignores_rc_state]
    exact body_level_tick_motor_calls
  · rw [body_inner_loop_ignores_rc_state]
    exact body_level_tick_motor_calls

/-- Claim C17, amended. An `inner_loop` tick does not poll the operational state:
in `balance_body` and in `balance_mip` it never reads or writes the process-wide
state, so it does the same whether that state is `RUNNING`, `PAUSED` or
`EXITING`: run from a state whose operational state is set to any `st`, the
tick gives the state it would have given otherwise, with the operational state
`st`; in particular the motor commands it issues are the same in all three. -/
theorem inner_loop_ignores_operational_state (atan2 : ℚ → ℚ → ℚ) (DEG_TO_RAD : ℚ)
    (sb : Balance_body.state) (sm : Balance_mip.state) (st : rc_state_t) :
    Balance_body.inner_loop atan2 DEG_TO_RAD (Balance_body.with_rc_state sb st)
        = Balance_body.with_rc_state (Balance_body.inner_loop atan2 DEG_TO_RAD sb) st
    ∧ Balance_mip.inner_loop atan2 DEG_TO_RAD (Balance_mip.with_rc_state sm st)
        = Balance_mip.with_rc_state (Balance_mip.inner_loop atan2 DEG_TO_RAD sm) st
    ∧ (Balance_body.inner_loop atan2 DEG_TO_RAD (Balance_body.with_rc_state sb st)).hw.motor_calls
        = (Balance_body.inner_loop atan2 DEG_TO_RAD sb).hw.motor_calls
    ∧ (Balance_mip.inner_loop atan2 DEG_TO_RAD (Balance_mip.with_rc_state sm st)).hw.motor_calls
        = (Balance_mip.inner_loop atan2 DEG_TO_RAD sm).hw.motor_calls
    ∧ (Balance_body.inner_loop atan2 DEG_TO_RAD sb).hw.rc_state = sb.hw.rc_state
    ∧ (Balance_mip.inner_loop atan2 DEG_TO_RAD sm).hw.rc_state = sm.hw.rc_state := by
  have hb := body_inner_loop_ignores_rc_state atan2 DEG_TO_RAD sb st
  have hm := mip_inner_loop_ignores_rc_state atan2 DEG_TO_RAD sm st
  refine ⟨hb, hm, by rw [hb]; rfl, by rw [hm]; rfl, ?_, ?_⟩
  · unfold Balance_body.inner_loop Balance_body.tip_check
    split_ifs <;> rfl
  · unfold Balance_mip.inner_loop Balance_mip.tip_check
    split_ifs <;> rfl

/-! ## Control on SAFE ticks -/

theorem body_tick_motor_calls (atan2 : ℚ → ℚ → ℚ) (DEG_TO_RAD : ℚ) (s : Balance_body.state) :
    (Balance_body.inner_loop atan2 DEG_TO_RAD s).hw.motor_calls
      = s.hw.motor_calls
        ++ [(MOTOR_CHANNEL_L, (control_step
              (Balance_body.tip_check (Balance_body.read_tilt atan2 DEG_TO_RAD s)).D1
              (Balance_body.THETA_REFERENCE
                - (Balance_body.read_tilt atan2 DEG_TO_RAD s).current_theta)).1),
            (MOTOR_CHANNEL_R, -(control_step
              (Balance_body.tip_check (Balance_body.read_tilt atan2 DEG_TO_RAD s)).D1
              (Balance_body.THETA_REFERENCE
                - (Balance_body.read_tilt atan2 DEG_TO_RAD s).current_theta)).1)] := by
  have hc := tip_check_motor_calls_body (Balance_body.read_tilt atan2 DEG_TO_RAD s)
  have ht := tip_check_current_theta_body (Balance_body.read_tilt atan2 DEG_TO_RAD s)
  simp only [Balance_body.inner_loop, Balance_body.control_and_drive, rc_set_motor,
    MOTOR_POLARITY_L, MOTOR_POLARITY_R, hc, ht, one_mul, neg_one_mul, List.append_assoc,
    List.singleton_append]
  rfl

theorem mip_tick_motor_calls (atan2 : ℚ → ℚ → ℚ) (DEG_TO_RAD : ℚ) (s : Balance_mip.state) :
    (Balance_mip.inner_loop atan2 DEG_TO_RAD s).hw.motor_calls
      = s.hw.motor_calls
        ++ [(MOTOR_CHANNEL_L, (control_step
              (Balance_mip.tip_check (Balance_mip.read_tilt atan2 DEG_TO_RAD s)).D1
              (s.theta_r - (Balance_mip.read_tilt atan2 DEG_TO_RAD s).current_theta)).1),
            (MOTOR_CHANNEL_R, -(control_step
              (Balance_mip.tip_check (Balance_mip.read_tilt atan2 DEG_TO_RAD s)).D1
              (s.theta_r - (Balance_mip.read_tilt atan2 DEG_TO_RAD s).current_theta)).1)] := by
  have hc := tip_check_motor_calls_mip (Balance_mip.read_tilt atan2 DEG_TO_RAD s)
  have ht := tip_check_reference_mip (Balance_mip.read_tilt atan2 DEG_TO_RAD s)
  simp only [Balance_mip.inner_loop, Balance_mip.control_and_drive, rc_set_motor,
    MOTOR_POLARITY_L, MOTOR_POLARITY_R, hc, ht.1, ht.2, one_mul, neg_one_mul,
    List.append_assoc, List.singleton_append]
  rfl

/-- The first step after a clear of a controller configured as `D1` sees only
the current error. -/
theorem cleared_D1_step (d : controller_d_t) (h : configured_as_D1 d) (err : ℚ) :
    (control_step (clear_controls d) err).1
        = clamp (D1_GAIN * D1_NUM 0 * err / D1_DEN 0) (-1) 1
      ∧ clamp (D1_GAIN * D1_NUM 0 * err / D1_DEN 0) (-1) 1 = clamp (-4.24 * err) (-1) 1 := by
  obtain ⟨hg, hn, hm, hnum, hden, hs⟩ := h
  have hc := clear_controls_same_coefficients d
  have hfir := duty_at_eq_fir (clear_controls d) (fun _ => err) (clear_controls_history_zero d)
    (by rw [hc.2.2.1, hm]; decide) (by rw [hc.2.2.2.2.2, hs]; norm_num [D1_SATURATION]) 0
  have hval : D1_GAIN * D1_NUM 0 * err / D1_DEN 0 = -4.24 * err := by
    norm_num [D1_GAIN, D1_NUM, D1_DEN]
  refine ⟨?_, by rw [hval]⟩
  have h0 : duty_at (clear_controls d) (fun _ => err) 0 = (control_step (clear_controls d) err).1 :=
    rfl
  rw [← h0, hfir]
  unfold fir_output
  rw [hc.1, hc.2.1, hc.2.2.2.1, hc.2.2.2.2.1, hc.2.2.2.2.2, hg, hn, hs, hden 0 (Nat.zero_le 2)]
  have hmin : min (D1_N + 1).toNat (0 + 1) = 1 := rfl
  rw [hmin, Finset.sum_range_one, hnum 0 (Nat.zero_le 2)]
  have h1 : D1_SATURATION = 1 := rfl
  rw [h1]
  congr 1
  ring

/-- Claim C21. Control is memoryless while SAFE: on an `inner_loop` tick with
`|tilt| ≤ TIP_ANGLE`, for a `D1` carrying the configured coefficients and
whatever history earlier ticks left in it, the duty commanded to the motors
(`+duty` on channel 3, `-duty` on channel 2) is
`clamp(D1_GAIN·D1_NUM[0]·(reference - tilt)/D1_DEN[0], -1, 1)
 = clamp(-4.24·(reference - tilt), -1, 1)`, with `reference = THETA_REFERENCE = 0`
in `balance_body` and `reference = theta_r` in `balance_mip`: `D1` is cleared just
before `control_step`, so no past error contributes. -/
theorem safe_control_memoryless (atan2 : ℚ → ℚ → ℚ) (DEG_TO_RAD : ℚ)
    (sb : Balance_body.state) (sm : Balance_mip.state)
    (hDb : configured_as_D1 sb.D1) (hDm : configured_as_D1 sm.D1)
    (hb : |(Balance_body.read_tilt atan2 DEG_TO_RAD sb).current_theta| ≤ TIP_ANGLE)
    (hm : |(Balance_mip.read_tilt atan2 DEG_TO_RAD sm).current_theta| ≤ TIP_ANGLE) :
    Balance_body.THETA_REFERENCE = 0
    ∧ (Balance_body.inner_loop atan2 DEG_TO_RAD sb).control_duty
        = clamp (D1_GAIN * D1_NUM 0
            * (Balance_body.THETA_REFERENCE
                - (Balance_body.read_tilt atan2 DEG_TO_RAD sb).current_theta) / D1_DEN 0) (-1) 1
    ∧ (Balance_body.inner_loop atan2 DEG_TO_RAD sb).control_duty
        = clamp (-4.24 * (0 - (Balance_body.read_tilt atan2 DEG_TO_RAD sb).current_theta)) (-1) 1
    ∧ (Balance_body.inner_loop atan2 DEG_TO_RAD sb).hw.motor_calls
        = sb.hw.motor_calls
          ++ [(3, clamp (-4.24
                * (0 - (Balance_body.read_tilt atan2 DEG_TO_RAD sb).current_theta)) (-1) 1),
              (2, -clamp (-4.24
                * (0 - (Balance_body.read_tilt atan2 DEG_TO_RAD sb).current_theta)) (-1) 1)]
    ∧ (Balance_mip.inner_loop atan2 DEG_TO_RAD sm).hw.motor_calls
        = sm.hw.motor_calls
          ++ [(3, clamp (D1_GAIN * D1_NUM 0
                * (sm.theta_r - (Balance_mip.read_tilt atan2 DEG_TO_RAD sm).current_theta)
                / D1_DEN 0) (-1) 1),
              (2, -clamp (D1_GAIN * D1_NUM 0
                * (sm.theta_r - (Balance_mip.read_tilt atan2 DEG_TO_RAD sm).current_theta)
                / D1_DEN 0) (-1) 1)]
    ∧ (Balance_mip.inner_loop atan2 DEG_TO_RAD sm).hw.motor_calls
        = sm.hw.motor_calls
          ++ [(3, clamp (-4.24
                * (sm.theta_r - (Balance_mip.read_tilt atan2 DEG_TO_RAD sm).current_theta))
                (-1) 1),
              (2, -clamp (-4.24
                * (sm.theta_r - (Balance_mip.read_tilt atan2 DEG_TO_RAD sm).current_theta))
                (-1) 1)] := by
  have eb : (Balance_body.tip_check (Balance_body.read_tilt atan2 DEG_TO_RAD sb)).D1
      = clear_controls sb.D1 := by
    rw [body_tip_check_safe _ hb]; rfl
  have em : (Balance_mip.tip_check (Balance_mip.read_tilt atan2 DEG_TO_RAD sm)).D1
      = clear_controls sm.D1 := by
    rw [mip_tip_check_safe _ hm]; rfl
  have hdb := cleared_D1_step sb.D1 hDb
    (Balance_body.THETA_REFERENCE - (Balance_body.read_tilt atan2 DEG_TO_RAD sb).current_theta)
  have hdm := cleared_D1_step sm.D1 hDm
    (sm.theta_r - (Balance_mip.read_tilt atan2 DEG_TO_RAD sm).current_theta)
  have href : Balance_body.THETA_REFERENCE = 0 := rfl
  have hduty : (Balance_body.inner_loop atan2 DEG_TO_RAD sb).control_duty
      = (control_step (clear_controls sb.D1) (Balance_body.THETA_REFERENCE
          - (Balance_body.read_tilt atan2 DEG_TO_RAD sb).current_theta)).1 := by
    unfold Balance_body.inner_loop
    rw [body_tip_check_safe _ hb]
    rfl
  have hcb := body_tick_motor_calls atan2 DEG_TO_RAD sb
  have hcm := mip_tick_motor_calls atan2 DEG_TO_RAD sm
  rw [eb, hdb.1, hdb.2, href] at hcb
  refine ⟨href, ?_, ?_, hcb, ?_, ?_⟩
  · rw [hduty, hdb.1]
  · rw [hduty, hdb.1, hdb.2, href]
  · rw [em, hdm.1] at hcm
    exact hcm
  · rw [em, hdm.1, hdm.2] at hcm
    exact hcm

/-- Every `D1` reached from the one `main` builds carries the `D1` configuration. -/
theorem reachable_initial_D1_configured (junk d : controller_d_t)
    (h : reachable (initial_D1 junk) d) : configured_as_D1 d := by
  obtain ⟨hg, hn, hm, hnum, hden, hs⟩ := reachable_same_coefficients _ _ h
  rw [initial_D1_eq] at hg hn hm hnum hden hs
  refine ⟨hg, hn, hm, ?_, ?_, hs⟩
  · intro i hi
    rw [hnum]
    simp only
    rw [if_pos (by exact_mod_cast hi)]
  · intro j hj
    rw [hden]
    simp only
    rw [if_pos (by exact_mod_cast hj)]

/-- Witness for claim C21: the level example states, whose `D1` holds two past
errors; the duty is `clamp(-4.24·(0 - 0.15)) = 0.636` in `balance_body`. -/
theorem safe_control_memoryless_witness :
    configured_as_D1 example_body_state_level.D1
    ∧ configured_as_D1 example_mip_state_level.D1
    ∧ |(Balance_body.read_tilt example_atan2 example_DEG_TO_RAD
        example_body_state_level).current_theta| ≤ TIP_ANGLE
    ∧ |(Balance_mip.read_tilt example_atan2 example_DEG_TO_RAD
        example_mip_state_level).current_theta| ≤ TIP_ANGLE
    ∧ (Balance_body.inner_loop example_atan2 example_DEG_TO_RAD
        example_body_state_level).control_duty
        = clamp (-4.24 * (0 - (Balance_body.read_tilt example_atan2 example_DEG_TO_RAD
            example_body_state_level).current_theta)) (-1) 1 :=
  ⟨⟨rfl, rfl, rfl, fun _ _ => rfl, fun _ _ => rfl, rfl⟩,
    ⟨rfl, rfl, rfl, fun _ _ => rfl, fun _ _ => rfl, rfl⟩,
    by rw [example_body_level_tilt]; norm_num [TIP_ANGLE, abs_le],
    by rw [example_mip_level_tilt]; norm_num [TIP_ANGLE, abs_le],
    (safe_control_memoryless example_atan2 example_DEG_TO_RAD example_body_state_level
      example_mip_state_level
      ⟨rfl, rfl, rfl, fun _ _ => rfl, fun _ _ => rfl, rfl⟩
      ⟨rfl, rfl, rfl, fun _ _ => rfl, fun _ _ => rfl, rfl⟩
      (by rw [example_body_level_tilt]; norm_num [TIP_ANGLE, abs_le])
      (by rw [example_mip_level_tilt]; norm_num [TIP_ANGLE, abs_le])).2.2.1⟩

/-! ## Lag, complementarity and stability of the filter -/

theorem filter_body_accel_lag (atan2 : ℚ → ℚ → ℚ) (DEG_TO_RAD THETA_OFFSET : ℚ)
    (f : filter_statics) (x x' y : rc_imu_data_t) (hg : x.gyro 0 = x'.gyro 0) :
    (complementary_filter_body atan2 DEG_TO_RAD THETA_OFFSET f x).1
        = (complementary_filter_body atan2 DEG_TO_RAD THETA_OFFSET f x').1
      ∧ (complementary_filter_body atan2 DEG_TO_RAD THETA_OFFSET
            (complementary_filter_body atan2 DEG_TO_RAD THETA_OFFSET f x).2 y).1
          - (complementary_filter_body atan2 DEG_TO_RAD THETA_OFFSET
            (complementary_filter_body atan2 DEG_TO_RAD THETA_OFFSET f x').2 y).1
        = OMEGA_C * DT
          * (atan2 (-x.accel 2) (x.accel 1) - atan2 (-x'.accel 2) (x'.accel 1)) := by
  constructor
  · simp only [complementary_filter_body, hg]
  · simp only [complementary_filter_body, hg]
    ring

/-- Claim C22. One-tick lag of the accelerometer branch, in `balance_body` and
`balance_mip`: for every filter state, every gyro value and any two
accelerometer samples, `complementary_filter` returns the same fused estimate
at this tick for both; the low-pass term uses `theta_a_raw[t-1]`, so the sample
first shows at the next tick, where the two estimates differ by
`OMEGA_C·DT = 0.02` times the difference of the two accelerometer angles. -/
theorem accelerometer_lag (atan2 : ℚ → ℚ → ℚ) (DEG_TO_RAD : ℚ)
    (sb : Balance_body.state) (sm : Balance_mip.state) (x x' y : rc_imu_data_t)
    (hg : x.gyro 0 = x'.gyro 0) :
    OMEGA_C * DT = 0.02
    ∧ (Balance_body.complementary_filter atan2 DEG_TO_RAD { sb with imu_reader := x }).1
        = (Balance_body.complementary_filter atan2 DEG_TO_RAD { sb with imu_reader := x' }).1
    ∧ (Balance_body.complementary_filter atan2 DEG_TO_RAD
          { (Balance_body.complementary_filter atan2 DEG_TO_RAD
              { sb with imu_reader := x }).2 with imu_reader := y }).1
        - (Balance_body.complementary_filter atan2 DEG_TO_RAD
          { (Balance_body.complementary_filter atan2 DEG_TO_RAD
              { sb with imu_reader := x' }).2 with imu_reader := y }).1
        = 0.02 * (atan2 (-x.accel 2) (x.accel 1) - atan2 (-x'.accel 2) (x'.accel 1))
    ∧ (Balance_mip.complementary_filter atan2 DEG_TO_RAD { sm with imu_reader := x }).1
        = (Balance_mip.complementary_filter atan2 DEG_TO_RAD { sm with imu_reader := x' }).1
    ∧ (Balance_mip.complementary_filter atan2 DEG_TO_RAD
          { (Balance_mip.complementary_filter atan2 DEG_TO_RAD
              { sm with imu_reader := x }).2 with imu_reader := y }).1
        - (Balance_mip.complementary_filter atan2 DEG_TO_RAD
          { (Balance_mip.complementary_filter atan2 DEG_TO_RAD
              { sm with imu_reader := x' }).2 with imu_reader := y }).1
        = 0.02 * (atan2 (-x.accel 2) (x.accel 1) - atan2 (-x'.accel 2) (x'.accel 1)) := by
  have hc : OMEGA_C * DT = 0.02 := by norm_num [OMEGA_C, DT]
  have hb := filter_body_accel_lag atan2 DEG_TO_RAD Balance_body.THETA_OFFSET sb.filter x x' y hg
  have hm := filter_body_accel_lag atan2 DEG_TO_RAD Balance_mip.THETA_OFFSET sm.filter x x' y hg
  rw [hc] at hb hm
  exact ⟨hc, hb.1, hb.2, hm.1, hm.2⟩

/-- Witness for claim C22: a level sample against a leaning one (angles `0` and
`0.5` under the small-angle stand-in), then a level sample. -/
theorem accelerometer_lag_witness :
    level_rest_sample.gyro 0 = example_sample_leaning.gyro 0
    ∧ (Balance_body.complementary_filter example_atan2_small_angle example_DEG_TO_RAD
          { example_body_state with imu_reader := level_rest_sample }).1
        = (Balance_body.complementary_filter example_atan2_small_angle example_DEG_TO_RAD
          { example_body_state with imu_reader := example_sample_leaning }).1
    ∧ (Balance_body.complementary_filter example_atan2_small_angle example_DEG_TO_RAD
          { (Balance_body.complementary_filter example_atan2_small_angle example_DEG_TO_RAD
              { example_body_state with imu_reader := level_rest_sample }).2
            with imu_reader := level_rest_sample }).1
        - (Balance_body.complementary_filter example_atan2_small_angle example_DEG_TO_RAD
          { (Balance_body.complementary_filter example_atan2_small_angle example_DEG_TO_RAD
              { example_body_state with imu_reader := example_sample_leaning }).2
            with imu_reader := level_rest_sample }).1
        = 0.02 * (example_atan2_small_angle (-level_rest_sample.accel 2)
              (level_rest_sample.accel 1)
            - example_atan2_small_angle (-example_sample_leaning.accel 2)
              (example_sample_leaning.accel 1)) :=
  ⟨rfl,
    (accelerometer_lag example_atan2_small_angle example_DEG_TO_RAD example_body_state
      example_mip_state level_rest_sample example_sample_leaning level_rest_sample rfl).2.1,
    (accelerometer_lag example_atan2_small_angle example_DEG_TO_RAD example_body_state
      example_mip_state level_rest_sample example_sample_leaning level_rest_sample rfl).2.2.1⟩

theorem body_filter_trace_eq_spec (atan2 : ℚ → ℚ → ℚ) (DEG_TO_RAD : ℚ)
    (xs : List rc_imu_data_t) (s : Balance_body.state) :
    (Balance_body.filter_trace atan2 DEG_TO_RAD s xs).1
        = (filter_spec_run OMEGA_C DT DEG_TO_RAD Balance_body.THETA_OFFSET (rolling s.filter)
            (xs.map (sample_angle_rate atan2))).1
      ∧ rolling (Balance_body.filter_trace atan2 DEG_TO_RAD s xs).2.filter
        = (filter_spec_run OMEGA_C DT DEG_TO_RAD Balance_body.THETA_OFFSET (rolling s.filter)
            (xs.map (sample_angle_rate atan2))).2 := by
  induction xs generalizing s with
  | nil => exact ⟨rfl, rfl⟩
  | cons x xs ih =>
    have hx := complementary_filter_body_eq atan2 DEG_TO_RAD Balance_body.THETA_OFFSET s.filter x
    have hrest := ih (Balance_body.complementary_filter atan2 DEG_TO_RAD
      { s with imu_reader := x }).2
    have hroll : rolling (Balance_body.complementary_filter atan2 DEG_TO_RAD
        { s with imu_reader := x }).2.filter
        = (filter_step_spec OMEGA_C DT DEG_TO_RAD Balance_body.THETA_OFFSET (rolling s.filter)
            (atan2 (-x.accel 2) (x.accel 1)) (x.gyro 0)).2 := hx.2
    have hest : (Balance_body.complementary_filter atan2 DEG_TO_RAD
        { s with imu_reader := x }).1
        = (filter_step_spec OMEGA_C DT DEG_TO_RAD Balance_body.THETA_OFFSET (rolling s.filter)
            (atan2 (-x.accel 2) (x.accel 1)) (x.gyro 0)).1 := hx.1
    rw [hroll] at hrest
    simp only [Balance_body.filter_trace, List.map_cons, filter_spec_run, sample_angle_rate]
    rw [hrest.1, hrest.2, hest]
    exact ⟨rfl, rfl⟩

theorem mip_filter_trace_eq_spec (atan2 : ℚ → ℚ → ℚ) (DEG_TO_RAD : ℚ)
    (xs : List rc_imu_data_t) (s : Balance_mip.state) :
    (Balance_mip.filter_trace atan2 DEG_TO_RAD s xs).1
        = (filter_spec_run OMEGA_C DT DEG_TO_RAD Balance_mip.THETA_OFFSET (rolling s.filter)
            (xs.map (sample_angle_rate atan2))).1
      ∧ rolling (Balance_mip.filter_trace atan2 DEG_TO_RAD s xs).2.filter
        = (filter_spec_run OMEGA_C DT DEG_TO_RAD Balance_mip.THETA_OFFSET (rolling s.filter)
            (xs.map (sample_angle_rate atan2))).2 := by
  induction xs generalizing s with
  | nil => exact ⟨rfl, rfl⟩
  | cons x xs ih =>
    have hx := complementary_filter_body_eq atan2 DEG_TO_RAD Balance_mip.THETA_OFFSET s.filter x
    have hrest := ih (Balance_mip.complementary_filter atan2 DEG_TO_RAD
      { s with imu_reader := x }).2
    have hroll : rolling (Balance_mip.complementary_filter atan2 DEG_TO_RAD
        { s with imu_reader := x }).2.filter
        = (filter_step_spec OMEGA_C DT DEG_TO_RAD Balance_mip.THETA_OFFSET (rolling s.filter)
            (atan2 (-x.accel 2) (x.accel 1)) (x.gyro 0)).2 := hx.2
    have hest : (Balance_mip.complementary_filter atan2 DEG_TO_RAD
        { s with imu_reader := x }).1
        = (filter_step_spec OMEGA_C DT DEG_TO_RAD Balance_mip.THETA_OFFSET (rolling s.filter)
            (atan2 (-x.accel 2) (x.accel 1)) (x.gyro 0)).1 := hx.1
    rw [hroll] at hrest
    simp only [Balance_mip.filter_trace, List.map_cons, filter_spec_run, sample_angle_rate]
    rw [hrest.1, hrest.2, hest]
    exact ⟨rfl, rfl⟩

/-- Complementarity of a run: when the stored low-pass and high-pass parts sum
to the stored raw angle, the two raw angles agree, and every new accelerometer
angle equals the new integrated gyro angle, each estimate is that angle plus
the offset. -/
theorem filter_spec_run_complementary (omega_c dt deg_to_rad theta_offset : ℚ)
    (samples : List (ℚ × ℚ)) (prev : rolling_state)
    (hsum : prev.theta_a_prev + prev.theta_g_prev = prev.theta_a_raw_prev)
    (hraw : prev.theta_a_raw_prev = prev.theta_g_raw_prev)
    (h : samples.map Prod.fst = integrated_gyro dt deg_to_rad prev.theta_g_raw_prev samples) :
    (filter_spec_run omega_c dt deg_to_rad theta_offset prev samples).1
      = samples.map (fun p => p.1 + theta_offset) := by
  induction samples generalizing prev with
  | nil => rfl
  | cons p rest ih =>
    simp only [List.map_cons, integrated_gyro, List.cons.injEq] at h
    obtain ⟨hA, hrest⟩ := h
    simp only [filter_spec_run, List.map_cons]
    have htail := ih (filter_step_spec omega_c dt deg_to_rad theta_offset prev p.1 p.2).2
      (by simp only [filter_step_spec]; rw [hA, ← hsum, ← hraw, ← hsum]; ring)
      (by simp only [filter_step_spec]; exact hA)
      (by simp only [filter_step_spec]; exact hrest)
    rw [htail]
    congr 1
    simp only [filter_step_spec]
    rw [hA, ← hraw, ← hsum]
    ring

/-- Claim C23. Exact complementarity: starting from the all-zero filter state, if
at every tick the raw accelerometer angle equals the integrated gyro angle,
then at every tick the low-pass and high-pass outputs sum to that angle
exactly: the value returned minus the offset is `theta_a_raw[t]`. This holds
for the filter step with any `omega_c` and `dt`, and for `complementary_filter`
of `balance_body` and `balance_mip` with their constants. -/
theorem exact_complementarity (atan2 : ℚ → ℚ → ℚ)
    (omega_c dt deg_to_rad theta_offset DEG_TO_RAD : ℚ) (samples : List (ℚ × ℚ))
    (sb : Balance_body.state) (sm : Balance_mip.state) (xs : List rc_imu_data_t)
    (hspec : samples.map Prod.fst = integrated_gyro dt deg_to_rad 0 samples)
    (hb : sb.filter = filter_statics_zero) (hm : sm.filter = filter_statics_zero)
    (hcode : (xs.map (sample_angle_rate atan2)).map Prod.fst
      = integrated_gyro DT DEG_TO_RAD 0 (xs.map (sample_angle_rate atan2))) :
    (filter_spec_run omega_c dt deg_to_rad theta_offset ⟨0, 0, 0, 0⟩ samples).1
        = samples.map (fun p => p.1 + theta_offset)
    ∧ (Balance_body.filter_trace atan2 DEG_TO_RAD sb xs).1
        = xs.map (fun x => atan2 (-x.accel 2) (x.accel 1) + Balance_body.THETA_OFFSET)
    ∧ (Balance_mip.filter_trace atan2 DEG_TO_RAD sm xs).1
        = xs.map (fun x => atan2 (-x.accel 2) (x.accel 1) + Balance_mip.THETA_OFFSET) := by
  have h0 : (0 : ℚ) + 0 = 0 := add_zero 0
  refine ⟨filter_spec_run_complementary omega_c dt deg_to_rad theta_offset samples ⟨0, 0, 0, 0⟩
    h0 rfl hspec, ?_, ?_⟩
  · rw [(body_filter_trace_eq_spec atan2 DEG_TO_RAD xs sb).1, hb]
    have hz : rolling filter_statics_zero = ⟨0, 0, 0, 0⟩ := rfl
    rw [hz, filter_spec_run_complementary OMEGA_C DT DEG_TO_RAD Balance_body.THETA_OFFSET
      (xs.map (sample_angle_rate atan2)) ⟨0, 0, 0, 0⟩ h0 rfl hcode, List.map_map]
    rfl
  · rw [(mip_filter_trace_eq_spec atan2 DEG_TO_RAD xs sm).1, hm]
    have hz : rolling filter_statics_zero = ⟨0, 0, 0, 0⟩ := rfl
    rw [hz, filter_spec_run_complementary OMEGA_C DT DEG_TO_RAD Balance_mip.THETA_OFFSET
      (xs.map (sample_angle_rate atan2)) ⟨0, 0, 0, 0⟩ h0 rfl hcode, List.map_map]
    rfl

/-- Witness for claim C23: two ticks with `omega_c·dt = 0.5` on the angles `0.1`,
`0.3`, and the two agreeing example samples (angles `0.1`, `0.06`) for the programs. -/
theorem exact_complementarity_witness :
    ([((0.1 : ℚ), (1 : ℚ)), (0.3, 2)].map Prod.fst
        = integrated_gyro 0.1 1 0 [((0.1 : ℚ), (1 : ℚ)), (0.3, 2)])
    ∧ example_body_state_level.filter = filter_statics_zero
    ∧ example_mip_state_level.filter = filter_statics_zero
    ∧ ((example_samples_agreeing.map (sample_angle_rate example_atan2_small_angle)).map Prod.fst
        = integrated_gyro DT 0.01 0
            (example_samples_agreeing.map (sample_angle_rate example_atan2_small_angle)))
    ∧ (filter_spec_run 5 0.1 1 0.15 ⟨0, 0, 0, 0⟩ [((0.1 : ℚ), (1 : ℚ)), (0.3, 2)]).1
        = [((0.1 : ℚ), (1 : ℚ)), (0.3, 2)].map (fun p => p.1 + 0.15)
    ∧ (Balance_body.filter_trace example_atan2_small_angle 0.01 example_body_state_level
          example_samples_agreeing).1
        = example_samples_agreeing.map (fun x =>
            example_atan2_small_angle (-x.accel 2) (x.accel 1) + Balance_body.THETA_OFFSET) :=
  ⟨by norm_num [integrated_gyro], rfl, rfl,
    by norm_num [integrated_gyro, example_samples_agreeing, sample_angle_rate,
      example_atan2_small_angle, DT],
    (exact_complementarity example_atan2_small_angle 5 0.1 1 0.15 0.01
      [((0.1 : ℚ), (1 : ℚ)), (0.3, 2)] example_body_state_level example_mip_state_level
      example_samples_agreeing (by norm_num [integrated_gyro]) rfl rfl
      (by norm_num [integrated_gyro, example_samples_agreeing, sample_angle_rate,
        example_atan2_small_angle, DT])).1,
    (exact_complementarity example_atan2_small_angle 5 0.1 1 0.15 0.01
      [((0.1 : ℚ), (1 : ℚ)), (0.3, 2)] example_body_state_level example_mip_state_level
      example_samples_agreeing (by norm_num [integrated_gyro]) rfl rfl
      (by norm_num [integrated_gyro, example_samples_agreeing, sample_angle_rate,
        example_atan2_small_angle, DT])).2.1⟩

theorem abs_convex_le (c a r M : ℚ) (hc0 : 0 ≤ c) (hc1 : c ≤ 1) (ha : |a| ≤ M) (hr : |r| ≤ M) :
    |(1 - c) * a + c * r| ≤ M := by
  rw [abs_le] at ha hr ⊢
  have h1 : 0 ≤ 1 - c := by linarith
  constructor
  · nlinarith [mul_nonneg h1 (by linarith : 0 ≤ a + M), mul_nonneg hc0 (by linarith : 0 ≤ r + M)]
  · nlinarith [mul_nonneg h1 (by linarith : 0 ≤ M - a), mul_nonneg hc0 (by linarith : 0 ≤ M - r)]

/-- Bound kept by a run: with `0 ≤ omega_c·dt ≤ 1`, if the stored low-pass value,
the stored raw angle and every accelerometer angle of the run lie in `[-M, M]`,
so do the low-pass value and the stored raw angle at the end. -/
theorem filter_spec_run_bounded (omega_c dt deg_to_rad theta_offset M : ℚ)
    (hc0 : 0 ≤ omega_c * dt) (hc1 : omega_c * dt ≤ 1)
    (samples : List (ℚ × ℚ)) (prev : rolling_state)
    (ha : |prev.theta_a_prev| ≤ M) (hr : |prev.theta_a_raw_prev| ≤ M)
    (hs : ∀ p ∈ samples, |p.1| ≤ M) :
    |(filter_spec_run omega_c dt deg_to_rad theta_offset prev samples).2.theta_a_prev| ≤ M
      ∧ |(filter_spec_run omega_c dt deg_to_rad theta_offset prev samples).2.theta_a_raw_prev|
          ≤ M := by
  induction samples generalizing prev with
  | nil => exact ⟨ha, hr⟩
  | cons p rest ih =>
    simp only [filter_spec_run]
    apply ih
    · simp only [filter_step_spec]
      exact abs_convex_le _ _ _ _ hc0 hc1 ha hr
    · simp only [filter_step_spec]
      exact hs p (List.mem_cons_self p rest)
    · intro q hq
      exact hs q (List.mem_cons_of_mem p hq)

theorem mem_take_sample_angle (atan2 : ℚ → ℚ → ℚ) (M : ℚ) (xs : List rc_imu_data_t) (k : Nat)
    (hxs : ∀ x ∈ xs, |atan2 (-x.accel 2) (x.accel 1)| ≤ M) :
    ∀ p ∈ (xs.take k).map (sample_angle_rate atan2), |p.1| ≤ M := by
  intro p hp
  rw [List.mem_map] at hp
  obtain ⟨x, hx, rfl⟩ := hp
  exact hxs x (List.mem_of_mem_take hx)

/-- Claim C24. Low-pass stability under the configuration precondition: the
configured constants satisfy `0 ≤ OMEGA_C·DT ≤ 1` (`2 · 0.01 = 0.02`); whenever
`0 ≤ omega_c·dt ≤ 1` the new low-pass value is the convex combination
`(1 - omega_c·dt)·theta_a + omega_c·dt·theta_a_raw` of its previous value and the
previous raw angle, so if the initial `theta_a`, the stored raw angle and every
raw accelerometer angle lie in `[-M, M]`, then `theta_a` lies in `[-M, M]` after
every tick, for the filter step with such `omega_c`, `dt` and for the filters
of both programs. -/
theorem low_pass_stability (atan2 : ℚ → ℚ → ℚ)
    (omega_c dt deg_to_rad theta_offset DEG_TO_RAD M : ℚ)
    (prev : rolling_state) (samples : List (ℚ × ℚ))
    (sb : Balance_body.state) (sm : Balance_mip.state) (xs : List rc_imu_data_t)
    (hc0 : 0 ≤ omega_c * dt) (hc1 : omega_c * dt ≤ 1)
    (ha : |prev.theta_a_prev| ≤ M) (hr : |prev.theta_a_raw_prev| ≤ M)
    (hs : ∀ p ∈ samples, |p.1| ≤ M)
    (hba : |sb.filter.theta_a1| ≤ M) (hbr : |sb.filter.theta_a_raw1| ≤ M)
    (hma : |sm.filter.theta_a1| ≤ M) (hmr : |sm.filter.theta_a_raw1| ≤ M)
    (hxs : ∀ x ∈ xs, |atan2 (-x.accel 2) (x.accel 1)| ≤ M) :
    (0 ≤ OMEGA_C * DT ∧ OMEGA_C * DT ≤ 1 ∧ OMEGA_C * DT = 2 * 0.01 ∧ OMEGA_C * DT = 0.02)
    ∧ (∀ A w : ℚ,
        (filter_step_spec omega_c dt deg_to_rad theta_offset prev A w).2.theta_a_prev
          = (1 - omega_c * dt) * prev.theta_a_prev + (omega_c * dt) * prev.theta_a_raw_prev)
    ∧ (∀ k : Nat,
        |(filter_spec_run omega_c dt deg_to_rad theta_offset prev
            (samples.take k)).2.theta_a_prev| ≤ M)
    ∧ (∀ k : Nat,
        |(Balance_body.filter_trace atan2 DEG_TO_RAD sb (xs.take k)).2.filter.theta_a1| ≤ M)
    ∧ (∀ k : Nat,
        |(Balance_mip.filter_trace atan2 DEG_TO_RAD sm (xs.take k)).2.filter.theta_a1| ≤ M) := by
  have hC0 : 0 ≤ OMEGA_C * DT := by norm_num [OMEGA_C, DT]
  have hC1 : OMEGA_C * DT ≤ 1 := by norm_num [OMEGA_C, DT]
  refine ⟨⟨hC0, hC1, by norm_num [OMEGA_C, DT], by norm_num [OMEGA_C, DT]⟩,
    fun _ _ => rfl, ?_, ?_, ?_⟩
  · intro k
    exact (filter_spec_run_bounded omega_c dt deg_to_rad theta_offset M hc0 hc1 (samples.take k)
      prev ha hr (fun p hp => hs p (List.mem_of_mem_take hp))).1
  · intro k
    have hbridge := (body_filter_trace_eq_spec atan2 DEG_TO_RAD (xs.take k) sb).2
    have hbound := (filter_spec_run_bounded OMEGA_C DT DEG_TO_RAD Balance_body.THETA_OFFSET M
      hC0 hC1 ((xs.take k).map (sample_angle_rate atan2)) (rolling sb.filter) hba hbr
      (mem_take_sample_angle atan2 M xs k hxs)).1
    rw [← hbridge] at hbound
    exact hbound
  · intro k
    have hbridge := (mip_filter_trace_eq_spec atan2 DEG_TO_RAD (xs.take k) sm).2
    have hbound := (filter_spec_run_bounded OMEGA_C DT DEG_TO_RAD Balance_mip.THETA_OFFSET M
      hC0 hC1 ((xs.take k).map (sample_angle_rate atan2)) (rolling sm.filter) hma hmr
      (mem_take_sample_angle atan2 M xs k hxs)).1
    rw [← hbridge] at hbound
    exact hbound

/-- Witness for claim C24: `M = 1`, `omega_c·dt = 0.5` from the rolling state
`(0.5, 0, -1, 0)` on the angles `1`, `-0.5`; for the programs, the tipped example
states (stored angles `1`) on a level and a leaning sample (angles `0`, `0.5`). -/
theorem low_pass_stability_witness :
    (0 : ℚ) ≤ 5 * 0.1 ∧ (5 : ℚ) * 0.1 ≤ 1
    ∧ |(0.5 : ℚ)| ≤ 1 ∧ |(-1 : ℚ)| ≤ 1
    ∧ (∀ p ∈ [((1 : ℚ), (3 : ℚ)), (-0.5, 0)], |p.1| ≤ 1)
    ∧ |example_body_state.filter.theta_a1| ≤ 1 ∧ |example_body_state.filter.theta_a_raw1| ≤ 1
    ∧ |example_mip_state.filter.theta_a1| ≤ 1 ∧ |example_mip_state.filter.theta_a_raw1| ≤ 1
    ∧ (∀ x ∈ [level_rest_sample, example_sample_leaning],
        |example_atan2_small_angle (-x.accel 2) (x.accel 1)| ≤ 1)
    ∧ (∀ k : Nat,
        |(Balance_body.filter_trace example_atan2_small_angle example_DEG_TO_RAD
            example_body_state
            ([level_rest_sample, example_sample_leaning].take k)).2.filter.theta_a1| ≤ 1) :=
  ⟨by norm_num, by norm_num, by norm_num [abs_le], by norm_num [abs_le],
    by intro p hp; simp only [List.mem_cons, List.mem_singleton, List.not_mem_nil, or_false] at hp
       rcases hp with rfl | rfl <;> norm_num [abs_le],
    by norm_num [example_body_state, example_filter_tipped],
    by norm_num [example_body_state, example_filter_tipped],
    by norm_num [example_mip_state, example_filter_tipped],
    by norm_num [example_mip_state, example_filter_tipped],
    by intro x hx; simp only [List.mem_cons, List.mem_singleton, List.not_mem_nil, or_false] at hx
       rcases hx with rfl | rfl <;>
         norm_num [level_rest_sample, example_sample_leaning, example_atan2_small_angle, abs_le],
    (low_pass_stability example_atan2_small_angle 5 0.1 1 0.15 example_DEG_TO_RAD 1
      ⟨0.5, 0, -1, 0⟩ [((1 : ℚ), (3 : ℚ)), (-0.5, 0)] example_body_state example_mip_state
      [level_rest_sample, example_sample_leaning]
      (by norm_num) (by norm_num) (by norm_num [abs_le]) (by norm_num [abs_le])
      (by intro p hp
          simp only [List.mem_cons, List.mem_singleton, List.not_mem_nil, or_false] at hp
          rcases hp with rfl | rfl <;> norm_num [abs_le])
      (by norm_num [example_body_state, example_filter_tipped])
      (by norm_num [example_body_state, example_filter_tipped])
      (by norm_num [example_mip_state, example_filter_tipped])
      (by norm_num [example_mip_state, example_filter_tipped])
      (by intro x hx
          simp only [List.mem_cons, List.mem_singleton, List.not_mem_nil, or_false] at hx
          rcases hx with rfl | rfl <;>
            norm_num [level_rest_sample, example_sample_leaning, example_atan2_small_angle,
              abs_le])).2.2.2.1⟩

/-! ## Outer-loop error computation -/

/-- Counterexample to claim C12 as stated: with the right encoder at
`R = INT_MIN` (left at 0, tilt 0) the `int` product `R·(-1)` overflows and comes
back as `INT_MIN`; `outer_loop` then writes `theta_r = +0.3`, while
`control_step(D2, theta - π·(L - R)/(35.577·60))` returns `-0.3`. -/
theorem outer_loop_error_counterexample :
    example_mip_state_far.hw.encoder_pos ENCODER_CHANNEL_L = 0
    ∧ example_mip_state_far.hw.encoder_pos ENCODER_CHANNEL_R = INT_MIN
    ∧ example_mip_state_far.current_theta = 0
    ∧ (Balance_mip.outer_loop example_TWO_PI example_mip_state_far).theta_r = 0.3
    ∧ outer_error_spec example_TWO_PI 0 INT_MIN 0
        = 0 - (example_TWO_PI / 2) * ((0 : ℚ) - (INT_MIN : ℚ)) / (35.577 * 60)
    ∧ (control_step example_mip_state_far.D2 (outer_error_spec example_TWO_PI 0 INT_MIN 0)).1
        = -0.3 := by
  have t2 : (2 : Int).toNat = 2 := rfl
  have t1 : (1 : Int).toNat = 1 := rfl
  have hL : example_mip_state_far.hw.encoder_pos ENCODER_CHANNEL_L = 0 := by
    simp [example_mip_state_far, ENCODER_CHANNEL_L]
  have hR : example_mip_state_far.hw.encoder_pos ENCODER_CHANNEL_R = INT_MIN := by
    simp [example_mip_state_far, ENCODER_CHANNEL_R]
  refine ⟨hL, hR, rfl, ?_, outer_error_spec_eq _ _ _ _, ?_⟩
  · rw [outer_loop_unfold]
    simp only
    rw [hL, hR, int_mul_min_neg_one, int_mul_one 0 (by decide) (by decide), control_step_fst]
    norm_num [example_mip_state_far, example_mip_state, example_D2_running, loop_up,
      loop_up_from_one, set_input, saturate, Balance_mip.D2_N, Balance_mip.D2_M,
      Balance_mip.D2_GAIN, Balance_mip.D2_NUM, Balance_mip.D2_DEN, Balance_mip.D2_SATURATION,
      List.range_succ, t1, t2, Function.update_apply, Balance_mip.PHI_REFERENCE, GEARBOX,
      ENCODER_RES, example_TWO_PI, INT_MIN]
  · rw [outer_error_spec_eq, control_step_fst]
    norm_num [example_mip_state_far, example_mip_state, example_D2_running, loop_up,
      loop_up_from_one, set_input, saturate, Balance_mip.D2_N, Balance_mip.D2_M,
      Balance_mip.D2_GAIN, Balance_mip.D2_NUM, Balance_mip.D2_DEN, Balance_mip.D2_SATURATION,
      List.range_succ, t1, t2, Function.update_apply, example_TWO_PI, INT_MIN]

/-- Claim C12, amended. Outer-loop error computation: for `int` encoder counts `L`
(left, channel 3) and `R` (right, channel 2) with `R ≠ INT_MIN`, and current
tilt `theta`, one evaluation of `outer_loop` computes
`l_wheel = L·(+1)·2π/(GEARBOX·ENCODER_RES)`,
`r_wheel = R·(-1)·2π/(GEARBOX·ENCODER_RES)`,
`current_phi = 0.5·(l_wheel + r_wheel) - theta` and
`phi_error = PHI_REFERENCE - current_phi = theta - π·(L - R)/(35.577·60)`, and
writes into `theta_r` the value `control_step(D2, phi_error)` returns (stepping
`D2`), so that afterwards `|theta_r|` is at most the saturation limit stored in
`D2`; in every state of the `D2` that `main` builds that limit is
`D2_SATURATION`, `0.3` in the header. -/
theorem outer_loop_error_computation (TWO_PI : ℚ) (s : Balance_mip.state)
    (hL : INT_MIN ≤ s.hw.encoder_pos 3 ∧ s.hw.encoder_pos 3 ≤ INT_MAX)
    (hR : INT_MIN < s.hw.encoder_pos 2 ∧ s.hw.encoder_pos 2 ≤ INT_MAX)
    (hsat : 0 ≤ s.D2.saturation) :
    ENCODER_CHANNEL_L = 3 ∧ ENCODER_CHANNEL_R = 2
    ∧ outer_error_spec TWO_PI (s.hw.encoder_pos 3) (s.hw.encoder_pos 2) s.current_theta
        = s.current_theta
          - (TWO_PI / 2) * ((s.hw.encoder_pos 3 : ℚ) - (s.hw.encoder_pos 2 : ℚ)) / (35.577 * 60)
    ∧ (Balance_mip.outer_loop TWO_PI s).theta_r
        = (control_step s.D2 (outer_error_spec TWO_PI (s.hw.encoder_pos 3) (s.hw.encoder_pos 2)
            s.current_theta)).1
    ∧ (Balance_mip.outer_loop TWO_PI s).D2
        = (control_step s.D2 (outer_error_spec TWO_PI (s.hw.encoder_pos 3) (s.hw.encoder_pos 2)
            s.current_theta)).2
    ∧ |(Balance_mip.outer_loop TWO_PI s).theta_r| ≤ s.D2.saturation
    ∧ Balance_mip.D2_SATURATION = 0.3
    ∧ (∀ junk d : controller_d_t, reachable (Balance_mip.initial_D2 junk) d →
        d.saturation = Balance_mip.D2_SATURATION) := by
  have he := outer_loop_eq TWO_PI s hL hR
  refine ⟨rfl, rfl, outer_error_spec_eq _ _ _ _, ?_, ?_, ?_, rfl, ?_⟩
  · rw [he]; rfl
  · rw [he]; rfl
  · rw [he]
    exact control_step_abs_le s.D2 (outer_error_spec TWO_PI
      (s.hw.encoder_pos ENCODER_CHANNEL_L) (s.hw.encoder_pos ENCODER_CHANNEL_R) s.current_theta)
      hsat
  · intro junk d hd
    rw [(reachable_same_coefficients _ _ hd).2.2.2.2.2]
    unfold Balance_mip.initial_D2
    rw [initialize_controller_eq]

/-- Witness for claim C12, amended: the example state of `balance_mip`, encoders
at `120` and `-75`. -/
theorem outer_loop_error_computation_witness :
    (INT_MIN ≤ example_mip_state.hw.encoder_pos 3 ∧ example_mip_state.hw.encoder_pos 3 ≤ INT_MAX)
    ∧ (INT_MIN < example_mip_state.hw.encoder_pos 2
        ∧ example_mip_state.hw.encoder_pos 2 ≤ INT_MAX)
    ∧ 0 ≤ example_mip_state.D2.saturation
    ∧ |(Balance_mip.outer_loop example_TWO_PI example_mip_state).theta_r|
        ≤ example_mip_state.D2.saturation :=
  ⟨by simp [example_mip_state, example_hardware, INT_MIN, INT_MAX],
    by simp [example_mip_state, example_hardware, INT_MIN, INT_MAX],
    by norm_num [example_mip_state, example_D2_running, Balance_mip.D2_SATURATION],
    (outer_loop_error_computation example_TWO_PI example_mip_state
      (by simp [example_mip_state, example_hardware, INT_MIN, INT_MAX])
      (by simp [example_mip_state, example_hardware, INT_MIN, INT_MAX])
      (by norm_num [example_mip_state, example_D2_running,
        Balance_mip.D2_SATURATION])).2.2.2.2.2.1⟩

/-! ## Saturation under binary32 overflow -/

theorem foldl_saturation_f32 (l : List Nat) (f : controller_f32 → Nat → controller_f32)
    (hf : ∀ d i, (f d i).saturation = d.saturation) (d : controller_f32) :
    (l.foldl f d).saturation = d.saturation := by
  induction l generalizing d with
  | nil => rfl
  | cons a l ih => rw [List.foldl_cons, ih, hf]

/-- The saturation check on a `float32` value: the two comparisons of
`control_step`, which let NaN through. -/
theorem saturate_f32_bound_or_nan (x : float32) (s : ℚ) (hs : 0 ≤ s) :
    (if float32.gt x (float32.finite s) then float32.finite s
      else if float32.lt x (float32.neg (float32.finite s)) then float32.neg (float32.finite s)
      else x) = float32.nan
    ∨ float32.abs_le
        (if float32.gt x (float32.finite s) then float32.finite s
          else if float32.lt x (float32.neg (float32.finite s))
            then float32.neg (float32.finite s)
          else x) (float32.finite s) := by
  cases x with
  | nan => left; simp [float32.gt, float32.lt, float32.neg]
  | inf b =>
    right
    cases b <;> simp [float32.gt, float32.lt, float32.neg, float32.abs_le, float32.le, hs]
  | finite a =>
    right
    by_cases h1 : a > s
    · simp [float32.gt, float32.lt, float32.neg, float32.abs_le, float32.le, h1, hs]
    · by_cases h2 : a < -s
      · simp [float32.gt, float32.lt, float32.neg, float32.abs_le, float32.le, h1, h2, hs]
      · simp only [float32.gt, float32.lt, float32.neg, float32.abs_le, float32.le, h1, h2,
          decide_False, decide_True, if_false, Bool.false_eq_true, gt_iff_lt, decide_eq_true_eq]
        push_neg at h1 h2
        exact ⟨h2, h1⟩

/-- With the binary32 special values, a duty returned by `control_step` is within
the saturation bounds or is NaN. -/
theorem control_step_f32_bound_or_nan (d : controller_f32) (e : float32) (s : ℚ)
    (hd : d.saturation = float32.finite s) (hs : 0 ≤ s) :
    (control_step_f32 d e).1 = float32.nan
      ∨ float32.abs_le (control_step_f32 d e).1 d.saturation := by
  unfold control_step_f32
  simp only []
  rw [foldl_saturation_f32, foldl_saturation_f32]
  · simp only [hd]
    exact saturate_f32_bound_or_nan _ s hs
  · intro _ _; rfl
  · intro _ _; rfl

/-- Claim C2. The saturation check of `control_step` lets NaN through: with the
binary32 rules for overflow, controller `D1` as `main` builds it (saturation `1`,
`denominator[0] = 1`, zero history) stepped twice on the error `1e38` returns
`-1` and then NaN. In the first call `-4.24·1e38` overflows to `-inf`, clamped
to `-1`; in the second call the term of `inputs[1]` is `+inf`, the sum of `-inf`
and `+inf` is NaN, and NaN is neither `> saturation` nor `< -saturation`, so it
is returned as the duty, outside `[-saturation, saturation]`. -/
theorem saturation_check_passes_nan :
    D1_f32.saturation = float32.finite 1
      ∧ D1_f32.denominator 0 = float32.finite 1
      ∧ (control_step_f32 D1_f32
          (float32.finite 100000000000000000000000000000000000000)).1 = float32.finite (-1)
      ∧ (control_step_f32
          (control_step_f32 D1_f32
            (float32.finite 100000000000000000000000000000000000000)).2
          (float32.finite 100000000000000000000000000000000000000)).1 = float32.nan
      ∧ ¬ float32.abs_le float32.nan D1_f32.saturation := by
  have t3 : (3 : Int).toNat = 3 := rfl
  have t2 : (2 : Int).toNat = 2 := rfl
  refine ⟨?_, ?_, ?_, ?_, ?_⟩ <;>
  norm_num [control_step_f32, D1_f32, loop_up, loop_up_from_one, loop_down_to_one,
    List.range_succ, t2, t3, D1_N, D1_M, D1_GAIN, D1_NUM, D1_DEN, D1_SATURATION,
    Function.update_apply, float32.add, float32.sub, float32.mul, float32.div, float32.neg,
    float32.gt, float32.lt, float32.of_exact, FLT_OVERFLOW, float32.abs_le, float32.le]

end EduMiP
